import Mathlib

/-! # node-red-contrib-flow-dispatcher: sheet pruning, subflow closure, dispatch protocol

A shallow embedding of `traverse_subflows`, `sheet_prune` and the request handlers from
`Communicator-nodes/Communicator.js` and `Dispatcher-nodes/Dispatcher.js`.

Modelling conventions.

* The parsed `flows` array is a `List (Option Node)`: `none` is a `null` entry of the
  array, `some n` is an object.  An attribute that is absent from the object
  (`undefined` in JavaScript) is `none` in the record.
* The attributes the code reads or writes are typed: `id`, `type`, `z`, `label`,
  `server` and `client` are strings, `x` and `y` are integers, `wires` is an array of
  arrays of ids.  All remaining attributes are kept, uninterpreted, in `other`.
* A JavaScript evaluation either returns a value, throws (a `TypeError` from reading a
  property of `null` or `undefined`), or, for the recursion of `traverse_subflows`
  run with a bounded number of rounds, has not finished (`diverge`).
* `Math.random` is an oracle: `get_node_id i` is the string returned by the `i`-th
  call of the local function `get_node_id` during one call of `sheet_prune`.
* Objects of the pruned flow are distinguished by where they come from (`PNode`), which
  is how reference identity (`pruned_flow.indexOf(ws_cfg)`) is represented.
-/

namespace FlowDispatcher

/-- Result of evaluating a piece of JavaScript. -/
inductive Outcome (α : Type) where
  | ret (a : α)
  | throw
  | diverge
deriving DecidableEq, Repr

/-- A graph node as parsed from the `/flows` response. -/
structure Node where
  id : Option String
  type : Option String
  z : Option String
  label : Option String
  x : Option Int
  y : Option Int
  wires : Option (List (List String))
  server : Option String
  client : Option String
  other : List (String × String)
deriving DecidableEq, Repr

/-- The parsed `flows` array; `none` is a `null` entry. -/
abbrev Flows := List (Option Node)

/-- Truthiness of a string-valued attribute: `undefined` and `""` are falsy. -/
def truthyStr : Option String → Bool
  | some s => s != ""
  | none => false

/-- Truthiness of a number-valued attribute: `undefined` and `0` are falsy. -/
def truthyNum : Option Int → Bool
  | some v => v != 0
  | none => false

/-- The test `~xs.indexOf(v)` for an attribute value `v` and an array of strings `xs`. -/
def indexOfFound (xs : List String) : Option String → Bool
  | some v => decide (v ∈ xs)
  | none => false

/-- The test `!s.indexOf(pfx)`: `pfx` occurs in `s` at index 0. -/
def startsWith (s pfx : String) : Bool :=
  pfx.data.isPrefixOf s.data

/-- The call `s.substr(n)`. -/
def substr (s : String) (n : Nat) : String :=
  ⟨s.data.drop n⟩

/-- The loop `for(var k in flows)` of `traverse_subflows`, started with the array `subs`. -/
def scan_subflows (added_subs now_subs : List String) : Flows → List String → Outcome (List String)
  | [], subs => .ret subs
  | none :: _, _ => .throw
  | some n :: rest, subs =>
    if indexOfFound added_subs n.z then
      match n.type with
      | none => .throw
      | some ty =>
        if startsWith ty "subflow:" then
          let sub_id := substr ty "subflow:".length
          if sub_id ∉ subs ∧ sub_id ∉ now_subs then
            scan_subflows added_subs now_subs rest (subs ++ [sub_id])
          else
            scan_subflows added_subs now_subs rest subs
        else
          scan_subflows added_subs now_subs rest subs
    else
      scan_subflows added_subs now_subs rest subs

/-- The function `traverse_subflows`, limited to `fuel` activations. -/
def traverse_subflows_fuel : Nat → Flows → List String → List String → Outcome (List String)
  | 0, _, _, _ => .diverge
  | fuel + 1, flows, added_subs, now_subs =>
    match scan_subflows added_subs now_subs flows [] with
    | .ret subs =>
      if subs.length ≠ 0 then
        traverse_subflows_fuel fuel flows subs (now_subs ++ subs)
      else
        .ret now_subs
    | .throw => .throw
    | .diverge => .diverge

namespace Communicator

/-- The function `traverse_subflows` of `Communicator.js` (lines 346-361). -/
def traverse_subflows (flows : Flows) (added_subs now_subs : List String) : Outcome (List String) :=
  traverse_subflows_fuel (flows.length + 1) flows added_subs now_subs

end Communicator

namespace Dispatcher

/-- The function `traverse_subflows` of `Dispatcher.js` (lines 198-213). -/
def traverse_subflows (flows : Flows) (added_subs now_subs : List String) : Outcome (List String) :=
  traverse_subflows_fuel (flows.length + 1) flows added_subs now_subs

end Dispatcher

/-- A JavaScript number as far as `flows[k].y + 50` needs it. -/
inductive JsNum where
  | nan
  | int (v : Int)
deriving DecidableEq, Repr

/-- The expression `y + 50` for an attribute `y` (`undefined + 50` is `NaN`). -/
def plus50 : Option Int → JsNum
  | some v => .int (v + 50)
  | none => .nan

/-- The object `ws_cfg` synthesized by `sheet_prune`. -/
structure WsCfg where
  id : String
  type : String
  path : String
  wholemsg : String
deriving DecidableEq, Repr

/-- The object `func_node` synthesized by `sheet_prune` for a delegate-in node. -/
structure FuncNode where
  id : String
  type : String
  name : String
  func : String
  outputs : Nat
  noerr : Nat
  x : Option Int
  y : JsNum
  z : Option String
  wires : Option (List (List String))
deriving DecidableEq, Repr

/-- An element of `pruned_flow`: the configuration object, an adapter object, or one of
the objects of `flows`. -/
inductive PNode where
  | cfg (c : WsCfg)
  | func (f : FuncNode)
  | orig (n : Node)
deriving DecidableEq, Repr

/-- The runtime node handle, as far as `sheet_prune` reads it. -/
structure CommNode where
  id : String
  sheet : String
  protocol : String
  local_url : String
deriving DecidableEq, Repr

/-- The record returned by the Communicator `sheet_prune`; `flow = none` is `null`. -/
structure PruneResult where
  status : Nat
  flow : Option (List PNode)
  msg : String
deriving DecidableEq, Repr

/-- The local variables of the main loop of the Communicator `sheet_prune`;
`calls` counts the calls of `get_node_id` made so far. -/
structure LoopState where
  pruned_flow : List PNode
  node_id : String
  d_in : Nat
  d_out : Nat
  calls : Nat
deriving DecidableEq, Repr

/-- The loop `find user specified tab id`: the value left in `tab_id`
(`none` for `null` or `undefined`). -/
def find_tab (sheet : String) : Flows → Outcome (Option String)
  | [] => .ret none
  | none :: _ => .throw
  | some n :: rest =>
    if n.type = some "tab" ∧ n.label = some sheet then .ret n.id else find_tab sheet rest

/-- The selection condition of `sheet_prune` (cases 1 to 4). -/
def selected (tab_id : String) (sub_flows : List String) (n : Node) : Bool :=
  decide (n.id = some tab_id) || decide (n.z = some tab_id) || indexOfFound sub_flows n.z ||
    (decide (n.type = some "subflow") && indexOfFound sub_flows n.id)

/-- The condition of the `else if` branch of `sheet_prune`: a configuration node. -/
def is_config (n : Node) : Bool :=
  !(decide (n.type = some "tab") || decide (n.type = some "subflow")) &&
    !(truthyNum n.x || truthyNum n.y || truthyStr n.z)

namespace Communicator

def PRUNE_OK : Nat := 0
def PRUNE_NOT_FOUND_ERR : Nat := 1
def PRUNE_DELEGATE_ERR : Nat := 2
def PRUNE_UNKNOWN_ERR : Nat := 3

/-- The source text of the adapter function. -/
def reset_ws_sess_func : String :=
  "if(msg._session) \x7b\n" ++
  "    msg.session_in = msg._session;\n" ++
  "    delete msg._session;\n" ++
  "\x7d\n" ++
  "return msg;"

/-- The object literal assigned to `func_node`. -/
def mk_func_node (node_id : String) (n : Node) : FuncNode :=
  { id := node_id, type := "function", name := "reset-ws-sess", func := reset_ws_sess_func,
    outputs := 1, noerr := 0, x := n.x, y := plus50 n.y, z := n.z, wires := n.wires }

/-- One iteration of the main loop on the object `n`: the object after the iteration
and the new values of the local variables. -/
def prune_step (get_node_id : Nat → String) (tab_id : String) (sub_flows : List String)
    (ws_cfg : WsCfg) (n : Node) (st : LoopState) : Node × LoopState :=
  if selected tab_id sub_flows n then
    if n.type = some "flow-dlg-in" ∨ n.type = some "flow-dlg-out" then
      let pf1 := if PNode.cfg ws_cfg ∉ st.pruned_flow then st.pruned_flow ++ [PNode.cfg ws_cfg]
        else st.pruned_flow
      let n1 : Node := { n with server := some "", client := some st.node_id }
      if n.type = some "flow-dlg-in" then
        let node_id := get_node_id st.calls
        let func_node := mk_func_node node_id n1
        let n2 : Node := { n1 with type := some "websocket in", wires := some [[node_id]] }
        (n2, { pruned_flow := pf1 ++ [PNode.func func_node] ++ [PNode.orig n2],
               node_id := node_id, d_in := st.d_in + 1, d_out := st.d_out,
               calls := st.calls + 1 })
      else
        let n2 : Node := { n1 with type := some "websocket out" }
        (n2, { pruned_flow := pf1 ++ [PNode.orig n2], node_id := st.node_id,
               d_in := st.d_in, d_out := st.d_out + 1, calls := st.calls })
    else
      (n, { st with pruned_flow := st.pruned_flow ++ [PNode.orig n] })
  else if is_config n then
    (n, { st with pruned_flow := st.pruned_flow ++ [PNode.orig n] })
  else
    (n, st)

/-- The main loop of `sheet_prune`: the array `flows` after the loop (its objects are
modified in place) and the final local variables, or the exception. -/
def prune_loop (get_node_id : Nat → String) (tab_id : String) (sub_flows : List String)
    (ws_cfg : WsCfg) : Flows → LoopState → Flows × Outcome LoopState
  | [], st => ([], .ret st)
  | none :: rest, _ => (none :: rest, .throw)
  | some n :: rest, st =>
    let r := prune_step get_node_id tab_id sub_flows ws_cfg n st
    let rr := prune_loop get_node_id tab_id sub_flows ws_cfg rest r.2
    (some r.1 :: rr.1, rr.2)

/-- The delegate count check after the loop: status and message. -/
def delegate_check (d_in d_out : Nat) : Nat × String :=
  if d_in = 0 ∧ d_out = 0 then
    (PRUNE_DELEGATE_ERR, "Neither delegate-in node nor delegate-out node exists.")
  else if d_in > 1 ∨ d_out > 1 then
    (PRUNE_DELEGATE_ERR, "Number of delegate nodes error. " ++
      "(#dlg-in: " ++ toString d_in ++ ", #dlg-out: " ++ toString d_out ++ ")")
  else
    (PRUNE_OK, "Prune ok")

/-- The test `/^https$/i.test(s)`. -/
def is_https (s : String) : Bool :=
  s.data.map Char.toLower == "https".data

/-- The object literal assigned to `ws_cfg`. -/
def mk_ws_cfg (node_id : String) (node : CommNode) : WsCfg :=
  { id := node_id, type := "websocket-client",
    path := (if is_https node.protocol then "wss" else "ws") ++ "://" ++
      node.local_url ++ "/" ++ node.id,
    wholemsg := "false" }

/-- The local variables when the main loop starts: one call of `get_node_id` was made,
for the id of `ws_cfg`. -/
def init_state (get_node_id : Nat → String) : LoopState :=
  { pruned_flow := [], node_id := get_node_id 0, d_in := 0, d_out := 0, calls := 1 }

/-- The body of the `try` block of `sheet_prune`. -/
def prune_try (get_node_id : Nat → String) (flows : Flows) (node : CommNode) (tab_id : String) :
    Flows × Outcome PruneResult :=
  match traverse_subflows flows [tab_id] [] with
  | .throw => (flows, .throw)
  | .diverge => (flows, .diverge)
  | .ret sub_flows =>
    match prune_loop get_node_id tab_id sub_flows (mk_ws_cfg (get_node_id 0) node) flows
        (init_state get_node_id) with
    | (flows1, .ret st) =>
      let c := delegate_check st.d_in st.d_out
      (flows1, .ret { status := c.1, flow := some st.pruned_flow, msg := c.2 })
    | (flows1, .throw) => (flows1, .throw)
    | (flows1, .diverge) => (flows1, .diverge)

/-- The function `sheet_prune` of `Communicator.js` (lines 365-481) together with the
array `flows` as the call leaves it. -/
def sheet_prune_run (get_node_id : Nat → String) (flows : Flows) (node : CommNode) :
    Flows × Outcome PruneResult :=
  match find_tab node.sheet flows with
  | .throw => (flows, .throw)
  | .diverge => (flows, .diverge)
  | .ret tab =>
    match tab with
    | some tab_id =>
      if tab_id ≠ "" then
        match prune_try get_node_id flows node tab_id with
        | (flows1, .ret r) => (flows1, .ret r)
        | (flows1, .throw) =>
          (flows1, .ret { status := PRUNE_UNKNOWN_ERR, flow := none,
                          msg := "Exception while sheet pruning." })
        | (flows1, .diverge) => (flows1, .diverge)
      else
        (flows, .ret { status := PRUNE_NOT_FOUND_ERR, flow := none,
                       msg := "Sheet not found (" ++ node.sheet ++ ")" })
    | none =>
      (flows, .ret { status := PRUNE_NOT_FOUND_ERR, flow := none,
                     msg := "Sheet not found (" ++ node.sheet ++ ")" })

/-- The value returned by `sheet_prune` of `Communicator.js`. -/
def sheet_prune (get_node_id : Nat → String) (flows : Flows) (node : CommNode) :
    Outcome PruneResult :=
  (sheet_prune_run get_node_id flows node).2

end Communicator

namespace Dispatcher

/-- The selection loop of the Dispatcher `sheet_prune`. -/
def prune_loop (tab_id : String) (sub_flows : List String) : Flows → List Node → Outcome (List Node)
  | [], pruned => .ret pruned
  | none :: _, _ => .throw
  | some n :: rest, pruned =>
    if selected tab_id sub_flows n then
      prune_loop tab_id sub_flows rest (pruned ++ [n])
    else
      prune_loop tab_id sub_flows rest pruned

/-- The function `sheet_prune` of `Dispatcher.js` (lines 217-244); `none` is `null`. -/
def sheet_prune (flows : Flows) (name : String) : Outcome (Option (List Node)) :=
  match find_tab name flows with
  | .throw => .throw
  | .diverge => .diverge
  | .ret tab =>
    match tab with
    | some tab_id =>
      if tab_id ≠ "" then
        match traverse_subflows flows [tab_id] [] with
        | .throw => .throw
        | .diverge => .diverge
        | .ret sub_flows =>
          match prune_loop tab_id sub_flows flows [] with
          | .ret pruned => .ret (some pruned)
          | .throw => .throw
          | .diverge => .diverge
      else
        .ret none
    | none => .ret none

end Dispatcher

/-- A node with only `id`, `type` and `z`. -/
def mkNode (id type : String) (z : Option String) : Node :=
  { id := some id, type := some type, z := z, label := none, x := none, y := none,
    wires := none, server := none, client := none, other := [] }

/-- A tab node. -/
def mkTab (id label : String) : Node :=
  { id := some id, type := some "tab", z := none, label := some label, x := none, y := none,
    wires := none, server := none, client := none, other := [] }

/-- Every entry of `flows` is an object that has a `type`. -/
def HasTypes (flows : Flows) : Bool :=
  flows.all (fun e => match e with
    | some n => n.type.isSome
    | none => false)

/-- No entry of `flows` is `null`. -/
def NoNull (flows : Flows) : Bool :=
  flows.all (fun e => e.isSome)

/-- Some node of `flows` placed in container `c` is an instance of subflow `s`. -/
def Ref (flows : Flows) (c s : String) : Prop :=
  ∃ n, some n ∈ flows ∧ n.z = some c ∧ n.type = some ("subflow:" ++ s)

/-- The set `S` is closed under following instance references from tab `t`: it holds `s`
whenever some node of `flows` has type `"subflow:" + s` and has `z` equal to `t` or to a
member of `S`. -/
def Closed (flows : Flows) (t : String) (S : Set String) : Prop :=
  ∀ (n : Node) (s : String), some n ∈ flows → n.type = some ("subflow:" ++ s) →
    (n.z = some t ∨ ∃ c ∈ S, n.z = some c) → s ∈ S

/-- The subflow ids named by the instance nodes of `flows`. -/
def instance_ids (flows : Flows) : List String :=
  flows.filterMap (fun e => match e with
    | some n => (match n.type with
      | some ty => if startsWith ty "subflow:" then some (substr ty "subflow:".length) else none
      | none => none)
    | none => none)

/-- The number of instance ids not yet in `now_subs`: it bounds the remaining rounds of
`traverse_subflows`. -/
def remaining (flows : Flows) (now_subs : List String) : Nat :=
  ((instance_ids flows).toFinset \ now_subs.toFinset).card

/-- A graph whose subflows `s1` and `s2` contain instances of each other; `s3` is used
only on another tab. -/
def cyclicFlows : Flows :=
  [some (mkTab "t" "X"), some (mkTab "u" "Y"),
   some (mkNode "a" "subflow:s1" (some "t")),
   some (mkNode "b" "subflow:s2" (some "s1")),
   some (mkNode "c" "subflow:s1" (some "s2")),
   some (mkNode "d" "subflow:s3" (some "u")),
   some (mkNode "s1" "subflow" none), some (mkNode "s2" "subflow" none),
   some (mkNode "s3" "subflow" none)]

/-- Every entry of `flows` is an object with a `type` and a non-empty `id`. -/
def WellFormed (flows : Flows) : Bool :=
  flows.all (fun e => match e with
    | some n => n.type.isSome && truthyStr n.id
    | none => false)

/-- The first tab of `flows` whose label is `sheet`. -/
def first_tab (sheet : String) (flows : Flows) : Option Node :=
  (flows.filterMap id).find? (fun n => decide (n.type = some "tab" ∧ n.label = some sheet))

/-- Membership in the selected sheet: the tab `t`, a node placed on it, or a node placed in
a subflow of the closure `cl`. -/
def in_sheet (t : String) (cl : List String) (n : Node) : Bool :=
  decide (n.id = some t) || decide (n.z = some t) || indexOfFound cl n.z

/-- The number of nodes of type `ty` in the selected sheet. -/
def sheet_count (ty : String) (t : String) (cl : List String) (flows : Flows) : Nat :=
  (flows.filterMap id).countP (fun n => decide (n.type = some ty) && in_sheet t cl n)

/-- The objects of `flows` inside a pruned flow, the synthesized objects left out. -/
def origs (fl : List PNode) : List Node :=
  fl.filterMap (fun p => match p with
    | .orig n => some n
    | _ => none)

/-- The element is the synthesized configuration object. -/
def PNode.isCfg : PNode → Bool
  | .cfg _ => true
  | _ => false

namespace Communicator

/-- The main loop of `sheet_prune` on an array of objects (no `null` entry). -/
def prune_steps (get_node_id : Nat → String) (tab_id : String) (sub_flows : List String)
    (ws_cfg : WsCfg) : List Node → LoopState → List Node × LoopState
  | [], st => ([], st)
  | n :: rest, st =>
    let r := prune_step get_node_id tab_id sub_flows ws_cfg n st
    let rr := prune_steps get_node_id tab_id sub_flows ws_cfg rest r.2
    (r.1 :: rr.1, rr.2)

end Communicator

/-- Invariant of the main loop: the configuration object is in `pruned_flow` exactly once
as soon as a delegate was counted, and no other configuration object is. -/
def CfgInv (cfg : WsCfg) (st : LoopState) : Prop :=
  (∀ p ∈ st.pruned_flow, p.isCfg = true → p = PNode.cfg cfg) ∧
  st.pruned_flow.countP PNode.isCfg = (if st.d_in + st.d_out = 0 then 0 else 1)

/-- A delegate node of type `ty` placed in container `z`. -/
def mkDelegate (id ty z : String) (wires : List (List String)) : Node :=
  { id := some id, type := some ty, z := some z, label := none, x := some 100, y := some 80,
    wires := some wires, server := none, client := none, other := [] }

/-- The tab `X` of the examples. -/
def exTab : Node := mkTab "t" "X"

/-- A delegate-in node on tab `X`, wired to `o1`. -/
def exIn : Node := mkDelegate "i1" "flow-dlg-in" "t" [["o1"]]

/-- A delegate-out node on tab `X`. -/
def exOut : Node := mkDelegate "o1" "flow-dlg-out" "t" []

/-- A second delegate-out node on tab `X`. -/
def exOut2 : Node := mkDelegate "o2" "flow-dlg-out" "t" []

/-- A node with `x = 0`, `y = 0` and no `z`. -/
def exOrigin : Node :=
  { id := some "n1", type := some "comment", z := none, label := none, x := some 0,
    y := some 0, wires := none, server := none, client := none, other := [] }

/-- The delegate-in `n` after its rewriting. -/
def wsIn (n : Node) (client adapter : String) : Node :=
  { n with type := some "websocket in", server := some "", client := some client,
           wires := some [[adapter]] }

/-- The delegate-out `n` after its rewriting. -/
def wsOut (n : Node) (client : String) : Node :=
  { n with type := some "websocket out", server := some "", client := some client }

/-- Tab `X` with one delegate-in and one delegate-out, in that order. -/
def inOutFlows : Flows := [some exTab, some exIn, some exOut]

/-- Tab `X` with one delegate-out and no delegate-in. -/
def outOnlyFlows : Flows := [some exTab, some exOut]

/-- Tab `X` with two delegate-out nodes and no delegate-in. -/
def twoOutFlows : Flows := [some exTab, some exOut, some exOut2]

/-- Tab `X` with one delegate of each kind and a node that has `x = 0`, `y = 0` and no `z`. -/
def originFlows : Flows := [some exTab, some exOut, some exIn, some exOrigin]

/-- A graph whose second entry is `null`. -/
def nullFlows : Flows := [some exTab, none]

/-- The condition under which the main loop of `sheet_prune` pushes an object of `flows`:
it is selected (cases 1 to 4), or it is not a tab or subflow and its `x`, `y` and `z` are
all falsy. -/
def member (t : String) (cl : List String) (n : Node) : Bool :=
  selected t cl n || is_config n

/-- The membership predicate read with absent attributes: the selected tab, a node whose `z`
is the tab id or in the closure, a subflow definition of the closure, or a node that is not
a tab or subflow and has no `x`, no `y` and no `z`. -/
def spec_member (t : String) (cl : List String) (n : Node) : Bool :=
  decide (n.id = some t) || decide (n.z = some t) || indexOfFound cl n.z ||
    (decide (n.type = some "subflow") && indexOfFound cl n.id) ||
    (!(decide (n.type = some "tab") || decide (n.type = some "subflow")) &&
      n.x.isNone && n.y.isNone && n.z.isNone)

/-- The runtime node handle used in the examples: sheet `X`, fetched over http. -/
def exNode : CommNode :=
  { id := "comm1", sheet := "X", protocol := "http", local_url := "127.0.0.1:1880" }

/-- The random ids used in the examples. -/
def exIds (i : Nat) : String :=
  "id" ++ toString i

/-! ## The dispatch protocol

The requests of `send_request` complete asynchronously.  A `World` holds the node handle,
the process-wide TLS setting, the requests issued so far and the requests still in flight,
each with the pair of handlers that was passed to `send_request` (`Handler`).  Completing a
request in flight (`complete`) runs `send_request`'s own `end` or `error` callback and then
the handler it was given.  `JSON.parse` and `Math.random` are taken as parameters (`Env`);
a serialised value is kept as the value that was passed to `JSON.stringify` (`Body`).
`console.log` output is not modelled. -/

/-- The argument `status_code` of the message functions. -/
inductive StatusCode where
  | null
  | num (n : Nat)
  | code (s : String)
deriving DecidableEq, Repr

/-- Truthiness of a status code. -/
def StatusCode.truthy : StatusCode → Bool
  | .null => false
  | .num n => n != 0
  | .code s => s != ""

/-- The string a status code becomes in a concatenation. -/
def StatusCode.str : StatusCode → String
  | .null => "null"
  | .num n => toString n
  | .code s => s

/-- The outcome of one request: the response whose `end` event fires, or the `error` event
with `err.code`. -/
inductive NetResult where
  | response (statusCode : Nat) (statusMessage : String) (payload : String)
  | error (code : String)
deriving DecidableEq, Repr

/-- The object `resp` handed to an `on_end_handler`. -/
structure Resp where
  statusCode : Nat
  statusMessage : String
  payload : String
deriving DecidableEq, Repr

/-- The value of `JSON.parse(resp.payload).access_token`: the evaluation throws (the
payload is not JSON, or it is `null`), or the attribute is absent, or it has a value, given
as the string it becomes in a concatenation. -/
inductive TokenField where
  | throws
  | undefined
  | value (s : String)
deriving DecidableEq, Repr

/-- The string `token` becomes in `VALUE_AUTH + " " + token`. -/
def TokenField.str : TokenField → String
  | .throws => ""
  | .undefined => "undefined"
  | .value s => s

/-- The argument `post_body` of `send_request`: `null`, or the result of `JSON.stringify`
on the value given. -/
inductive Body where
  | null
  | cred (client_id grant_type scope username password : String)
  | token (token : String)
  | flow (fl : Option (List PNode))
  | nodes (pruned : List Node)
  | node_flows (value : String)
deriving DecidableEq, Repr

/-- The argument `headers` of `send_request`. -/
structure Headers where
  Authorization : String
  Content_type : Option String
deriving DecidableEq, Repr

/-- A call of `protocol.request`. -/
structure Request where
  send_url : String
  method : String
  headers : Headers
  post_body : Body
deriving DecidableEq, Repr

/-- The callback `on_token_available` passed to `request_invoke_token`. -/
inductive TokenCallback where
  | dispatch_get
  | dispatch_set (send_url : String) (flows : Body)
  | request_get_flow
  | request_set_flow
deriving DecidableEq, Repr

/-- The pair `on_end_handler`, `on_err_handler` passed to `send_request`, named after the
function that makes the call. -/
inductive Handler where
  | auto_get
  | get_error
  | invoke_token (send_url : String) (on_token_available : TokenCallback)
  | get_with_token (headers : Headers)
  | revoke_token (send_url token : String)
  | auto_set (send_url : String) (flows : Body) (hdrs : Headers)
  | set_error (send_url : String) (flows : Body)
  | set_with_token (send_url : String) (hdrs : Headers)
  | get_flow (send_url : String) (headers : Headers)
  | set_flow (send_url : String) (headers : Headers)
deriving DecidableEq, Repr

/-- A call of `node.status` or `node.send`. -/
inductive Effect where
  | status_clear
  | status_red (text : String)
  | send (payload : String)
  | send_nodes (payload : List Node)
deriving DecidableEq, Repr

/-- The node handle `node`; `url`, `protocol` and `flows` are assigned during a dispatch. -/
structure DispatchNode where
  id : String
  sheet : String
  local_url : String
  src_url : String
  dest_url : String
  is_auth : Bool
  user : Option String
  password : Option String
  url : String
  protocol : String
  flows : String
deriving DecidableEq, Repr

/-- The state a dispatch works on. -/
structure World where
  node : DispatchNode
  tls : Option String
  sent : List (Request × Handler)
  pending : List (Request × Handler)
  effects : List Effect
  aborted : Bool
deriving DecidableEq, Repr

/-- What the code takes from outside: the truthiness of the module variable `IS_DEVEL`,
`JSON.parse` on a token response and on a flows response (`none`: it throws), and the
random ids. -/
structure Env where
  IS_DEVEL : Bool
  parse_access_token : String → TokenField
  parse_flows : String → Option Flows
  get_node_id : Nat → String

def VALUE_CONT : String := "application/json"
def VALUE_AUTH : String := "Bearer"
def METHOD_GET : String := "get"
def METHOD_POST : String := "post"
def RESP_OK : Nat := 200
def RESP_NO_CONT : Nat := 204
def RESP_BAD_REQ : Nat := 400
def RESP_UNAUTH : Nat := 401

/-- The white space and line terminator characters that `String.prototype.trim` strips. -/
def js_whitespace (c : Char) : Bool :=
  c.toNat = 0x09 || c.toNat = 0x0A || c.toNat = 0x0B || c.toNat = 0x0C || c.toNat = 0x0D ||
  c.toNat = 0x20 || c.toNat = 0xA0 || c.toNat = 0x1680 ||
  (0x2000 ≤ c.toNat && c.toNat ≤ 0x200A) || c.toNat = 0x2028 || c.toNat = 0x2029 ||
  c.toNat = 0x202F || c.toNat = 0x205F || c.toNat = 0x3000 || c.toNat = 0xFEFF

/-- The call `s.trim()`. -/
def js_trim (s : String) : String :=
  ⟨((s.data.dropWhile js_whitespace).reverse.dropWhile js_whitespace).reverse⟩

/-- The test `/^https/i.test(send_url)` of the Communicator. -/
def test_https_i (send_url : String) : Bool :=
  "https".data.isPrefixOf (send_url.data.map Char.toLower)

/-- The test `/^https/.test(send_url)` of the Dispatcher. -/
def test_https (send_url : String) : Bool :=
  "https".data.isPrefixOf send_url.data

/-- The calls of `node.status` and `node.send` are appended to the effects. -/
def World.emit (w : World) (es : List Effect) : World :=
  { w with effects := w.effects ++ es }

/-- The call of `protocol.request`: the request is issued and in flight. -/
def World.issue (w : World) (r : Request) (h : Handler) : World :=
  { w with sent := w.sent ++ [(r, h)], pending := w.pending ++ [(r, h)] }

/-- The text of the red status: `(status_code? status_code + ": " : "") + info`. -/
def status_text (info : String) (status_code : StatusCode) : String :=
  (if status_code.truthy then status_code.str ++ ": " else "") ++ info

/-- The string `msg` of the error message functions. -/
def error_msg (info : String) (status_code : StatusCode) (url : Option String) : String :=
  if status_code.truthy ∨ truthyStr url then
    "[ERROR] " ++ info ++ " (" ++
      (if status_code.truthy then "code: " ++ status_code.str ++ ", " else "") ++
      (if truthyStr url then "url: " ++ url.getD "" else "") ++ ")"
  else
    "[ERROR] " ++ info

/-- The string `msg` of the success message functions. -/
def succ_dispatch_msg (status_code : Nat) (url : String) : String :=
  "[DONE] message: set destination flow OK\n" ++
  "[DONE]  status: " ++ toString status_code ++ "\n" ++
  "[DONE]     url: " ++ url ++ "\n"

/-- The expression `(node.credentials.user)? node.credentials.user.trim() : ""`. -/
def cred_username (user : Option String) : String :=
  match user with
  | some u => if u ≠ "" then js_trim u else ""
  | none => ""

/-- The expression `(node.credentials.password)? node.credentials.password : ""`. -/
def cred_password (password : Option String) : String :=
  match password with
  | some p => if p ≠ "" then p else ""
  | none => ""

/-- The object serialised into `cred` by `request_invoke_token`. -/
def token_cred (node : DispatchNode) : Body :=
  .cred "node-red-admin" "password" "*" (cred_username node.user) (cred_password node.password)

/-- The expression `headers.Authorization.substr(VALUE_AUTH.length + 1)`. -/
def header_token (headers : Headers) : String :=
  substr headers.Authorization (VALUE_AUTH.length + 1)

/-- The argument `node` of the Communicator `sheet_prune`. -/
def World.commNode (w : World) : CommNode :=
  { id := w.node.id, sheet := w.node.sheet, protocol := w.node.protocol,
    local_url := w.node.local_url }

namespace Communicator

/-- The function `show_succ_dispatch_msg` (lines 45-53). -/
def show_succ_dispatch_msg (w : World) (status_code : Nat) (url : String) : World :=
  w.emit [.status_clear, .send (succ_dispatch_msg status_code url)]

/-- The function `show_error_msg` (lines 56-69). -/
def show_error_msg (w : World) (info : String) (status_code : StatusCode)
    (_url : Option String) : World :=
  w.emit [.status_red (status_text info status_code)]

/-- The function `set_https_secure_check` (lines 73-85). -/
def set_https_secure_check (is_enable : Bool) (w : World) : World :=
  if !is_enable then
    { w with tls := some "0" }
  else if w.tls.isSome then
    { w with tls := none }
  else
    w

/-- The synchronous part of `send_request` (lines 89-146). -/
def send_request (E : Env) (w : World) (send_url method : String) (headers : Headers)
    (post_body : Body) (h : Handler) : World :=
  let w1 := w.emit [.status_clear]
  let w2 := if test_https_i send_url then set_https_secure_check (!E.IS_DEVEL) w1 else w1
  w2.issue { send_url := send_url, method := method, headers := headers,
             post_body := post_body } h

/-- The function `request_invoke_token` (lines 150-182), up to its call of `send_request`. -/
def request_invoke_token (E : Env) (w : World) (on_token_available : TokenCallback) : World :=
  let send_url := w.node.protocol ++ "://" ++ w.node.url ++ "/auth/token"
  let hdrs : Headers := { Authorization := VALUE_AUTH, Content_type := some VALUE_CONT }
  send_request E w send_url METHOD_POST hdrs (token_cred w.node)
    (.invoke_token send_url on_token_available)

/-- The function `request_revoke_token` (lines 186-204), up to its call of `send_request`. -/
def request_revoke_token (E : Env) (w : World) (token : String) : World :=
  let send_url := w.node.protocol ++ "://" ++ w.node.url ++ "/auth/revoke"
  let hdrs : Headers :=
    { Authorization := VALUE_AUTH ++ " " ++ token, Content_type := some VALUE_CONT }
  send_request E w send_url METHOD_POST hdrs (.token token) (.revoke_token send_url token)

/-- The function `on_dispatch_auto_set` (lines 319-340); an exception of `JSON.parse` or
of `sheet_prune` leaves the handler. -/
def on_dispatch_auto_set (E : Env) (w : World) (resp : Resp) : World :=
  match E.parse_flows resp.payload with
  | none => { w with aborted := true }
  | some flows =>
    match sheet_prune E.get_node_id flows w.commNode with
    | .ret prune =>
      let w0 := if prune.status = PRUNE_NOT_FOUND_ERR ∨ prune.status = PRUNE_UNKNOWN_ERR
        then w.emit [.status_red prune.msg] else w
      if prune.status = PRUNE_OK then
        let w1 := { w0 with node := { w0.node with url := w0.node.dest_url, protocol := "http" } }
        let send_url := w1.node.protocol ++ "://" ++ w1.node.url ++ "/flows"
        let flows := Body.flow prune.flow
        let hdrs : Headers := { Authorization := VALUE_AUTH, Content_type := some VALUE_CONT }
        send_request E w1 send_url METHOD_POST hdrs flows (.auto_set send_url flows hdrs)
      else
        show_error_msg w0 prune.msg .null none
    | .throw => { w with aborted := true }
    | .diverge => { w with aborted := true }

/-- The function `on_dispatch_get_end` (lines 208-232). -/
def on_dispatch_get_end (E : Env) (w : World) (resp : Resp) : World :=
  if resp.statusCode = RESP_OK then
    on_dispatch_auto_set E w resp
  else if (resp.statusCode = RESP_UNAUTH ∨ resp.statusCode = RESP_BAD_REQ) ∧
      w.node.is_auth = true then
    request_invoke_token E w .dispatch_get
  else
    show_error_msg w "Fail to get local flow." (.num resp.statusCode) (some w.node.url)

/-- The function `on_dispatch_get_error` (lines 236-250). -/
def on_dispatch_get_error (E : Env) (w : World) (code : String) : World :=
  if code = "ECONNRESET" then
    let w1 := { w with node := { w.node with url := w.node.local_url, protocol := "https" } }
    let send_url := w1.node.protocol ++ "://" ++ w1.node.url ++ "/flows"
    send_request E w1 send_url METHOD_GET { Authorization := VALUE_AUTH, Content_type := none }
      .null .get_error
  else
    w

/-- The function `on_dispatch_auto_get` (lines 254-268). -/
def on_dispatch_auto_get (E : Env) (w : World) : World :=
  let w1 := { w with node := { w.node with url := w.node.local_url, protocol := "http" } }
  let send_url := w1.node.protocol ++ "://" ++ w1.node.url ++ "/flows"
  send_request E w1 send_url METHOD_GET { Authorization := VALUE_AUTH, Content_type := none }
    .null .auto_get

/-- The function `on_dispatch_set_end` (lines 272-299). -/
def on_dispatch_set_end (E : Env) (w : World) (send_url : String) (flows : Body)
    (resp : Resp) : World :=
  if resp.statusCode = RESP_NO_CONT then
    show_succ_dispatch_msg w resp.statusCode send_url
  else if (resp.statusCode = RESP_UNAUTH ∨ resp.statusCode = RESP_BAD_REQ) ∧
      w.node.is_auth = true then
    request_invoke_token E w (.dispatch_set send_url flows)
  else
    show_error_msg w resp.statusMessage (.num resp.statusCode) (some send_url)

/-- The function `on_dispatch_set_error` (lines 303-315). -/
def on_dispatch_set_error (E : Env) (w : World) (headers : Headers) (flows : Body)
    (code : String) : World :=
  if code = "ECONNRESET" then
    let w1 := { w with node := { w.node with protocol := "https" } }
    let send_url := w1.node.protocol ++ "://" ++ w1.node.dest_url ++ "/flows"
    send_request E w1 send_url METHOD_POST headers flows (.set_error send_url flows)
  else
    w

/-- The callback `on_token_available` as the functions of the Communicator pass it. -/
def on_token_available (E : Env) (w : World) (k : TokenCallback) (hdrs : Headers) : World :=
  match k with
  | .dispatch_get =>
    let send_url := w.node.protocol ++ "://" ++ w.node.url ++ "/flows"
    send_request E w send_url METHOD_GET hdrs .null (.get_with_token hdrs)
  | .dispatch_set send_url flows =>
    send_request E w send_url METHOD_POST hdrs flows (.set_with_token send_url hdrs)
  | .request_get_flow => w
  | .request_set_flow => w

/-- The `on_end_handler` of each call of `send_request`. -/
def on_end (E : Env) (w : World) (h : Handler) (resp : Resp) : World :=
  match h with
  | .auto_get => on_dispatch_get_end E w resp
  | .get_error => on_dispatch_get_end E w resp
  | .invoke_token send_url k =>
    if resp.statusCode = RESP_OK then
      match E.parse_access_token resp.payload with
      | .throws => show_error_msg w "Fail to parse token." .null (some send_url)
      | token =>
        on_token_available E w k
          { Authorization := VALUE_AUTH ++ " " ++ token.str, Content_type := some VALUE_CONT }
    else
      show_error_msg w resp.statusMessage (.num resp.statusCode) (some send_url)
  | .get_with_token headers =>
    on_dispatch_auto_set E (request_revoke_token E w (header_token headers)) resp
  | .revoke_token _ _ => w
  | .auto_set send_url flows _ => on_dispatch_set_end E w send_url flows resp
  | .set_error send_url flows => on_dispatch_set_end E w send_url flows resp
  | .set_with_token send_url hdrs =>
    let w1 := request_revoke_token E w (header_token hdrs)
    if resp.statusCode = RESP_NO_CONT then
      show_succ_dispatch_msg w1 resp.statusCode send_url
    else
      show_error_msg w1 resp.statusMessage (.num resp.statusCode) (some send_url)
  | .get_flow _ _ => w
  | .set_flow _ _ => w

/-- The `on_err_handler` of each call of `send_request`; `none` when none is passed. -/
def on_err (E : Env) (h : Handler) : Option (World → String → World) :=
  match h with
  | .auto_get => some (fun w code => on_dispatch_get_error E w code)
  | .get_with_token headers => some (fun w _ => request_revoke_token E w (header_token headers))
  | .auto_set _ flows hdrs => some (fun w code => on_dispatch_set_error E w hdrs flows code)
  | .set_with_token _ hdrs => some (fun w _ => request_revoke_token E w (header_token hdrs))
  | _ => none

/-- The statement `if(/^https/i.test(send_url)) { set_https_secure_check(IS_DEVEL); }` of
the `end` and `error` callbacks of `send_request` (lines 117-120 and 130-133). -/
def restore_https_check (E : Env) (w : World) (send_url : String) : World :=
  if test_https_i send_url then set_https_secure_check E.IS_DEVEL w else w

/-- The `end` callback and the `error` callback of `send_request` (lines 116-138) for the
request `r` issued with handlers `h`. -/
def finish (E : Env) (w : World) (r : Request) (h : Handler) : NetResult → World
  | .response statusCode statusMessage payload =>
    on_end E (restore_https_check E w r.send_url) h
      { statusCode := statusCode, statusMessage := statusMessage, payload := payload }
  | .error code =>
    let w1 := show_error_msg w "Request Fail" (.code code) (some r.send_url)
    let w2 := restore_https_check E w1 r.send_url
    match on_err E h with
    | some f => f w2 code
    | none => w2

end Communicator

namespace Dispatcher

/-- The function `get_error_msg` (lines 53-68): the new state and the message returned. -/
def get_error_msg (w : World) (info : String) (status_code : StatusCode)
    (url : Option String) : World × String :=
  (w.emit [.status_red (status_text info status_code)], error_msg info status_code url)

/-- The function `get_succ_dispatch_msg` (lines 72-81): the new state and the message
returned. -/
def get_succ_dispatch_msg (w : World) (status_code : Nat) (url : String) : World × String :=
  (w.emit [.status_clear], succ_dispatch_msg status_code url)

/-- The synchronous part of `send_request` (lines 85-134). -/
def send_request (E : Env) (w : World) (send_url method : String) (headers : Headers)
    (post_body : Body) (h : Handler) : World :=
  let w1 := if test_https send_url then
      (if E.IS_DEVEL then { w with tls := some "0" } else w)
    else w
  w1.issue { send_url := send_url, method := method, headers := headers,
             post_body := post_body } h

/-- The function `request_invoke_token` (lines 138-170), up to its call of `send_request`. -/
def request_invoke_token (E : Env) (w : World) (on_token_available : TokenCallback) : World :=
  let send_url := w.node.protocol ++ "://" ++ w.node.url ++ "/auth/token"
  let hdrs : Headers := { Authorization := VALUE_AUTH, Content_type := some VALUE_CONT }
  send_request E w send_url METHOD_POST hdrs (token_cred w.node)
    (.invoke_token send_url on_token_available)

/-- The function `request_revoke_token` (lines 174-192), up to its call of `send_request`. -/
def request_revoke_token (E : Env) (w : World) (token : String) : World :=
  let send_url := w.node.protocol ++ "://" ++ w.node.url ++ "/auth/revoke"
  let hdrs : Headers :=
    { Authorization := VALUE_AUTH ++ " " ++ token, Content_type := some VALUE_CONT }
  send_request E w send_url METHOD_POST hdrs (.token token) (.revoke_token send_url token)

/-- The function `request_get_flow` (lines 248-272), up to its call of `send_request`. -/
def request_get_flow (E : Env) (w : World) (headers : Headers) : World :=
  let w1 := w.emit [.status_clear]
  let send_url := w1.node.protocol ++ "://" ++ w1.node.url ++ "/flows"
  send_request E w1 send_url METHOD_GET headers .null (.get_flow send_url headers)

/-- The function `request_set_flow` (lines 288-307), up to its call of `send_request`. -/
def request_set_flow (E : Env) (w : World) (headers : Headers) : World :=
  let w1 := w.emit [.status_clear]
  let send_url := w1.node.protocol ++ "://" ++ w1.node.url ++ "/flows"
  send_request E w1 send_url METHOD_POST headers (.node_flows w1.node.flows)
    (.set_flow send_url headers)

/-- The function `request_get_flow_without_token` (lines 276-278). -/
def request_get_flow_without_token (E : Env) (w : World) : World :=
  request_get_flow E w { Authorization := VALUE_AUTH, Content_type := none }

/-- The function `request_get_flow_with_token` (lines 282-284). -/
def request_get_flow_with_token (E : Env) (w : World) : World :=
  request_invoke_token E w .request_get_flow

/-- The function `request_set_flow_without_token` (lines 311-313). -/
def request_set_flow_without_token (E : Env) (w : World) : World :=
  request_set_flow E w { Authorization := VALUE_AUTH, Content_type := some VALUE_CONT }

/-- The function `request_set_flow_with_token` (lines 317-319). -/
def request_set_flow_with_token (E : Env) (w : World) : World :=
  request_invoke_token E w .request_set_flow

/-- The statement `if(headers.Authorization.length > VALUE_AUTH.length) ...` that ends the
handlers of `request_get_flow` and `request_set_flow`. -/
def revoke_if_token (E : Env) (w : World) (headers : Headers) : World :=
  if headers.Authorization.length > VALUE_AUTH.length then
    request_revoke_token E w (header_token headers)
  else
    w

/-- The function `on_dispatch_auto_set` (lines 441-463); an exception of `JSON.parse` or
of `sheet_prune` leaves the handler. -/
def on_dispatch_auto_set (E : Env) (w : World) (resp : Resp) : World :=
  match E.parse_flows resp.payload with
  | none => { w with aborted := true }
  | some flows =>
    match sheet_prune flows w.node.sheet with
    | .ret (some pruned) =>
      let w1 := { w with node := { w.node with url := w.node.dest_url, protocol := "http" } }
      let send_url := w1.node.protocol ++ "://" ++ w1.node.url ++ "/flows"
      let flows := Body.nodes pruned
      let hdrs : Headers := { Authorization := VALUE_AUTH, Content_type := some VALUE_CONT }
      send_request E w1 send_url METHOD_POST hdrs flows (.auto_set send_url flows hdrs)
    | .ret none =>
      (get_error_msg w ("Sheet Not Found (" ++ w.node.sheet ++ ")") .null none).1
    | .throw => { w with aborted := true }
    | .diverge => { w with aborted := true }

/-- The function `on_dispatch_get_end` (lines 323-347). -/
def on_dispatch_get_end (E : Env) (w : World) (resp : Resp) : World :=
  if resp.statusCode = RESP_OK then
    on_dispatch_auto_set E w resp
  else if (resp.statusCode = RESP_UNAUTH ∨ resp.statusCode = RESP_BAD_REQ) ∧
      w.node.is_auth = true then
    request_invoke_token E w .dispatch_get
  else
    (get_error_msg w resp.statusMessage (.num resp.statusCode) (some w.node.url)).1

/-- The function `on_dispatch_get_error` (lines 351-367). -/
def on_dispatch_get_error (E : Env) (w : World) (code : String) : World :=
  if code = "ECONNRESET" then
    let w0 := w.emit [.status_clear]
    let w1 := { w0 with node := { w0.node with url := w0.node.src_url, protocol := "https" } }
    let send_url := w1.node.protocol ++ "://" ++ w1.node.url ++ "/flows"
    send_request E w1 send_url METHOD_GET { Authorization := VALUE_AUTH, Content_type := none }
      .null .get_error
  else
    w

/-- The function `on_dispatch_auto_get` (lines 371-384). -/
def on_dispatch_auto_get (E : Env) (w : World) : World :=
  let w1 := { w with node := { w.node with url := w.node.src_url, protocol := "http" } }
  let send_url := w1.node.protocol ++ "://" ++ w1.node.url ++ "/flows"
  send_request E w1 send_url METHOD_GET { Authorization := VALUE_AUTH, Content_type := none }
    .null .auto_get

/-- The function `init_auto_dispatch` (lines 467-470). -/
def init_auto_dispatch (E : Env) (w : World) : World :=
  on_dispatch_auto_get E (w.emit [.status_clear])

/-- The function `on_dispatch_set_end` (lines 388-420). -/
def on_dispatch_set_end (E : Env) (w : World) (send_url : String) (flows : Body)
    (resp : Resp) : World :=
  if resp.statusCode = RESP_NO_CONT then
    let r := get_succ_dispatch_msg w resp.statusCode send_url
    r.1.emit [.send r.2]
  else if (resp.statusCode = RESP_UNAUTH ∨ resp.statusCode = RESP_BAD_REQ) ∧
      w.node.is_auth = true then
    request_invoke_token E w (.dispatch_set send_url flows)
  else
    let r := get_error_msg w resp.statusMessage (.num resp.statusCode) (some send_url)
    r.1.emit [.send r.2]

/-- The function `on_dispatch_set_error` (lines 424-437). -/
def on_dispatch_set_error (E : Env) (w : World) (headers : Headers) (flows : Body)
    (code : String) : World :=
  if code = "ECONNRESET" then
    let w0 := w.emit [.status_clear]
    let w1 := { w0 with node := { w0.node with protocol := "https" } }
    let send_url := w1.node.protocol ++ "://" ++ w1.node.url ++ "/flows"
    send_request E w1 send_url METHOD_POST headers flows (.set_error send_url flows)
  else
    w

/-- The callback `on_token_available` as the functions of the Dispatcher pass it. -/
def on_token_available (E : Env) (w : World) (k : TokenCallback) (hdrs : Headers) : World :=
  match k with
  | .dispatch_get =>
    let send_url := w.node.protocol ++ "://" ++ w.node.url ++ "/flows"
    send_request E w send_url METHOD_GET hdrs .null (.get_with_token hdrs)
  | .dispatch_set send_url flows =>
    send_request E w send_url METHOD_POST hdrs flows (.set_with_token send_url hdrs)
  | .request_get_flow => request_get_flow E w hdrs
  | .request_set_flow => request_set_flow E w hdrs

/-- The `on_end_handler` of each call of `send_request`. -/
def on_end (E : Env) (w : World) (h : Handler) (resp : Resp) : World :=
  match h with
  | .auto_get => on_dispatch_get_end E w resp
  | .get_error => on_dispatch_get_end E w resp
  | .invoke_token send_url k =>
    if resp.statusCode = RESP_OK then
      match E.parse_access_token resp.payload with
      | .throws => (get_error_msg w "Parse Fail" .null (some send_url)).1
      | token =>
        on_token_available E w k
          { Authorization := VALUE_AUTH ++ " " ++ token.str, Content_type := some VALUE_CONT }
    else
      (get_error_msg w resp.statusMessage (.num resp.statusCode) (some send_url)).1
  | .get_with_token headers =>
    on_dispatch_auto_set E (request_revoke_token E w (header_token headers)) resp
  | .revoke_token _ _ => w
  | .auto_set send_url flows _ => on_dispatch_set_end E w send_url flows resp
  | .set_error send_url flows => on_dispatch_set_end E w send_url flows resp
  | .set_with_token send_url hdrs =>
    let w1 := request_revoke_token E w (header_token hdrs)
    let r := if resp.statusCode = RESP_NO_CONT then
        get_succ_dispatch_msg w1 resp.statusCode send_url
      else
        get_error_msg w1 resp.statusMessage (.num resp.statusCode) (some send_url)
    r.1.emit [.send r.2]
  | .get_flow send_url headers =>
    if resp.statusCode = RESP_OK then
      match E.parse_flows resp.payload with
      | none => { w with aborted := true }
      | some flows =>
        match sheet_prune flows w.node.sheet with
        | .ret (some pruned) =>
          revoke_if_token E (w.emit [.send_nodes pruned, .status_clear]) headers
        | .ret none =>
          revoke_if_token E
            (get_error_msg w ("Sheet Not Found (" ++ w.node.sheet ++ ")") .null none).1 headers
        | .throw => { w with aborted := true }
        | .diverge => { w with aborted := true }
    else
      revoke_if_token E
        (get_error_msg w resp.statusMessage (.num resp.statusCode) (some send_url)).1 headers
  | .set_flow send_url headers =>
    let r := if resp.statusCode = RESP_NO_CONT then
        get_succ_dispatch_msg w resp.statusCode send_url
      else
        get_error_msg w resp.statusMessage (.num resp.statusCode) (some send_url)
    revoke_if_token E (r.1.emit [.send r.2]) headers

/-- The `on_err_handler` of each call of `send_request`; `none` when none is passed. -/
def on_err (E : Env) (h : Handler) : Option (World → String → World) :=
  match h with
  | .auto_get => some (fun w code => on_dispatch_get_error E w code)
  | .get_with_token headers => some (fun w _ => request_revoke_token E w (header_token headers))
  | .auto_set _ flows hdrs => some (fun w code => on_dispatch_set_error E w hdrs flows code)
  | .set_with_token _ hdrs => some (fun w _ => request_revoke_token E w (header_token hdrs))
  | _ => none

/-- The `end` callback and the `error` callback of `send_request` (lines 114-126) for the
request `r` issued with handlers `h`. -/
def finish (E : Env) (w : World) (r : Request) (h : Handler) : NetResult → World
  | .response statusCode statusMessage payload =>
    on_end E w h { statusCode := statusCode, statusMessage := statusMessage,
                   payload := payload }
  | .error code =>
    let w1 := (get_error_msg w "Request Fail" (.code code) (some r.send_url)).1
    match on_err E h with
    | some f => f w1 code
    | none => w1

/-- The `input` handler of a flow-reader node (lines 485-492). -/
def flow_reader_input (E : Env) (w : World) : World :=
  let w1 := w.emit [.status_clear]
  if w1.node.is_auth then request_get_flow_with_token E w1
  else request_get_flow_without_token E w1

/-- The `input` handler of a flow-writer node (lines 507-516), `payload` the serialised
`msg.payload`. -/
def flow_writer_input (E : Env) (w : World) (payload : String) : World :=
  let w1 := { w with node := { w.node with flows := payload } }
  let w2 := w1.emit [.status_clear]
  if w2.node.is_auth then request_set_flow_with_token E w2
  else request_set_flow_without_token E w2

end Dispatcher

/-- The two modules of the repository. -/
inductive Module where
  | communicator
  | dispatcher
deriving DecidableEq, Repr

/-- The callbacks of `send_request` in module `m`. -/
def finish (m : Module) (E : Env) (w : World) (r : Request) (h : Handler) (o : NetResult) :
    World :=
  match m with
  | .communicator => Communicator.finish E w r h o
  | .dispatcher => Dispatcher.finish E w r h o

/-- The function `on_dispatch_auto_get` of module `m`. -/
def on_dispatch_auto_get (m : Module) (E : Env) (w : World) : World :=
  match m with
  | .communicator => Communicator.on_dispatch_auto_get E w
  | .dispatcher => Dispatcher.on_dispatch_auto_get E w

/-- The request in flight at index `i` completes with outcome `o`.  Nothing happens once an
exception has left a handler, or when no request is in flight at that index. -/
def complete (m : Module) (E : Env) (w : World) (i : Nat) (o : NetResult) : World :=
  if w.aborted then w
  else
    match w.pending[i]? with
    | none => w
    | some (r, h) => finish m E { w with pending := w.pending.eraseIdx i } r h o

/-- The requests in flight complete in the order and with the outcomes of `sched`. -/
def run (m : Module) (E : Env) : List (Nat × NetResult) → World → World
  | [], w => w
  | (i, o) :: rest, w => run m E rest (complete m E w i o)

/-- The state before a dispatch: nothing issued, nothing in flight. -/
def World.init (node : DispatchNode) (tls : Option String) : World :=
  { node := node, tls := tls, sent := [], pending := [], effects := [], aborted := false }

/-- The test that `s` ends with `sfx`. -/
def endsWith (s sfx : String) : Bool :=
  sfx.data.reverse.isPrefixOf s.data.reverse

/-- The request is a `GET .../flows`. -/
def Request.is_get_flows (r : Request) : Bool :=
  decide (r.method = METHOD_GET) && endsWith r.send_url "/flows"

/-- The request is a `POST .../flows`. -/
def Request.is_post_flows (r : Request) : Bool :=
  decide (r.method = METHOD_POST) && endsWith r.send_url "/flows"

/-- The request is a `POST .../auth/token`. -/
def Request.is_token (r : Request) : Bool :=
  decide (r.method = METHOD_POST) && endsWith r.send_url "/auth/token"

/-- The request is a `POST .../auth/revoke` carrying `token`. -/
def Request.is_revoke (token : String) (r : Request) : Bool :=
  decide (r.method = METHOD_POST) && endsWith r.send_url "/auth/revoke" &&
    decide (r.post_body = .token token)

/-- The number of requests of the class `cls` issued so far, plus the number `bud` of
such requests that the handlers of the requests in flight may still cause. -/
def potential (cls : Request × Handler → Bool) (bud : Handler → Nat) (w : World) : Nat :=
  w.sent.countP cls + (w.pending.map (fun p => bud p.2)).sum

/-- The class of the `GET .../flows` requests. -/
def cls_get_flows (p : Request × Handler) : Bool := p.1.is_get_flows

def bud_get_flows : Handler → Nat
  | .auto_get => 2
  | .get_error => 1
  | .invoke_token _ .dispatch_get => 1
  | .invoke_token _ .request_get_flow => 1
  | _ => 0

/-- The class of the `POST .../flows` requests. -/
def cls_post_flows (p : Request × Handler) : Bool := p.1.is_post_flows

def bud_post_flows : Handler → Nat
  | .auto_get => 3
  | .get_error => 3
  | .invoke_token _ .dispatch_get => 3
  | .get_with_token _ => 3
  | .auto_set _ _ _ => 2
  | .set_error _ _ => 1
  | .invoke_token _ (.dispatch_set _ _) => 1
  | .invoke_token _ .request_set_flow => 1
  | _ => 0

/-- The encrypted-protocol fallback request of the fetch phase. -/
def cls_fetch_fallback (p : Request × Handler) : Bool :=
  match p.2 with
  | .get_error => true
  | _ => false

def bud_fetch_fallback : Handler → Nat
  | .auto_get => 1
  | _ => 0

/-- The token request of the fetch phase. -/
def cls_fetch_token (p : Request × Handler) : Bool :=
  match p.2 with
  | .invoke_token _ .dispatch_get => true
  | _ => false

def bud_fetch_token : Handler → Nat
  | .auto_get => 1
  | .get_error => 1
  | _ => 0

/-- The token-authenticated retry of the fetch phase. -/
def cls_fetch_retry (p : Request × Handler) : Bool :=
  match p.2 with
  | .get_with_token _ => true
  | _ => false

def bud_fetch_retry : Handler → Nat
  | .auto_get => 1
  | .get_error => 1
  | .invoke_token _ .dispatch_get => 1
  | _ => 0

/-- The encrypted-protocol fallback request of the push phase. -/
def cls_push_fallback (p : Request × Handler) : Bool :=
  match p.2 with
  | .set_error _ _ => true
  | _ => false

def bud_push_fallback : Handler → Nat
  | .auto_get => 1
  | .get_error => 1
  | .invoke_token _ .dispatch_get => 1
  | .get_with_token _ => 1
  | .auto_set _ _ _ => 1
  | _ => 0

/-- The token request of the push phase. -/
def cls_push_token (p : Request × Handler) : Bool :=
  match p.2 with
  | .invoke_token _ (.dispatch_set _ _) => true
  | _ => false

def bud_push_token : Handler → Nat
  | .auto_get => 1
  | .get_error => 1
  | .invoke_token _ .dispatch_get => 1
  | .get_with_token _ => 1
  | .auto_set _ _ _ => 1
  | .set_error _ _ => 1
  | _ => 0

/-- The token-authenticated retry of the push phase. -/
def cls_push_retry (p : Request × Handler) : Bool :=
  match p.2 with
  | .set_with_token _ _ => true
  | _ => false

def bud_push_retry : Handler → Nat
  | .auto_get => 1
  | .get_error => 1
  | .invoke_token _ .dispatch_get => 1
  | .get_with_token _ => 1
  | .auto_set _ _ _ => 1
  | .set_error _ _ => 1
  | .invoke_token _ (.dispatch_set _ _) => 1
  | _ => 0

/-- The object that `JSON.parse(JSON.stringify(p))` yields for an element `p` of the pruned
flow.  The attributes of the synthesized objects that the record `Node` does not name go to
`other`; a `NaN` is serialised as `null` and comes back without a number. -/
def reparse : PNode → Node
  | .orig n => n
  | .cfg c =>
    { id := some c.id, type := some c.type, z := none, label := none, x := none, y := none,
      wires := none, server := none, client := none,
      other := [("path", c.path), ("wholemsg", c.wholemsg)] }
  | .func f =>
    { id := some f.id, type := some f.type, z := f.z, label := none, x := f.x,
      y := (match f.y with
        | .int v => some v
        | .nan => none),
      wires := f.wires, server := none, client := none,
      other := [("name", f.name), ("func", f.func), ("outputs", toString f.outputs),
        ("noerr", toString f.noerr)] }

/-- An attribute of `n` (server, client or one of the other attributes) holds the id `c`. -/
def references (n : Node) (c : String) : Bool :=
  decide (n.server = some c) || decide (n.client = some c) || n.other.any (fun a => a.2 == c)

/-- The node set of the round-trip property as the specification words it: the tab, a node
placed directly on it, or a global configuration node (not a tab or subflow, no `x`, `y`
or `z`) that the tab or one of its direct nodes in `g` references. -/
def spec_roundtrip_member (t : String) (g : List Node) (n : Node) : Bool :=
  decide (n.id = some t) || decide (n.z = some t) ||
    (!(decide (n.type = some "tab") || decide (n.type = some "subflow")) &&
      n.x.isNone && n.y.isNone && n.z.isNone &&
      g.any (fun m => (decide (m.id = some t) || decide (m.z = some t)) &&
        (match n.id with
          | some c => references m c
          | none => false)))

/-- What `sheet_prune` may change on the object `n`, left as `n'`: nothing but `type`,
`server`, `client` and `wires`; `wires` only on a delegate-in; nothing at all on an object
that is not a delegate. -/
def frame_ok (n n' : Node) : Bool :=
  decide (n'.id = n.id ∧ n'.z = n.z ∧ n'.label = n.label ∧ n'.x = n.x ∧ n'.y = n.y ∧
    n'.other = n.other) &&
  (decide (n.type = some "flow-dlg-in") || decide (n'.wires = n.wires)) &&
  (decide (n.type = some "flow-dlg-in") || decide (n.type = some "flow-dlg-out") ||
    decide (n' = n))

/-- The relation `frame_ok` on the entries of the array; a `null` entry stays `null`. -/
def frame_entry : Option Node → Option Node → Bool
  | none, none => true
  | some n, some n' => frame_ok n n'
  | _, _ => false

/-- A value of the setting `RED.settings.functionGlobalContext.is_devel`. -/
inductive JsValue where
  | undefined
  | null
  | bool (b : Bool)
  | num (v : Int)
  | nan
  | str (s : String)
  | object
deriving DecidableEq, Repr

/-- Truthiness of a JavaScript value. -/
def JsValue.truthy : JsValue → Bool
  | .bool b => b
  | .num v => v != 0
  | .str s => s != ""
  | .object => true
  | _ => false

/-- The initialisation of the module variable (Communicator lines 31-34, Dispatcher lines
39-42): `var IS_DEVEL = true; if(is_devel) { IS_DEVEL = is_devel; }`. -/
def init_IS_DEVEL (is_devel : JsValue) : JsValue :=
  if is_devel.truthy then is_devel else .bool true

/-- A global configuration node that no node references. -/
def exBroker : Node :=
  { id := some "b1", type := some "mqtt-broker", z := none, label := none, x := none,
    y := none, wires := none, server := none, client := none, other := [("broker", "10.0.0.9")] }

/-- A node of type `flow-dlg-out` without `x`, `y` and `z`. -/
def exOrphan : Node :=
  { id := some "d2", type := some "flow-dlg-out", z := none, label := none, x := none,
    y := none, wires := none, server := none, client := none, other := [] }

/-- A second tab labelled `X`. -/
def exTab2 : Node := mkTab "t2" "X"

/-- A node placed on the second tab labelled `X`. -/
def exOnTab2 : Node := mkNode "n2" "inject" (some "t2")

/-- Tab `X` with a delegate of each kind and an unreferenced configuration node. -/
def brokerFlows : Flows := [some exTab, some exIn, some exOut, some exBroker]

/-- Tab `X` with a delegate of each kind and a delegate-out without `x`, `y` and `z`. -/
def orphanFlows : Flows := [some exTab, some exIn, some exOut, some exOrphan]

/-- Two tabs labelled `X`; the second holds a node. -/
def twoTabsFlows : Flows := [some exTab, some exIn, some exOut, some exTab2, some exOnTab2]

/-- The body of a token response that grants `tok1`. -/
def exTokenPayload : String := "\x7b\"access_token\":\"tok1\"\x7d"

/-- The expression `JSON.parse(payload).access_token` on the payloads of the examples. -/
def exParseToken (payload : String) : TokenField :=
  if payload = exTokenPayload then .value "tok1"
  else if payload = "\x7b\x7d" then .undefined
  else .throws

/-- The call `JSON.parse(payload)` on the payloads of the examples; a payload is named
after the array whose JSON text it stands for. -/
def exParseFlows (payload : String) : Option Flows :=
  if payload = "inOutFlows" then some inOutFlows
  else if payload = "twoOutFlows" then some twoOutFlows
  else if payload = "cyclicFlows" then some cyclicFlows
  else none

/-- The environment of the examples: development configuration. -/
def exEnv : Env :=
  { IS_DEVEL := true, parse_access_token := exParseToken, parse_flows := exParseFlows,
    get_node_id := exIds }

/-- The node handle of the examples, authentication enabled. -/
def exDispatchNode : DispatchNode :=
  { id := "comm1", sheet := "X", local_url := "127.0.0.1:1880", src_url := "localhost:1880",
    dest_url := "10.0.0.2:1880", is_auth := true, user := some "  admin\t\n",
    password := some " p w ", url := "10.0.0.2:1880", protocol := "http", flows := "[]" }

/-- The world of the examples before anything is issued. -/
def exWorld : World := World.init exDispatchNode none

/-! ## Strings and array search -/

theorem startsWith_iff (ty pfx : String) : startsWith ty pfx = true ↔ ∃ s, ty = pfx ++ s := by
  unfold startsWith
  rw [List.isPrefixOf_iff_prefix]
  constructor
  · rintro ⟨t, ht⟩
    refine ⟨⟨t⟩, ?_⟩
    apply String.ext
    simp [ht]
  · rintro ⟨s, rfl⟩
    exact ⟨s.data, by simp⟩

theorem substr_append (pfx s : String) : substr (pfx ++ s) pfx.length = s := by
  unfold substr
  apply String.ext
  show List.drop pfx.length (pfx ++ s).data = s.data
  rw [String.data_append]
  exact List.drop_left _ _

theorem append_cancel (pfx s s' : String) (h : pfx ++ s = pfx ++ s') : s = s' := by
  have := congrArg (fun u => substr u pfx.length) h
  simpa [substr_append] using this

theorem indexOfFound_iff (xs : List String) (v : Option String) :
    indexOfFound xs v = true ↔ ∃ c, v = some c ∧ c ∈ xs := by
  cases v <;> simp [indexOfFound]

theorem ref_cons (n : Node) (rest : Flows) (c s : String) :
    Ref (some n :: rest) c s ↔
      (n.z = some c ∧ n.type = some ("subflow:" ++ s)) ∨ Ref rest c s := by
  simp [Ref]

/-! ## The scan loop of `traverse_subflows` -/

theorem scan_subflows_ret (added now : List String) :
    ∀ (flows : Flows) (subs subs' : List String),
      scan_subflows added now flows subs = .ret subs' →
      (∀ s, s ∈ subs' ↔ s ∈ subs ∨ (s ∉ now ∧ ∃ c ∈ added, Ref flows c s)) ∧
      (subs.Nodup → subs'.Nodup) := by
  intro flows
  induction flows with
  | nil =>
    intro subs subs' h
    simp [scan_subflows] at h
    subst h
    simp [Ref]
  | cons e rest ih =>
    intro subs subs' h
    cases e with
    | none => simp [scan_subflows] at h
    | some n =>
      simp only [scan_subflows] at h
      split at h
      · rename_i hz
        obtain ⟨c0, hc0, hc0m⟩ := (indexOfFound_iff _ _).1 hz
        split at h
        · simp at h
        · rename_i ty hty
          split at h
          · rename_i hp
            obtain ⟨s0, hs0⟩ := (startsWith_iff _ _).1 hp
            subst hs0
            simp only [substr_append] at h
            split at h
            · rename_i hnew
              obtain ⟨h1, h2⟩ := ih _ _ h
              constructor
              · intro s
                rw [h1 s]
                simp only [ref_cons, hty, hc0, List.mem_append, List.mem_singleton]
                constructor
                · rintro ((hs | rfl) | ⟨hn, c, hc, hr⟩)
                  · exact Or.inl hs
                  · exact Or.inr ⟨hnew.2, c0, hc0m, Or.inl ⟨rfl, rfl⟩⟩
                  · exact Or.inr ⟨hn, c, hc, Or.inr hr⟩
                · rintro (hs | ⟨hn, c, hc, (⟨-, he⟩ | hr)⟩)
                  · exact Or.inl (Or.inl hs)
                  · have := append_cancel _ _ _ (Option.some.inj he)
                    exact Or.inl (Or.inr this.symm)
                  · exact Or.inr ⟨hn, c, hc, hr⟩
              · intro hnd
                apply h2
                rw [List.nodup_append]
                refine ⟨hnd, List.nodup_singleton _, ?_⟩
                intro a ha hb
                rw [List.mem_singleton] at hb
                subst hb
                exact hnew.1 ha
            · rename_i hnew
              obtain ⟨h1, h2⟩ := ih _ _ h
              refine ⟨?_, h2⟩
              intro s
              rw [h1 s]
              simp only [ref_cons, hty, hc0]
              constructor
              · rintro (hs | ⟨hn, c, hc, hr⟩)
                · exact Or.inl hs
                · exact Or.inr ⟨hn, c, hc, Or.inr hr⟩
              · rintro (hs | ⟨hn, c, hc, (⟨-, he⟩ | hr)⟩)
                · exact Or.inl hs
                · have := append_cancel _ _ _ (Option.some.inj he)
                  subst this
                  left
                  by_contra hcon
                  exact hnew ⟨hcon, hn⟩
                · exact Or.inr ⟨hn, c, hc, hr⟩
          · rename_i hp
            obtain ⟨h1, h2⟩ := ih _ _ h
            refine ⟨?_, h2⟩
            intro s
            rw [h1 s]
            simp only [ref_cons, hty]
            constructor
            · rintro (hs | ⟨hn, c, hc, hr⟩)
              · exact Or.inl hs
              · exact Or.inr ⟨hn, c, hc, Or.inr hr⟩
            · rintro (hs | ⟨hn, c, hc, (⟨-, he⟩ | hr)⟩)
              · exact Or.inl hs
              · exact absurd ((startsWith_iff _ _).2 ⟨s, Option.some.inj he⟩) hp
              · exact Or.inr ⟨hn, c, hc, hr⟩
      · rename_i hz
        obtain ⟨h1, h2⟩ := ih _ _ h
        refine ⟨?_, h2⟩
        intro s
        rw [h1 s]
        simp only [ref_cons]
        constructor
        · rintro (hs | ⟨hn, c, hc, hr⟩)
          · exact Or.inl hs
          · exact Or.inr ⟨hn, c, hc, Or.inr hr⟩
        · rintro (hs | ⟨hn, c, hc, (⟨hzc, -⟩ | hr)⟩)
          · exact Or.inl hs
          · exact absurd ((indexOfFound_iff _ _).2 ⟨c, hzc, hc⟩) hz
          · exact Or.inr ⟨hn, c, hc, hr⟩

theorem scan_subflows_ne_diverge (added now : List String) :
    ∀ (flows : Flows) (subs : List String),
      scan_subflows added now flows subs ≠ .diverge := by
  intro flows
  induction flows with
  | nil => intro subs; simp [scan_subflows]
  | cons e rest ih =>
    intro subs
    cases e with
    | none => simp [scan_subflows]
    | some n =>
      simp only [scan_subflows]
      split
      · split
        · simp
        · split
          · split <;> exact ih _
          · exact ih _
      · exact ih _

theorem scan_subflows_total (added now : List String) :
    ∀ (flows : Flows) (subs : List String), HasTypes flows = true →
      ∃ subs', scan_subflows added now flows subs = .ret subs' := by
  intro flows
  induction flows with
  | nil => intro subs _; exact ⟨subs, rfl⟩
  | cons e rest ih =>
    intro subs h
    cases e with
    | none => simp [HasTypes] at h
    | some n =>
      have hr : HasTypes rest = true := by
        simp only [HasTypes, List.all_cons, Bool.and_eq_true] at h ⊢
        exact h.2
      have hn : n.type.isSome = true := by
        simp only [HasTypes, List.all_cons, Bool.and_eq_true] at h
        exact h.1
      simp only [scan_subflows]
      split
      · split
        · rename_i hty
          simp [hty] at hn
        · split
          · split <;> exact ih _ hr
          · exact ih _ hr
      · exact ih _ hr

theorem ref_mem_instance_ids (flows : Flows) (c s : String) (h : Ref flows c s) :
    s ∈ instance_ids flows := by
  obtain ⟨n, hn, -, hty⟩ := h
  unfold instance_ids
  rw [List.mem_filterMap]
  refine ⟨some n, hn, ?_⟩
  simp only [hty]
  rw [if_pos ((startsWith_iff _ _).2 ⟨s, rfl⟩), substr_append]

theorem instance_ids_length_le (flows : Flows) : (instance_ids flows).length ≤ flows.length :=
  List.length_filterMap_le _ _

theorem remaining_le (flows : Flows) (now : List String) : remaining flows now ≤ flows.length := by
  unfold remaining
  calc ((instance_ids flows).toFinset \ now.toFinset).card
      ≤ (instance_ids flows).toFinset.card := Finset.card_le_card Finset.sdiff_subset
    _ ≤ (instance_ids flows).length := List.toFinset_card_le _
    _ ≤ flows.length := instance_ids_length_le flows

theorem remaining_lt (flows : Flows) (added now subs : List String)
    (h : scan_subflows added now flows [] = .ret subs) (hne : subs.length ≠ 0) :
    remaining flows (now ++ subs) < remaining flows now := by
  obtain ⟨h1, -⟩ := scan_subflows_ret added now flows [] subs h
  unfold remaining
  apply Finset.card_lt_card
  rw [Finset.ssubset_iff_of_subset]
  · cases subs with
    | nil => simp at hne
    | cons s0 tl =>
      have hs0 := (h1 s0).1 (List.mem_cons_self _ _)
      simp only [List.not_mem_nil, false_or] at hs0
      obtain ⟨hn, c, hc, hr⟩ := hs0
      refine ⟨s0, ?_, ?_⟩
      · simp [ref_mem_instance_ids flows c s0 hr, hn]
      · simp
  · intro x hx
    simp only [Finset.mem_sdiff, List.mem_toFinset, List.mem_append, not_or] at hx ⊢
    exact ⟨hx.1, hx.2.1⟩

theorem traverse_subflows_fuel_enough :
    ∀ (fuel : Nat) (flows : Flows) (added now : List String),
      remaining flows now < fuel →
      traverse_subflows_fuel fuel flows added now ≠ .diverge ∧
      ∀ k, traverse_subflows_fuel (fuel + k) flows added now =
        traverse_subflows_fuel fuel flows added now := by
  intro fuel
  induction fuel with
  | zero => intro flows added now h; omega
  | succ fuel ih =>
    intro flows added now h
    have hk : ∀ k, fuel + 1 + k = (fuel + k) + 1 := by intro k; omega
    simp only [hk, traverse_subflows_fuel]
    cases hs : scan_subflows added now flows [] with
    | ret subs =>
      simp only
      by_cases hne : subs.length ≠ 0
      · have hlt := remaining_lt flows added now subs hs hne
        have := ih flows subs (now ++ subs) (by omega)
        simp only [if_pos hne]
        exact this
      · simp only [if_neg hne]
        simp
    | throw => simp
    | diverge => exact absurd hs (scan_subflows_ne_diverge _ _ _ _)

theorem traverse_subflows_fuel_nodup :
    ∀ (fuel : Nat) (flows : Flows) (added now l : List String),
      now.Nodup → traverse_subflows_fuel fuel flows added now = .ret l → l.Nodup := by
  intro fuel
  induction fuel with
  | zero => intro flows added now l _ h; simp [traverse_subflows_fuel] at h
  | succ fuel ih =>
    intro flows added now l hnd h
    simp only [traverse_subflows_fuel] at h
    cases hs : scan_subflows added now flows [] with
    | ret subs =>
      rw [hs] at h
      simp only at h
      obtain ⟨h1, h2⟩ := scan_subflows_ret added now flows [] subs hs
      by_cases hne : subs.length ≠ 0
      · rw [if_pos hne] at h
        apply ih flows subs (now ++ subs) l _ h
        rw [List.nodup_append]
        refine ⟨hnd, h2 List.nodup_nil, ?_⟩
        intro a ha hb
        have := (h1 a).1 hb
        simp only [List.not_mem_nil, false_or] at this
        exact this.1 ha
      · rw [if_neg hne] at h
        cases h
        exact hnd
    | throw => rw [hs] at h; simp at h
    | diverge => rw [hs] at h; simp at h

theorem traverse_subflows_fuel_closed (t : String) :
    ∀ (fuel : Nat) (flows : Flows) (added now l : List String),
      (∀ c s, (c = t ∨ c ∈ now) → c ∉ added → Ref flows c s → s ∈ now) →
      traverse_subflows_fuel fuel flows added now = .ret l →
      ∀ c s, (c = t ∨ c ∈ l) → Ref flows c s → s ∈ l := by
  intro fuel
  induction fuel with
  | zero => intro flows added now l _ h; simp [traverse_subflows_fuel] at h
  | succ fuel ih =>
    intro flows added now l hinv h
    simp only [traverse_subflows_fuel] at h
    cases hs : scan_subflows added now flows [] with
    | ret subs =>
      rw [hs] at h
      simp only at h
      obtain ⟨h1, -⟩ := scan_subflows_ret added now flows [] subs hs
      have hscan : ∀ c s, c ∈ added → Ref flows c s → s ∈ now ∨ s ∈ subs := by
        intro c s hc hr
        by_cases hn : s ∈ now
        · exact Or.inl hn
        · exact Or.inr ((h1 s).2 (Or.inr ⟨hn, c, hc, hr⟩))
      by_cases hne : subs.length ≠ 0
      · rw [if_pos hne] at h
        apply ih flows subs (now ++ subs) l _ h
        intro c s hc hcs hr
        rw [List.mem_append]
        have hc' : c = t ∨ c ∈ now := by
          rcases hc with hc | hc
          · exact Or.inl hc
          · rcases List.mem_append.1 hc with hc | hc
            · exact Or.inr hc
            · exact absurd hc hcs
        by_cases hca : c ∈ added
        · exact hscan c s hca hr
        · exact Or.inl (hinv c s hc' hca hr)
      · rw [if_neg hne] at h
        cases h
        have hnil : subs = [] := by
          cases subs with
          | nil => rfl
          | cons a tl => simp at hne
        subst hnil
        intro c s hc hr
        by_cases hca : c ∈ added
        · rcases hscan c s hca hr with h' | h'
          · exact h'
          · simp at h'
        · exact hinv c s hc hca hr
    | throw => rw [hs] at h; simp at h
    | diverge => rw [hs] at h; simp at h

theorem traverse_subflows_fuel_least (t : String) (S : Set String) :
    ∀ (fuel : Nat) (flows : Flows) (added now l : List String),
      Closed flows t S → (∀ s ∈ now, s ∈ S) → (∀ c ∈ added, c = t ∨ c ∈ S) →
      traverse_subflows_fuel fuel flows added now = .ret l →
      ∀ s ∈ l, s ∈ S := by
  intro fuel
  induction fuel with
  | zero => intro flows added now l _ _ _ h; simp [traverse_subflows_fuel] at h
  | succ fuel ih =>
    intro flows added now l hcl hnow hadd h
    simp only [traverse_subflows_fuel] at h
    cases hs : scan_subflows added now flows [] with
    | ret subs =>
      rw [hs] at h
      simp only at h
      obtain ⟨h1, -⟩ := scan_subflows_ret added now flows [] subs hs
      have hsub : ∀ s ∈ subs, s ∈ S := by
        intro s hsm
        have := (h1 s).1 hsm
        simp only [List.not_mem_nil, false_or] at this
        obtain ⟨-, c, hc, n, hn, hz, hty⟩ := this
        apply hcl n s hn hty
        rcases hadd c hc with rfl | hcS
        · exact Or.inl hz
        · exact Or.inr ⟨c, hcS, hz⟩
      by_cases hne : subs.length ≠ 0
      · rw [if_pos hne] at h
        apply ih flows subs (now ++ subs) l hcl _ _ h
        · intro s hsm
          rcases List.mem_append.1 hsm with h' | h'
          · exact hnow s h'
          · exact hsub s h'
        · intro c hc
          exact Or.inr (hsub c hc)
      · rw [if_neg hne] at h
        cases h
        exact hnow
    | throw => rw [hs] at h; simp at h
    | diverge => rw [hs] at h; simp at h

theorem traverse_subflows_fuel_ne_throw :
    ∀ (fuel : Nat) (flows : Flows) (added now : List String), HasTypes flows = true →
      traverse_subflows_fuel fuel flows added now ≠ .throw := by
  intro fuel
  induction fuel with
  | zero => intro flows added now _; simp [traverse_subflows_fuel]
  | succ fuel ih =>
    intro flows added now h
    simp only [traverse_subflows_fuel]
    obtain ⟨subs, hs⟩ := scan_subflows_total added now flows [] h
    rw [hs]
    simp only
    split
    · exact ih flows _ _ h
    · simp

/-! ## Claims on `traverse_subflows` -/

/-- C1: on a graph all of whose entries are nodes with a type, `traverse_subflows(flows, [t], [])`
returns (in both modules) a list whose set of elements is the least set `R` that holds `s`
whenever some node has type `"subflow:" + s` and `z` equal to `t` or to a member of `R`:
the set of its elements is closed, and it is included in every closed set. -/
theorem C1_traverse_subflows_least_closed (flows : Flows) (t : String)
    (h : HasTypes flows = true) :
    ∃ l, Communicator.traverse_subflows flows [t] [] = .ret l ∧
      Dispatcher.traverse_subflows flows [t] [] = .ret l ∧
      Closed flows t {s | s ∈ l} ∧
      ∀ S : Set String, Closed flows t S → {s | s ∈ l} ⊆ S := by
  have hfuel := traverse_subflows_fuel_enough (flows.length + 1) flows [t] []
    (Nat.lt_succ_of_le (remaining_le flows []))
  have hthrow := traverse_subflows_fuel_ne_throw (flows.length + 1) flows [t] [] h
  cases hr : traverse_subflows_fuel (flows.length + 1) flows [t] [] with
  | throw => exact absurd hr hthrow
  | diverge => exact absurd hr hfuel.1
  | ret l =>
    refine ⟨l, hr, hr, ?_, ?_⟩
    · intro n s hn hty hz
      have hcl := traverse_subflows_fuel_closed t (flows.length + 1) flows [t] [] l
        (by
          intro c s hc hca _
          rcases hc with hc | hc
          · exact absurd (by simp [hc]) hca
          · simp at hc) hr
      rcases hz with hz | ⟨c, hc, hz⟩
      · exact hcl t s (Or.inl rfl) ⟨n, hn, hz, hty⟩
      · exact hcl c s (Or.inr hc) ⟨n, hn, hz, hty⟩
    · intro S hS s hs
      exact traverse_subflows_fuel_least t S (flows.length + 1) flows [t] [] l hS
        (by simp) (by simp) hr s hs

/-- C1 at a concrete graph with a cycle between two subflows. -/
theorem C1_traverse_subflows_least_closed_witness :
    HasTypes cyclicFlows = true ∧
    ∃ l, Communicator.traverse_subflows cyclicFlows ["t"] [] = .ret l ∧
      Dispatcher.traverse_subflows cyclicFlows ["t"] [] = .ret l ∧
      Closed cyclicFlows "t" {s | s ∈ l} ∧
      ∀ S : Set String, Closed cyclicFlows "t" S → {s | s ∈ l} ⊆ S :=
  ⟨by decide, C1_traverse_subflows_least_closed cyclicFlows "t" (by decide)⟩

/-- C2: for every graph, also one with cyclic subflow references or malformed entries,
`traverse_subflows(flows, [t], [])` terminates: `flows.length + 1` activations are enough
and more activations give the same outcome, which is an exception or a list in which no
id occurs twice. -/
theorem C2_traverse_subflows_terminates_nodup (flows : Flows) (t : String) :
    Communicator.traverse_subflows flows [t] [] ≠ .diverge ∧
    (∀ k, traverse_subflows_fuel (flows.length + 1 + k) flows [t] [] =
      Communicator.traverse_subflows flows [t] []) ∧
    (Communicator.traverse_subflows flows [t] [] = .throw ∨
      ∃ l, Communicator.traverse_subflows flows [t] [] = .ret l ∧ l.Nodup) := by
  have hfuel := traverse_subflows_fuel_enough (flows.length + 1) flows [t] []
    (Nat.lt_succ_of_le (remaining_le flows []))
  refine ⟨hfuel.1, hfuel.2, ?_⟩
  cases hr : Communicator.traverse_subflows flows [t] [] with
  | throw => exact Or.inl rfl
  | diverge => exact absurd hr hfuel.1
  | ret l =>
    exact Or.inr ⟨l, rfl, traverse_subflows_fuel_nodup (flows.length + 1) flows [t] [] l
      List.nodup_nil hr⟩

/-- C2 at a concrete cyclic graph: the closure of tab `t` is returned, each id once. -/
theorem C2_traverse_subflows_cyclic_example :
    Communicator.traverse_subflows cyclicFlows ["t"] [] = .ret ["s1", "s2"] ∧
    Communicator.traverse_subflows cyclicFlows ["t"] [] ≠ .diverge :=
  ⟨by decide, (C2_traverse_subflows_terminates_nodup cyclicFlows "t").1⟩

/-! ## Tab lookup and the sheet that is not found -/

theorem noNull_iff (flows : Flows) : NoNull flows = true ↔ ∃ l : List Node, flows = l.map some := by
  induction flows with
  | nil => simp [NoNull]
  | cons e rest ih =>
    cases e with
    | none =>
      simp only [NoNull, List.all_cons, Option.isSome_none, Bool.false_and, Bool.false_eq_true,
        false_iff]
      rintro ⟨l, hl⟩
      cases l with
      | nil => simp at hl
      | cons a tl => simp at hl
    | some n =>
      have : NoNull (some n :: rest) = NoNull rest := by simp [NoNull]
      rw [this, ih]
      constructor
      · rintro ⟨l, rfl⟩
        exact ⟨n :: l, rfl⟩
      · rintro ⟨l, hl⟩
        cases l with
        | nil => simp at hl
        | cons a tl =>
          simp only [List.map_cons, List.cons.injEq] at hl
          exact ⟨tl, hl.2⟩

theorem find_tab_map_some (sheet : String) (l : List Node) :
    find_tab sheet (l.map some) =
      .ret ((first_tab sheet (l.map some)).bind (fun n => n.id)) := by
  induction l with
  | nil => simp [find_tab, first_tab]
  | cons n rest ih =>
    simp only [List.map_cons, find_tab]
    by_cases h : n.type = some "tab" ∧ n.label = some sheet
    · rw [if_pos h]
      simp [first_tab, List.find?, h]
    · rw [if_neg h, ih]
      simp [first_tab, List.find?, h]

theorem first_tab_none_iff (sheet : String) (flows : Flows) :
    first_tab sheet flows = none ↔
      ∀ n, some n ∈ flows → ¬ (n.type = some "tab" ∧ n.label = some sheet) := by
  unfold first_tab
  rw [List.find?_eq_none]
  constructor
  · intro h n hn
    have := h n (by rw [List.mem_filterMap]; exact ⟨some n, hn, rfl⟩)
    simpa using this
  · intro hno n hn
    rw [List.mem_filterMap] at hn
    obtain ⟨e, he, hen⟩ := hn
    simp only [id] at hen
    subst hen
    simpa using hno n he

/-- C3: on a graph without `null` entries (in particular a graph of well-formed nodes) that
has no node of type `tab` whose label is the sheet name, the Communicator `sheet_prune`
returns status `PRUNE_NOT_FOUND_ERR` with flow `null`, and the Dispatcher `sheet_prune`
returns `null`. -/
theorem C3_sheet_prune_not_found (get_node_id : Nat → String) (flows : Flows) (node : CommNode)
    (hwf : NoNull flows = true)
    (hno : ∀ n, some n ∈ flows → ¬ (n.type = some "tab" ∧ n.label = some node.sheet)) :
    Communicator.sheet_prune get_node_id flows node =
      .ret { status := Communicator.PRUNE_NOT_FOUND_ERR, flow := none,
             msg := "Sheet not found (" ++ node.sheet ++ ")" } ∧
    Dispatcher.sheet_prune flows node.sheet = .ret none := by
  obtain ⟨l, rfl⟩ := (noNull_iff flows).1 hwf
  have h1 := find_tab_map_some node.sheet l
  rw [(first_tab_none_iff node.sheet _).2 hno] at h1
  simp only [Option.none_bind] at h1
  constructor
  · simp only [Communicator.sheet_prune, Communicator.sheet_prune_run, h1]
  · simp only [Dispatcher.sheet_prune, h1]

/-- C3 at a concrete graph whose tabs are labelled `X` and `Y`, asked for sheet `Z`. -/
theorem C3_sheet_prune_not_found_witness :
    NoNull cyclicFlows = true ∧
    (∀ n, some n ∈ cyclicFlows → ¬ (n.type = some "tab" ∧ n.label = some "Z")) ∧
    Communicator.sheet_prune exIds cyclicFlows { exNode with sheet := "Z" } =
      .ret { status := Communicator.PRUNE_NOT_FOUND_ERR, flow := none,
             msg := "Sheet not found (Z)" } ∧
    Dispatcher.sheet_prune cyclicFlows "Z" = .ret none :=
  ⟨by decide, (first_tab_none_iff "Z" cyclicFlows).1 (by decide),
    C3_sheet_prune_not_found exIds cyclicFlows { exNode with sheet := "Z" }
      (by decide) ((first_tab_none_iff "Z" cyclicFlows).1 (by decide))⟩

/-! ## The main loop of the Communicator `sheet_prune` -/

section loop
open Communicator

theorem scan_subflows_ret_noNull (added now : List String) :
    ∀ (flows : Flows) (subs subs' : List String),
      scan_subflows added now flows subs = .ret subs' → NoNull flows = true := by
  intro flows
  induction flows with
  | nil => intro _ _ _; rfl
  | cons e rest ih =>
    intro subs subs' h
    cases e with
    | none => simp [scan_subflows] at h
    | some n =>
      have hn : NoNull (some n :: rest) = NoNull rest := by simp [NoNull]
      rw [hn]
      simp only [scan_subflows] at h
      split at h
      · split at h
        · simp at h
        · split at h
          · split at h <;> exact ih _ _ h
          · exact ih _ _ h
      · exact ih _ _ h

theorem traverse_subflows_ret_noNull (flows : Flows) (added now l : List String)
    (h : Communicator.traverse_subflows flows added now = .ret l) : NoNull flows = true := by
  simp only [Communicator.traverse_subflows, traverse_subflows_fuel] at h
  cases hs : scan_subflows added now flows [] with
  | ret subs => exact scan_subflows_ret_noNull _ _ _ _ _ hs
  | throw => rw [hs] at h; simp at h
  | diverge => rw [hs] at h; simp at h

theorem prune_loop_map_some (g : Nat → String) (t : String) (cl : List String) (cfg : WsCfg) :
    ∀ (l : List Node) (st : LoopState),
      prune_loop g t cl cfg (l.map some) st =
        ((prune_steps g t cl cfg l st).1.map some, .ret (prune_steps g t cl cfg l st).2) := by
  intro l
  induction l with
  | nil => intro st; rfl
  | cons n rest ih =>
    intro st
    simp only [List.map_cons, prune_loop, prune_steps, ih]

theorem sheet_prune_run_found (g : Nat → String) (l : List Node) (node : CommNode)
    (tab : Node) (t : String) (cl : List String)
    (htab : first_tab node.sheet (l.map some) = some tab) (hid : tab.id = some t) (ht : t ≠ "")
    (hcl : Communicator.traverse_subflows (l.map some) [t] [] = .ret cl) :
    sheet_prune_run g (l.map some) node =
      ((prune_steps g t cl (mk_ws_cfg (g 0) node) l (init_state g)).1.map some,
       .ret { status := (delegate_check
                (prune_steps g t cl (mk_ws_cfg (g 0) node) l (init_state g)).2.d_in
                (prune_steps g t cl (mk_ws_cfg (g 0) node) l (init_state g)).2.d_out).1,
              flow := some (prune_steps g t cl (mk_ws_cfg (g 0) node) l (init_state g)).2.pruned_flow,
              msg := (delegate_check
                (prune_steps g t cl (mk_ws_cfg (g 0) node) l (init_state g)).2.d_in
                (prune_steps g t cl (mk_ws_cfg (g 0) node) l (init_state g)).2.d_out).2 }) := by
  have h1 := find_tab_map_some node.sheet l
  rw [htab] at h1
  simp only [Option.some_bind, hid] at h1
  simp only [sheet_prune_run, h1, if_pos ht, prune_try, hcl, prune_loop_map_some]

theorem selected_eq_in_sheet (t : String) (cl : List String) (n : Node)
    (h : n.type ≠ some "subflow") : selected t cl n = in_sheet t cl n := by
  simp [selected, in_sheet, h]

section steps
variable (g : Nat → String) (t : String) (cl : List String) (cfg : WsCfg)

theorem prune_step_in (n : Node) (st : LoopState) (hs : selected t cl n = true)
    (hty : n.type = some "flow-dlg-in") :
    prune_step g t cl cfg n st =
      ({ n with server := some "", client := some st.node_id, type := some "websocket in",
                wires := some [[g st.calls]] },
       { pruned_flow := (if PNode.cfg cfg ∉ st.pruned_flow then st.pruned_flow ++ [PNode.cfg cfg]
            else st.pruned_flow) ++
            [PNode.func (mk_func_node (g st.calls) n)] ++
            [PNode.orig { n with server := some "", client := some st.node_id,
                                 type := some "websocket in", wires := some [[g st.calls]] }],
         node_id := g st.calls, d_in := st.d_in + 1, d_out := st.d_out,
         calls := st.calls + 1 }) := by
  simp [prune_step, hs, hty, mk_func_node]

theorem prune_step_out (n : Node) (st : LoopState) (hs : selected t cl n = true)
    (hty : n.type = some "flow-dlg-out") :
    prune_step g t cl cfg n st =
      ({ n with server := some "", client := some st.node_id, type := some "websocket out" },
       { pruned_flow := (if PNode.cfg cfg ∉ st.pruned_flow then st.pruned_flow ++ [PNode.cfg cfg]
            else st.pruned_flow) ++
            [PNode.orig { n with server := some "", client := some st.node_id,
                                 type := some "websocket out" }],
         node_id := st.node_id, d_in := st.d_in, d_out := st.d_out + 1,
         calls := st.calls }) := by
  simp [prune_step, hs, hty]

theorem prune_step_keep (n : Node) (st : LoopState)
    (hs : selected t cl n = true ∨ is_config n = true)
    (hin : n.type ≠ some "flow-dlg-in" ∨ selected t cl n = false)
    (hout : n.type ≠ some "flow-dlg-out" ∨ selected t cl n = false) :
    prune_step g t cl cfg n st =
      (n, { st with pruned_flow := st.pruned_flow ++ [PNode.orig n] }) := by
  by_cases hsel : selected t cl n = true
  · have h1 : n.type ≠ some "flow-dlg-in" := by
      rcases hin with h | h
      · exact h
      · simp [hsel] at h
    have h2 : n.type ≠ some "flow-dlg-out" := by
      rcases hout with h | h
      · exact h
      · simp [hsel] at h
    simp [prune_step, hsel, h1, h2]
  · have hc : is_config n = true := by
      rcases hs with h | h
      · exact absurd h hsel
      · exact h
    simp [prune_step, hsel, hc]

theorem prune_step_skip (n : Node) (st : LoopState) (hs : selected t cl n = false)
    (hc : is_config n = false) :
    prune_step g t cl cfg n st = (n, st) := by
  simp [prune_step, hs, hc]

/-- The five cases of one iteration. -/
theorem prune_step_cases (n : Node) :
    (selected t cl n = true ∧ n.type = some "flow-dlg-in") ∨
    (selected t cl n = true ∧ n.type = some "flow-dlg-out") ∨
    ((selected t cl n = true ∨ is_config n = true) ∧
      (n.type ≠ some "flow-dlg-in" ∨ selected t cl n = false) ∧
      (n.type ≠ some "flow-dlg-out" ∨ selected t cl n = false)) ∨
    (selected t cl n = false ∧ is_config n = false) := by
  by_cases hs : selected t cl n = true
  · by_cases h1 : n.type = some "flow-dlg-in"
    · exact Or.inl ⟨hs, h1⟩
    · by_cases h2 : n.type = some "flow-dlg-out"
      · exact Or.inr (Or.inl ⟨hs, h2⟩)
      · exact Or.inr (Or.inr (Or.inl ⟨Or.inl hs, Or.inl h1, Or.inl h2⟩))
  · have hs' : selected t cl n = false := by simpa using hs
    by_cases hc : is_config n = true
    · exact Or.inr (Or.inr (Or.inl ⟨Or.inr hc, Or.inr hs', Or.inr hs'⟩))
    · exact Or.inr (Or.inr (Or.inr ⟨hs', by simpa using hc⟩))


theorem in_sheet_eq_false_of (n : Node) (ty : String) (hty : n.type = some ty)
    (hne : ty ≠ "subflow") (hs : selected t cl n = false) : in_sheet t cl n = false := by
  rw [← selected_eq_in_sheet t cl n (by rw [hty]; simpa using hne)]
  exact hs

theorem prune_step_d_in (n : Node) (st : LoopState) :
    (prune_step g t cl cfg n st).2.d_in =
      st.d_in + (if (decide (n.type = some "flow-dlg-in") && in_sheet t cl n) = true
        then 1 else 0) := by
  rcases prune_step_cases t cl n with ⟨hs, hty⟩ | ⟨hs, hty⟩ | ⟨hs, hin, hout⟩ | ⟨hs, hc⟩
  · rw [prune_step_in g t cl cfg n st hs hty]
    have : in_sheet t cl n = true := by
      rw [← selected_eq_in_sheet t cl n (by rw [hty]; decide)]; exact hs
    simp [hty, this]
  · rw [prune_step_out g t cl cfg n st hs hty]
    simp [hty]
  · rw [prune_step_keep g t cl cfg n st hs hin hout]
    by_cases hty : n.type = some "flow-dlg-in"
    · have hsel : selected t cl n = false := by
        rcases hin with h | h
        · exact absurd hty h
        · exact h
      simp [in_sheet_eq_false_of t cl n _ hty (by decide) hsel]
    · simp [hty]
  · rw [prune_step_skip g t cl cfg n st hs hc]
    by_cases hty : n.type = some "flow-dlg-in"
    · simp [in_sheet_eq_false_of t cl n _ hty (by decide) hs]
    · simp [hty]

theorem prune_step_d_out (n : Node) (st : LoopState) :
    (prune_step g t cl cfg n st).2.d_out =
      st.d_out + (if (decide (n.type = some "flow-dlg-out") && in_sheet t cl n) = true
        then 1 else 0) := by
  rcases prune_step_cases t cl n with ⟨hs, hty⟩ | ⟨hs, hty⟩ | ⟨hs, hin, hout⟩ | ⟨hs, hc⟩
  · rw [prune_step_in g t cl cfg n st hs hty]
    simp [hty]
  · rw [prune_step_out g t cl cfg n st hs hty]
    have : in_sheet t cl n = true := by
      rw [← selected_eq_in_sheet t cl n (by rw [hty]; decide)]; exact hs
    simp [hty, this]
  · rw [prune_step_keep g t cl cfg n st hs hin hout]
    by_cases hty : n.type = some "flow-dlg-out"
    · have hsel : selected t cl n = false := by
        rcases hout with h | h
        · exact absurd hty h
        · exact h
      simp [in_sheet_eq_false_of t cl n _ hty (by decide) hsel]
    · simp [hty]
  · rw [prune_step_skip g t cl cfg n st hs hc]
    by_cases hty : n.type = some "flow-dlg-out"
    · simp [in_sheet_eq_false_of t cl n _ hty (by decide) hs]
    · simp [hty]

theorem prune_steps_counts :
    ∀ (l : List Node) (st : LoopState),
      (prune_steps g t cl cfg l st).2.d_in =
        st.d_in + l.countP (fun n => decide (n.type = some "flow-dlg-in") && in_sheet t cl n) ∧
      (prune_steps g t cl cfg l st).2.d_out =
        st.d_out + l.countP (fun n => decide (n.type = some "flow-dlg-out") && in_sheet t cl n) := by
  intro l
  induction l with
  | nil => intro st; simp [prune_steps]
  | cons n rest ih =>
    intro st
    obtain ⟨h1, h2⟩ := ih (prune_step g t cl cfg n st).2
    simp only [prune_steps, h1, h2, prune_step_d_in, prune_step_d_out, List.countP_cons]
    constructor <;> omega

theorem cfg_mem_iff (st : LoopState) (h : CfgInv cfg st) :
    PNode.cfg cfg ∈ st.pruned_flow ↔ st.d_in + st.d_out ≠ 0 := by
  obtain ⟨h1, h2⟩ := h
  constructor
  · intro hm hz
    rw [if_pos hz] at h2
    rw [List.countP_eq_zero] at h2
    exact h2 _ hm rfl
  · intro hz
    rw [if_neg hz] at h2
    have : 0 < st.pruned_flow.countP PNode.isCfg := by omega
    rw [List.countP_pos_iff] at this
    obtain ⟨p, hp, hpc⟩ := this
    rw [← h1 p hp hpc]
    exact hp

theorem prune_step_cfgInv (n : Node) (st : LoopState) (h : CfgInv cfg st) :
    CfgInv cfg (prune_step g t cl cfg n st).2 := by
  have hmem := cfg_mem_iff cfg st h
  obtain ⟨h1, h2⟩ := h
  rcases prune_step_cases t cl n with ⟨hs, hty⟩ | ⟨hs, hty⟩ | ⟨hs, hin, hout⟩ | ⟨hs, hc⟩
  · rw [prune_step_in g t cl cfg n st hs hty]
    by_cases hz : st.d_in + st.d_out = 0
    · have hnm : PNode.cfg cfg ∉ st.pruned_flow := by rw [hmem]; simpa using hz
      rw [if_pos hz] at h2
      constructor
      · intro p hp hpc
        simp only [if_pos hnm, List.mem_append, List.mem_singleton] at hp
        rcases hp with ((hp | hp) | hp) | hp
        · exact h1 p hp hpc
        · exact hp
        · subst hp; simp [PNode.isCfg] at hpc
        · subst hp; simp [PNode.isCfg] at hpc
      · simp [if_pos hnm, List.countP_append, h2, PNode.isCfg]
    · have hm : PNode.cfg cfg ∈ st.pruned_flow := by rw [hmem]; exact hz
      rw [if_neg hz] at h2
      constructor
      · intro p hp hpc
        simp only [hm, not_true_eq_false, if_false, List.mem_append, List.mem_singleton] at hp
        rcases hp with (hp | hp) | hp
        · exact h1 p hp hpc
        · subst hp; simp [PNode.isCfg] at hpc
        · subst hp; simp [PNode.isCfg] at hpc
      · simp [hm, List.countP_append, h2, PNode.isCfg]
  · rw [prune_step_out g t cl cfg n st hs hty]
    by_cases hz : st.d_in + st.d_out = 0
    · have hnm : PNode.cfg cfg ∉ st.pruned_flow := by rw [hmem]; simpa using hz
      rw [if_pos hz] at h2
      constructor
      · intro p hp hpc
        simp only [if_pos hnm, List.mem_append, List.mem_singleton] at hp
        rcases hp with (hp | hp) | hp
        · exact h1 p hp hpc
        · exact hp
        · subst hp; simp [PNode.isCfg] at hpc
      · simp [if_pos hnm, List.countP_append, h2, PNode.isCfg]
    · have hm : PNode.cfg cfg ∈ st.pruned_flow := by rw [hmem]; exact hz
      rw [if_neg hz] at h2
      constructor
      · intro p hp hpc
        simp only [hm, not_true_eq_false, if_false, List.mem_append, List.mem_singleton] at hp
        rcases hp with hp | hp
        · exact h1 p hp hpc
        · subst hp; simp [PNode.isCfg] at hpc
      · have : ¬ (st.d_in + (st.d_out + 1) = 0) := by omega
        simp [hm, List.countP_append, h2, PNode.isCfg, this]
  · rw [prune_step_keep g t cl cfg n st hs hin hout]
    constructor
    · intro p hp hpc
      simp only [List.mem_append, List.mem_singleton] at hp
      rcases hp with hp | hp
      · exact h1 p hp hpc
      · subst hp; simp [PNode.isCfg] at hpc
    · simp [List.countP_append, h2, PNode.isCfg]
  · rw [prune_step_skip g t cl cfg n st hs hc]
    exact ⟨h1, h2⟩

theorem prune_steps_cfgInv :
    ∀ (l : List Node) (st : LoopState), CfgInv cfg st →
      CfgInv cfg (prune_steps g t cl cfg l st).2 := by
  intro l
  induction l with
  | nil => intro st h; exact h
  | cons n rest ih =>
    intro st h
    exact ih _ (prune_step_cfgInv g t cl cfg n st h)

theorem count_cfg_eq (st : LoopState) (h : CfgInv cfg st) :
    st.pruned_flow.count (PNode.cfg cfg) = st.pruned_flow.countP PNode.isCfg := by
  unfold List.count
  apply List.countP_congr
  intro p hp
  constructor
  · intro hpe
    have : p = PNode.cfg cfg := by simpa using hpe
    subst this
    rfl
  · intro hpc
    simp [h.1 p hp hpc]

end steps

theorem first_tab_mem (sheet : String) (flows : Flows) (tab : Node)
    (h : first_tab sheet flows = some tab) : some tab ∈ flows := by
  unfold first_tab at h
  have := List.mem_of_find?_eq_some h
  rw [List.mem_filterMap] at this
  obtain ⟨e, he, hen⟩ := this
  simp only [id] at hen
  subst hen
  exact he

theorem wellFormed_id (flows : Flows) (n : Node) (t : String) (hwf : WellFormed flows = true)
    (hn : some n ∈ flows) (hid : n.id = some t) : t ≠ "" := by
  unfold WellFormed at hwf
  rw [List.all_eq_true] at hwf
  have := hwf _ hn
  simp only [Bool.and_eq_true] at this
  have h2 := this.2
  rw [hid] at h2
  simpa [truthyStr] using h2

theorem filterMap_id_map_some (l : List Node) : (l.map some).filterMap id = l := by
  induction l with
  | nil => rfl
  | cons a tl ih => simp [List.filterMap_cons, ih]

/-- When the tab is found and the closure is computed, `sheet_prune` returns the result of
the delegate count check on the numbers of delegates in the selected sheet. -/
theorem sheet_prune_run_counts (g : Nat → String) (flows : Flows) (node : CommNode)
    (tab : Node) (t : String) (cl : List String)
    (htab : first_tab node.sheet flows = some tab) (hid : tab.id = some t) (ht : t ≠ "")
    (hcl : Communicator.traverse_subflows flows [t] [] = .ret cl) :
    ∃ l : List Node, flows = l.map some ∧
      sheet_prune_run g flows node =
        ((prune_steps g t cl (mk_ws_cfg (g 0) node) l (init_state g)).1.map some,
         .ret { status := (delegate_check (sheet_count "flow-dlg-in" t cl flows)
                  (sheet_count "flow-dlg-out" t cl flows)).1,
                flow := some (prune_steps g t cl (mk_ws_cfg (g 0) node) l
                  (init_state g)).2.pruned_flow,
                msg := (delegate_check (sheet_count "flow-dlg-in" t cl flows)
                  (sheet_count "flow-dlg-out" t cl flows)).2 }) := by
  obtain ⟨l, rfl⟩ := (noNull_iff flows).1 (traverse_subflows_ret_noNull _ _ _ _ hcl)
  refine ⟨l, rfl, ?_⟩
  obtain ⟨h1, h2⟩ := prune_steps_counts g t cl (mk_ws_cfg (g 0) node) l (init_state g)
  rw [sheet_prune_run_found g l node tab t cl htab hid ht hcl, h1, h2]
  simp only [sheet_count, filterMap_id_map_some, init_state, Nat.zero_add]

/-- A call of `sheet_prune` that returns a flow found the tab, computed the closure and ran
the main loop to its end. -/
theorem sheet_prune_run_inv (g : Nat → String) (flows after : Flows) (node : CommNode)
    (r : PruneResult) (fl : List PNode)
    (hrun : sheet_prune_run g flows node = (after, .ret r)) (hfl : r.flow = some fl) :
    ∃ (tab : Node) (t : String) (cl : List String) (l : List Node),
      flows = l.map some ∧ first_tab node.sheet flows = some tab ∧ tab.id = some t ∧ t ≠ "" ∧
      Communicator.traverse_subflows flows [t] [] = .ret cl ∧
      after = (prune_steps g t cl (mk_ws_cfg (g 0) node) l (init_state g)).1.map some ∧
      fl = (prune_steps g t cl (mk_ws_cfg (g 0) node) l (init_state g)).2.pruned_flow := by
  cases hft : find_tab node.sheet flows with
  | throw => simp [sheet_prune_run, hft] at hrun
  | diverge => simp [sheet_prune_run, hft] at hrun
  | ret tabid =>
    cases tabid with
    | none =>
      simp only [sheet_prune_run, hft, Prod.mk.injEq, Outcome.ret.injEq] at hrun
      rw [← hrun.2] at hfl
      simp at hfl
    | some t =>
      by_cases ht : t = ""
      · simp only [sheet_prune_run, hft, ht, ne_eq, not_true_eq_false, if_false, Prod.mk.injEq,
          Outcome.ret.injEq] at hrun
        rw [← hrun.2] at hfl
        simp at hfl
      · cases hcl : Communicator.traverse_subflows flows [t] [] with
        | throw =>
          simp only [sheet_prune_run, hft, ne_eq, ht, not_false_eq_true, if_true, prune_try, hcl,
            Prod.mk.injEq, Outcome.ret.injEq] at hrun
          rw [← hrun.2] at hfl
          simp at hfl
        | diverge =>
          simp [sheet_prune_run, hft, ht, prune_try, hcl] at hrun
        | ret cl =>
          obtain ⟨l, rfl⟩ := (noNull_iff flows).1 (traverse_subflows_ret_noNull _ _ _ _ hcl)
          have h1 := find_tab_map_some node.sheet l
          rw [hft] at h1
          cases htab : first_tab node.sheet (l.map some) with
          | none => rw [htab] at h1; simp at h1
          | some tab =>
            rw [htab] at h1
            simp only [Option.some_bind, Outcome.ret.injEq] at h1
            have hrun2 := sheet_prune_run_found g l node tab t cl htab h1.symm ht hcl
            rw [hrun2] at hrun
            simp only [Prod.mk.injEq, Outcome.ret.injEq] at hrun
            refine ⟨tab, t, cl, l, rfl, rfl, h1.symm, ht, hcl, hrun.1.symm, ?_⟩
            rw [← hrun.2] at hfl
            simpa using hfl.symm

section order
variable (g : Nat → String) (t : String) (cl : List String) (cfg : WsCfg)

theorem prune_step_member (n : Node) (st : LoopState) :
    member t cl (prune_step g t cl cfg n st).1 = member t cl n := by
  rcases prune_step_cases t cl n with ⟨hs, hty⟩ | ⟨hs, hty⟩ | ⟨hs, hin, hout⟩ | ⟨hs, hc⟩
  · rw [prune_step_in g t cl cfg n st hs hty]
    simp [member, selected, is_config, hty]
  · rw [prune_step_out g t cl cfg n st hs hty]
    simp [member, selected, is_config, hty]
  · rw [prune_step_keep g t cl cfg n st hs hin hout]
  · rw [prune_step_skip g t cl cfg n st hs hc]

theorem origs_append (a b : List PNode) : origs (a ++ b) = origs a ++ origs b := by
  simp [origs, List.filterMap_append]

theorem origs_ite_cfg (pf : List PNode) (c : Prop) [Decidable c] :
    origs (if c then pf ++ [PNode.cfg cfg] else pf) = origs pf := by
  split
  · simp [origs, List.filterMap_append]
  · rfl

theorem prune_step_origs (n : Node) (st : LoopState) :
    origs (prune_step g t cl cfg n st).2.pruned_flow =
      origs st.pruned_flow ++
        (if member t cl n = true then [(prune_step g t cl cfg n st).1] else []) := by
  rcases prune_step_cases t cl n with ⟨hs, hty⟩ | ⟨hs, hty⟩ | ⟨hs, hin, hout⟩ | ⟨hs, hc⟩
  · rw [prune_step_in g t cl cfg n st hs hty]
    simp only [origs_append, origs_ite_cfg, member, hs, Bool.true_or, if_true]
    simp [origs]
  · rw [prune_step_out g t cl cfg n st hs hty]
    simp only [origs_append, origs_ite_cfg, member, hs, Bool.true_or, if_true]
    simp [origs]
  · rw [prune_step_keep g t cl cfg n st hs hin hout]
    have : member t cl n = true := by simpa [member] using hs
    simp only [origs_append, this, if_true]
    simp [origs]
  · rw [prune_step_skip g t cl cfg n st hs hc]
    simp [member, hs, hc]

theorem prune_steps_origs :
    ∀ (l : List Node) (st : LoopState),
      origs (prune_steps g t cl cfg l st).2.pruned_flow =
        origs st.pruned_flow ++ (prune_steps g t cl cfg l st).1.filter (member t cl) ∧
      (prune_steps g t cl cfg l st).1.map (member t cl) = l.map (member t cl) := by
  intro l
  induction l with
  | nil => intro st; simp [prune_steps]
  | cons n rest ih =>
    intro st
    obtain ⟨h1, h2⟩ := ih (prune_step g t cl cfg n st).2
    simp only [prune_steps, h1, h2, prune_step_origs, List.map_cons, prune_step_member,
      List.filter_cons, and_true]
    by_cases hm : member t cl n = true
    · simp [hm]
    · simp [hm]

theorem prune_steps_append :
    ∀ (l1 l2 : List Node) (st : LoopState),
      prune_steps g t cl cfg (l1 ++ l2) st =
        ((prune_steps g t cl cfg l1 st).1 ++
            (prune_steps g t cl cfg l2 (prune_steps g t cl cfg l1 st).2).1,
          (prune_steps g t cl cfg l2 (prune_steps g t cl cfg l1 st).2).2) := by
  intro l1
  induction l1 with
  | nil => intro l2 st; simp [prune_steps]
  | cons n rest ih =>
    intro l2 st
    rw [List.cons_append]
    simp only [prune_steps, ih]
    rfl

theorem prune_step_grows (n : Node) (st : LoopState) :
    ∃ X, (prune_step g t cl cfg n st).2.pruned_flow = st.pruned_flow ++ X := by
  rcases prune_step_cases t cl n with ⟨hs, hty⟩ | ⟨hs, hty⟩ | ⟨hs, hin, hout⟩ | ⟨hs, hc⟩
  · rw [prune_step_in g t cl cfg n st hs hty]
    by_cases hc : PNode.cfg cfg ∉ st.pruned_flow
    · exact ⟨_, by simp only [if_pos hc, List.append_assoc]; rfl⟩
    · exact ⟨_, by simp only [if_neg hc, List.append_assoc]; rfl⟩
  · rw [prune_step_out g t cl cfg n st hs hty]
    by_cases hc : PNode.cfg cfg ∉ st.pruned_flow
    · exact ⟨_, by simp only [if_pos hc, List.append_assoc]; rfl⟩
    · exact ⟨_, by simp only [if_neg hc, List.append_assoc]; rfl⟩
  · rw [prune_step_keep g t cl cfg n st hs hin hout]
    exact ⟨_, rfl⟩
  · rw [prune_step_skip g t cl cfg n st hs hc]
    exact ⟨[], by simp⟩

theorem prune_steps_grows :
    ∀ (l : List Node) (st : LoopState),
      ∃ X, (prune_steps g t cl cfg l st).2.pruned_flow = st.pruned_flow ++ X := by
  intro l
  induction l with
  | nil => intro st; exact ⟨[], by simp [prune_steps]⟩
  | cons n rest ih =>
    intro st
    obtain ⟨X, hX⟩ := prune_step_grows g t cl cfg n st
    obtain ⟨Y, hY⟩ := ih (prune_step g t cl cfg n st).2
    exact ⟨X ++ Y, by simp only [prune_steps, hY, hX, List.append_assoc]⟩

theorem prune_steps_length :
    ∀ (l : List Node) (st : LoopState), (prune_steps g t cl cfg l st).1.length = l.length := by
  intro l
  induction l with
  | nil => intro st; rfl
  | cons n rest ih => intro st; simp [prune_steps, ih]

/-- The delegate-in `d` met in state `st` leaves, at the end of the loop, its adapter
immediately followed by its rewritten self in `pruned_flow`, and its rewritten self at its
place in the array. -/
theorem prune_steps_delegate_in (pre post : List Node) (d : Node) (st : LoopState)
    (hs : selected t cl d = true) (hty : d.type = some "flow-dlg-in") :
    ∃ (A B : List PNode) (a : FuncNode) (d' : Node),
      (prune_steps g t cl cfg (pre ++ d :: post) st).2.pruned_flow =
        A ++ PNode.func a :: PNode.orig d' :: B ∧
      (prune_steps g t cl cfg (pre ++ d :: post) st).1[pre.length]? = some d' ∧
      a.type = "function" ∧ a.z = d.z ∧ a.wires = d.wires ∧
      d'.type = some "websocket in" ∧ d'.wires = some [[a.id]] ∧
      d'.id = d.id ∧ d'.z = d.z := by
  have hlen := prune_steps_length g t cl cfg pre st
  rw [prune_steps_append]
  simp only [prune_steps]
  generalize prune_steps g t cl cfg pre st = rpre at hlen ⊢
  obtain ⟨pre', st1⟩ := rpre
  simp only at hlen ⊢
  obtain ⟨B, hB⟩ := prune_steps_grows g t cl cfg post (prune_step g t cl cfg d st1).2
  rw [hB, prune_step_in g t cl cfg d st1 hs hty]
  refine ⟨(if PNode.cfg cfg ∉ st1.pruned_flow then st1.pruned_flow ++ [PNode.cfg cfg]
      else st1.pruned_flow), B, mk_func_node (g st1.calls) d,
    { d with server := some "", client := some st1.node_id, type := some "websocket in",
             wires := some [[g st1.calls]] }, ?_, ?_, ?_⟩
  · simp only [List.append_assoc, List.singleton_append]
    rfl
  · rw [List.getElem?_append_right (by omega)]
    simp [hlen]
  · simp [mk_func_node]

end order

end loop

/-! ## Claims on the Communicator `sheet_prune` -/

section claims
open Communicator

/-- C4: on a well-formed graph whose selected sheet (the tab, its nodes and the nodes of its
subflow closure) has exactly one `flow-dlg-in` and exactly one `flow-dlg-out` node,
`sheet_prune` returns status `PRUNE_OK`, and the synthesized configuration object `ws_cfg`
occurs exactly once in the returned flow (and it is the only synthesized configuration
object there). -/
theorem C4_sheet_prune_ok_one_cfg (get_node_id : Nat → String) (flows : Flows) (node : CommNode)
    (tab : Node) (t : String) (cl : List String)
    (hwf : WellFormed flows = true)
    (htab : first_tab node.sheet flows = some tab) (hid : tab.id = some t)
    (hcl : Communicator.traverse_subflows flows [t] [] = .ret cl)
    (hin : sheet_count "flow-dlg-in" t cl flows = 1)
    (hout : sheet_count "flow-dlg-out" t cl flows = 1) :
    ∃ fl, Communicator.sheet_prune get_node_id flows node =
        .ret { status := PRUNE_OK, flow := some fl, msg := "Prune ok" } ∧
      fl.count (PNode.cfg (mk_ws_cfg (get_node_id 0) node)) = 1 ∧
      fl.countP PNode.isCfg = 1 := by
  have ht := wellFormed_id flows tab t hwf (first_tab_mem _ _ _ htab) hid
  obtain ⟨l, hl, hrun⟩ := sheet_prune_run_counts get_node_id flows node tab t cl htab hid ht hcl
  have hinv := prune_steps_cfgInv get_node_id t cl (mk_ws_cfg (get_node_id 0) node) l
    (init_state get_node_id) (by simp [CfgInv, init_state])
  obtain ⟨h1, h2⟩ := prune_steps_counts get_node_id t cl (mk_ws_cfg (get_node_id 0) node) l
    (init_state get_node_id)
  have hcnt : (prune_steps get_node_id t cl (mk_ws_cfg (get_node_id 0) node) l
      (init_state get_node_id)).2.pruned_flow.countP PNode.isCfg = 1 := by
    rw [hinv.2, h1]
    have : sheet_count "flow-dlg-in" t cl (l.map some) = 1 := hl ▸ hin
    simp only [sheet_count, filterMap_id_map_some] at this
    rw [this]
    simp
  refine ⟨(prune_steps get_node_id t cl (mk_ws_cfg (get_node_id 0) node) l
    (init_state get_node_id)).2.pruned_flow, ?_, ?_, hcnt⟩
  · simp only [Communicator.sheet_prune, hrun, hin, hout]
    rfl
  · rw [count_cfg_eq _ _ hinv, hcnt]

/-- C4 at tab `X` with one delegate-in followed by one delegate-out. -/
theorem C4_sheet_prune_ok_one_cfg_witness :
    WellFormed inOutFlows = true ∧
    sheet_count "flow-dlg-in" "t" [] inOutFlows = 1 ∧
    sheet_count "flow-dlg-out" "t" [] inOutFlows = 1 ∧
    ∃ fl, Communicator.sheet_prune exIds inOutFlows exNode =
        .ret { status := PRUNE_OK, flow := some fl, msg := "Prune ok" } ∧
      fl.count (PNode.cfg (mk_ws_cfg (exIds 0) exNode)) = 1 ∧
      fl.countP PNode.isCfg = 1 :=
  ⟨by decide, by decide, by decide,
    C4_sheet_prune_ok_one_cfg exIds inOutFlows exNode exTab "t" [] (by decide) (by decide)
      (by decide) (by decide) (by decide) (by decide)⟩

/-- C5 as stated fails: tab `X` is found, its sheet has zero `flow-dlg-in` nodes and one
`flow-dlg-out` node, and `sheet_prune` returns status `PRUNE_OK`, not `PRUNE_DELEGATE_ERR`. -/
theorem C5_zero_in_one_out_is_ok :
    first_tab exNode.sheet outOnlyFlows = some exTab ∧
    Communicator.traverse_subflows outOnlyFlows ["t"] [] = .ret [] ∧
    sheet_count "flow-dlg-in" "t" [] outOnlyFlows = 0 ∧
    sheet_count "flow-dlg-out" "t" [] outOnlyFlows = 1 ∧
    Communicator.sheet_prune exIds outOnlyFlows exNode =
      .ret { status := PRUNE_OK,
             flow := some [.orig exTab, .cfg (mk_ws_cfg "id0" exNode), .orig (wsOut exOut "id0")],
             msg := "Prune ok" } ∧
    ¬ ∃ r, Communicator.sheet_prune exIds outOnlyFlows exNode = .ret r ∧
      r.status = PRUNE_DELEGATE_ERR := by
  refine ⟨by decide, by decide, by decide, by decide, by decide, ?_⟩
  rintro ⟨r, hr, hs⟩
  have h : Communicator.sheet_prune exIds outOnlyFlows exNode =
      .ret { status := PRUNE_OK,
             flow := some [.orig exTab, .cfg (mk_ws_cfg "id0" exNode), .orig (wsOut exOut "id0")],
             msg := "Prune ok" } := by decide
  rw [h] at hr
  cases hr
  exact absurd hs (by decide)

/-- C5 (amended): when the named tab is found and the closure computed, a selected sheet
with no delegate at all (zero `flow-dlg-in` and zero `flow-dlg-out`) gives status
`PRUNE_DELEGATE_ERR` with the message that neither exists; a sheet with zero delegates of
one kind and exactly one of the other gives status `PRUNE_OK`. -/
theorem C5_sheet_prune_zero_delegates (get_node_id : Nat → String) (flows : Flows)
    (node : CommNode) (tab : Node) (t : String) (cl : List String)
    (htab : first_tab node.sheet flows = some tab) (hid : tab.id = some t) (ht : t ≠ "")
    (hcl : Communicator.traverse_subflows flows [t] [] = .ret cl)
    (hzero : sheet_count "flow-dlg-in" t cl flows = 0 ∨
      sheet_count "flow-dlg-out" t cl flows = 0) :
    (sheet_count "flow-dlg-in" t cl flows + sheet_count "flow-dlg-out" t cl flows = 0 →
      ∃ fl, Communicator.sheet_prune get_node_id flows node =
        .ret { status := PRUNE_DELEGATE_ERR, flow := some fl,
               msg := "Neither delegate-in node nor delegate-out node exists." }) ∧
    (sheet_count "flow-dlg-in" t cl flows + sheet_count "flow-dlg-out" t cl flows = 1 →
      ∃ fl, Communicator.sheet_prune get_node_id flows node =
        .ret { status := PRUNE_OK, flow := some fl, msg := "Prune ok" }) := by
  obtain ⟨l, -, hrun⟩ := sheet_prune_run_counts get_node_id flows node tab t cl htab hid ht hcl
  constructor
  · intro h0
    have h1 : sheet_count "flow-dlg-in" t cl flows = 0 := by omega
    have h2 : sheet_count "flow-dlg-out" t cl flows = 0 := by omega
    refine ⟨(prune_steps get_node_id t cl (mk_ws_cfg (get_node_id 0) node) l
      (init_state get_node_id)).2.pruned_flow, ?_⟩
    simp only [Communicator.sheet_prune, hrun, h1, h2]
    rfl
  · intro h1
    rcases hzero with hz | hz
    · have h2 : sheet_count "flow-dlg-out" t cl flows = 1 := by omega
      refine ⟨(prune_steps get_node_id t cl (mk_ws_cfg (get_node_id 0) node) l
        (init_state get_node_id)).2.pruned_flow, ?_⟩
      simp only [Communicator.sheet_prune, hrun, hz, h2]
      rfl
    · have h2 : sheet_count "flow-dlg-in" t cl flows = 1 := by omega
      refine ⟨(prune_steps get_node_id t cl (mk_ws_cfg (get_node_id 0) node) l
        (init_state get_node_id)).2.pruned_flow, ?_⟩
      simp only [Communicator.sheet_prune, hrun, hz, h2]
      rfl

/-- C5 (amended) at a sheet without delegates and at a sheet with one delegate-out only. -/
theorem C5_sheet_prune_zero_delegates_witness :
    (∃ fl, Communicator.sheet_prune exIds cyclicFlows exNode =
      .ret { status := PRUNE_DELEGATE_ERR, flow := some fl,
             msg := "Neither delegate-in node nor delegate-out node exists." }) ∧
    (∃ fl, Communicator.sheet_prune exIds outOnlyFlows exNode =
      .ret { status := PRUNE_OK, flow := some fl, msg := "Prune ok" }) :=
  ⟨(C5_sheet_prune_zero_delegates exIds cyclicFlows exNode exTab "t" ["s1", "s2"]
      (by decide) (by decide) (by decide) (by decide) (Or.inl (by decide))).1 (by decide),
   (C5_sheet_prune_zero_delegates exIds outOnlyFlows exNode exTab "t" []
      (by decide) (by decide) (by decide) (by decide) (Or.inl (by decide))).2 (by decide)⟩

/-- C6: when the named tab is found and the closure computed, a selected sheet with more
than one `flow-dlg-in` node or more than one `flow-dlg-out` node gives status
`PRUNE_DELEGATE_ERR`, and the message reports both counts. -/
theorem C6_sheet_prune_too_many_delegates (get_node_id : Nat → String) (flows : Flows)
    (node : CommNode) (tab : Node) (t : String) (cl : List String)
    (htab : first_tab node.sheet flows = some tab) (hid : tab.id = some t) (ht : t ≠ "")
    (hcl : Communicator.traverse_subflows flows [t] [] = .ret cl)
    (hmany : 1 < sheet_count "flow-dlg-in" t cl flows ∨
      1 < sheet_count "flow-dlg-out" t cl flows) :
    ∃ fl, Communicator.sheet_prune get_node_id flows node =
      .ret { status := PRUNE_DELEGATE_ERR, flow := some fl,
             msg := "Number of delegate nodes error. (#dlg-in: " ++
               toString (sheet_count "flow-dlg-in" t cl flows) ++ ", #dlg-out: " ++
               toString (sheet_count "flow-dlg-out" t cl flows) ++ ")" } := by
  obtain ⟨l, -, hrun⟩ := sheet_prune_run_counts get_node_id flows node tab t cl htab hid ht hcl
  refine ⟨(prune_steps get_node_id t cl (mk_ws_cfg (get_node_id 0) node) l
    (init_state get_node_id)).2.pruned_flow, ?_⟩
  have hnz : ¬ (sheet_count "flow-dlg-in" t cl flows = 0 ∧
      sheet_count "flow-dlg-out" t cl flows = 0) := by omega
  simp only [Communicator.sheet_prune, hrun, delegate_check, if_neg hnz, if_pos hmany]
  simp [String.append_assoc]

/-- C6 at tab `X` with two delegate-out nodes: the message reports `#dlg-out: 2`. -/
theorem C6_sheet_prune_too_many_delegates_witness :
    sheet_count "flow-dlg-in" "t" [] twoOutFlows = 0 ∧
    sheet_count "flow-dlg-out" "t" [] twoOutFlows = 2 ∧
    ("Number of delegate nodes error. (#dlg-in: " ++
        toString (sheet_count "flow-dlg-in" "t" [] twoOutFlows) ++ ", #dlg-out: " ++
        toString (sheet_count "flow-dlg-out" "t" [] twoOutFlows) ++ ")" =
      "Number of delegate nodes error. (#dlg-in: 0, #dlg-out: 2)") ∧
    ∃ fl, Communicator.sheet_prune exIds twoOutFlows exNode =
      .ret { status := PRUNE_DELEGATE_ERR, flow := some fl,
             msg := "Number of delegate nodes error. (#dlg-in: " ++
               toString (sheet_count "flow-dlg-in" "t" [] twoOutFlows) ++ ", #dlg-out: " ++
               toString (sheet_count "flow-dlg-out" "t" [] twoOutFlows) ++ ")" } :=
  ⟨by decide, by decide, by decide,
    C6_sheet_prune_too_many_delegates exIds twoOutFlows exNode exTab "t" []
      (by decide) (by decide) (by decide) (by decide) (Or.inr (by decide))⟩

/-- C7 does not hold of the code, which departs from its own comment.  The branch that
pushes a configuration node is commented `2: no x, y and z property`, the condition of the
claim, but it tests `!(flows[k].x || flows[k].y || flows[k].z)`, the truthiness of the
values.  The node `n1` has the properties `x = 0` and `y = 0`, so it is not a node with no
`x`, `y` or `z`, and it is none of the other four kinds; yet the returned flow holds it.
The returned flow without its synthesized objects is not the array filtered by the
predicate of the claim, and is longer than the input filtered by it. -/
theorem C7_node_with_zero_position_is_kept :
    Communicator.sheet_prune_run exIds originFlows exNode =
      ([some exTab, some (wsOut exOut "id0"), some (wsIn exIn "id0" "id1"), some exOrigin],
       .ret { status := PRUNE_OK,
              flow := some [.orig exTab, .cfg (mk_ws_cfg "id0" exNode), .orig (wsOut exOut "id0"),
                .func (mk_func_node "id1" exIn), .orig (wsIn exIn "id0" "id1"), .orig exOrigin],
              msg := "Prune ok" }) ∧
    first_tab exNode.sheet originFlows = some exTab ∧
    Communicator.traverse_subflows originFlows ["t"] [] = .ret [] ∧
    spec_member "t" [] exOrigin = false ∧
    origs [.orig exTab, .cfg (mk_ws_cfg "id0" exNode), .orig (wsOut exOut "id0"),
        .func (mk_func_node "id1" exIn), .orig (wsIn exIn "id0" "id1"), .orig exOrigin] ≠
      ([exTab, wsOut exOut "id0", wsIn exIn "id0" "id1", exOrigin].filter (spec_member "t" [])) ∧
    (origs [.orig exTab, .cfg (mk_ws_cfg "id0" exNode), .orig (wsOut exOut "id0"),
        .func (mk_func_node "id1" exIn), .orig (wsIn exIn "id0" "id1"), .orig exOrigin]).length ≠
      ((originFlows.filterMap id).filter (spec_member "t" [])).length := by
  refine ⟨by decide, by decide, by decide, by decide, by decide, by decide⟩

/-- What the code selects: when `sheet_prune` returns a flow, that flow with the
synthesized objects removed is exactly the array `flows`, as the call leaves it (delegates
rewritten in place), filtered in array order by the condition of the loop (`member`): the
object is the selected tab, or its `z` is the tab id, or its `z` is in the closure, or it is
a subflow definition whose id is in the closure, or it is not a tab or subflow and the
values of its `x`, `y` and `z` are all falsy.  The condition has the same value on each
object before and after the call. -/
theorem sheet_prune_selection (get_node_id : Nat → String) (flows after : Flows)
    (node : CommNode) (r : PruneResult) (fl : List PNode)
    (hrun : Communicator.sheet_prune_run get_node_id flows node = (after, .ret r))
    (hfl : r.flow = some fl) :
    ∃ (tab : Node) (t : String) (cl : List String),
      first_tab node.sheet flows = some tab ∧ tab.id = some t ∧
      Communicator.traverse_subflows flows [t] [] = .ret cl ∧
      origs fl = (after.filterMap id).filter (member t cl) ∧
      after.map (Option.map (member t cl)) = flows.map (Option.map (member t cl)) := by
  obtain ⟨tab, t, cl, l, hl, htab, hid, -, hcl, hafter, hflow⟩ :=
    sheet_prune_run_inv get_node_id flows after node r fl hrun hfl
  obtain ⟨h1, h2⟩ := prune_steps_origs get_node_id t cl (mk_ws_cfg (get_node_id 0) node) l
    (init_state get_node_id)
  refine ⟨tab, t, cl, htab, hid, hcl, ?_, ?_⟩
  · rw [hflow, hafter, h1, filterMap_id_map_some]
    simp [init_state, origs]
  · rw [hafter, hl, List.map_map, List.map_map]
    have : ∀ l' : List Node, List.map (Option.map (member t cl) ∘ some) l' =
        (l'.map (member t cl)).map some := by
      intro l'
      simp [List.map_map, Function.comp_def]
    rw [this, this, h2]

/-- The selection at tab `X` with a delegate of each kind and a node at position (0, 0). -/
theorem sheet_prune_selection_example :
    Communicator.sheet_prune_run exIds originFlows exNode =
      ([some exTab, some (wsOut exOut "id0"), some (wsIn exIn "id0" "id1"), some exOrigin],
       .ret { status := PRUNE_OK,
              flow := some [.orig exTab, .cfg (mk_ws_cfg "id0" exNode), .orig (wsOut exOut "id0"),
                .func (mk_func_node "id1" exIn), .orig (wsIn exIn "id0" "id1"), .orig exOrigin],
              msg := "Prune ok" }) ∧
    ∃ (tab : Node) (t : String) (cl : List String),
      first_tab exNode.sheet originFlows = some tab ∧ tab.id = some t ∧
      Communicator.traverse_subflows originFlows [t] [] = .ret cl ∧
      origs [.orig exTab, .cfg (mk_ws_cfg "id0" exNode), .orig (wsOut exOut "id0"),
          .func (mk_func_node "id1" exIn), .orig (wsIn exIn "id0" "id1"), .orig exOrigin] =
        ([some exTab, some (wsOut exOut "id0"), some (wsIn exIn "id0" "id1"),
          some exOrigin].filterMap id).filter (member t cl) ∧
      [some exTab, some (wsOut exOut "id0"), some (wsIn exIn "id0" "id1"),
          some exOrigin].map (Option.map (member t cl)) =
        originFlows.map (Option.map (member t cl)) :=
  ⟨by decide,
   sheet_prune_selection exIds originFlows
    [some exTab, some (wsOut exOut "id0"), some (wsIn exIn "id0" "id1"), some exOrigin]
    exNode
    { status := PRUNE_OK,
      flow := some [.orig exTab, .cfg (mk_ws_cfg "id0" exNode), .orig (wsOut exOut "id0"),
        .func (mk_func_node "id1" exIn), .orig (wsIn exIn "id0" "id1"), .orig exOrigin],
      msg := "Prune ok" }
    _ (by decide) rfl⟩

/-- For every choice of random ids, on tab `X` with a delegate-in followed by a delegate-out
the rewritten delegate-out gets as `client` the second id drawn, the id of the adapter. -/
theorem sheet_prune_inOutFlows (g : Nat → String) :
    Communicator.sheet_prune g inOutFlows exNode =
      .ret { status := PRUNE_OK,
             flow := some [.orig exTab, .cfg (mk_ws_cfg (g 0) exNode),
               .func (mk_func_node (g 1) exIn), .orig (wsIn exIn (g 0) (g 1)),
               .orig (wsOut exOut (g 1))],
             msg := "Prune ok" } := by
  have hrun := sheet_prune_run_found g [exTab, exIn, exOut] exNode exTab "t" []
    (by decide) (by decide) (by decide) (by decide)
  show (sheet_prune_run g (List.map some [exTab, exIn, exOut]) exNode).2 = _
  rw [hrun]
  simp only [prune_steps]
  rw [prune_step_keep g "t" [] _ exTab _ (Or.inl (by decide)) (Or.inl (by decide))
    (Or.inl (by decide))]
  rw [prune_step_in g "t" [] _ exIn _ (by decide) (by decide)]
  rw [prune_step_out g "t" [] _ exOut _ (by decide) (by decide)]
  simp [delegate_check, PRUNE_OK, wsIn, wsOut, init_state, mk_func_node]

/-- C8 fails on the code: with the delegate-in before the delegate-out, `sheet_prune` returns
`PRUNE_OK` and the rewritten delegate-out (type `websocket out`) has `client` equal to the
id of the adapter function node (`id1`), not to the id of the configuration node (`id0`). -/
theorem C8_delegate_out_after_in_references_adapter :
    Communicator.sheet_prune exIds inOutFlows exNode =
      .ret { status := PRUNE_OK,
             flow := some [.orig exTab, .cfg (mk_ws_cfg "id0" exNode),
               .func (mk_func_node "id1" exIn), .orig (wsIn exIn "id0" "id1"),
               .orig (wsOut exOut "id1")],
             msg := "Prune ok" } ∧
    (wsOut exOut "id1").type = some "websocket out" ∧
    (wsOut exOut "id1").client = some (mk_func_node "id1" exIn).id ∧
    (wsOut exOut "id1").client ≠ some (mk_ws_cfg "id0" exNode).id := by
  refine ⟨by decide, by decide, by decide, by decide⟩

theorem map_some_eq_append_cons (l : List Node) (pre post : Flows) (d : Node)
    (h : l.map some = pre ++ some d :: post) :
    ∃ pre' post', l = pre' ++ d :: post' ∧ pre'.length = pre.length := by
  rw [List.map_eq_append_iff] at h
  obtain ⟨l1, l2, rfl, h1, h2⟩ := h
  rw [List.map_eq_cons_iff] at h2
  obtain ⟨a, l3, rfl, ha, -⟩ := h2
  cases ha
  exact ⟨l1, l3, rfl, by rw [← h1, List.length_map]⟩

/-- C9: when the named tab is found and the closure computed, every selected `flow-dlg-in`
node `d` of the array leaves in the returned flow an adapter `a` (type `function`, same `z`
as `d`, wires equal to the original wires of `d`) immediately followed by `d` itself,
rewritten in place to type `websocket in` with wires `[[a.id]]`. -/
theorem C9_delegate_in_adapter (get_node_id : Nat → String) (flows : Flows) (node : CommNode)
    (tab : Node) (t : String) (cl : List String) (pre post : Flows) (d : Node)
    (htab : first_tab node.sheet flows = some tab) (hid : tab.id = some t) (ht : t ≠ "")
    (hcl : Communicator.traverse_subflows flows [t] [] = .ret cl)
    (hd : flows = pre ++ some d :: post) (hty : d.type = some "flow-dlg-in")
    (hsel : in_sheet t cl d = true) :
    ∃ (after : Flows) (r : PruneResult) (A B : List PNode) (a : FuncNode) (d' : Node),
      Communicator.sheet_prune_run get_node_id flows node = (after, .ret r) ∧
      r.flow = some (A ++ PNode.func a :: PNode.orig d' :: B) ∧
      after[pre.length]? = some (some d') ∧
      a.type = "function" ∧ a.z = d.z ∧ a.wires = d.wires ∧
      d'.type = some "websocket in" ∧ d'.wires = some [[a.id]] ∧
      d'.id = d.id ∧ d'.z = d.z := by
  obtain ⟨l, hl, hrun⟩ := sheet_prune_run_counts get_node_id flows node tab t cl htab hid ht hcl
  obtain ⟨pre', post', hl', hlen⟩ := map_some_eq_append_cons l pre post d (hl ▸ hd)
  subst hl'
  have hs : selected t cl d = true := by
    rw [selected_eq_in_sheet t cl d (by rw [hty]; decide)]
    exact hsel
  obtain ⟨A, B, a, d', h1, h2, h3⟩ := prune_steps_delegate_in get_node_id t cl
    (mk_ws_cfg (get_node_id 0) node) pre' post' d (init_state get_node_id) hs hty
  refine ⟨_, _, A, B, a, d', hrun, ?_, ?_, h3⟩
  · simp only [h1]
  · rw [List.getElem?_map, ← hlen, h2]
    rfl

/-- C9 at tab `X` with a delegate-in wired to `o1`. -/
theorem C9_delegate_in_adapter_witness :
    in_sheet "t" [] exIn = true ∧
    ∃ (after : Flows) (r : PruneResult) (A B : List PNode) (a : FuncNode) (d' : Node),
      Communicator.sheet_prune_run exIds inOutFlows exNode = (after, .ret r) ∧
      r.flow = some (A ++ PNode.func a :: PNode.orig d' :: B) ∧
      after[[some exTab].length]? = some (some d') ∧
      a.type = "function" ∧ a.z = exIn.z ∧ a.wires = exIn.wires ∧
      d'.type = some "websocket in" ∧ d'.wires = some [[a.id]] ∧
      d'.id = exIn.id ∧ d'.z = exIn.z :=
  ⟨by decide,
   C9_delegate_in_adapter exIds inOutFlows exNode exTab "t" [] [some exTab] [some exOut] exIn
    (by decide) (by decide) (by decide) (by decide) rfl (by decide) (by decide)⟩

/-- C10 fails on the code: the loop that looks for the tab runs outside the `try` block, so a
`null` entry met before the tab makes `sheet_prune` throw to its caller; a `null` entry
met after the tab is caught and reported as `PRUNE_UNKNOWN_ERR` with flow `null`. -/
theorem C10_null_entry_before_tab_throws (get_node_id : Nat → String) (rest : Flows)
    (node : CommNode) :
    Communicator.sheet_prune get_node_id (none :: rest) node = .throw ∧
    Communicator.sheet_prune exIds nullFlows exNode =
      .ret { status := PRUNE_UNKNOWN_ERR, flow := none,
             msg := "Exception while sheet pruning." } := by
  constructor
  · simp [Communicator.sheet_prune, sheet_prune_run, find_tab]
  · decide

end claims

/-! ## The dispatch protocol: what a world keeps when a request is issued -/

theorem endsWith_append (s sfx : String) : endsWith (s ++ sfx) sfx = true := by
  unfold endsWith
  rw [List.isPrefixOf_iff_prefix, String.data_append, List.reverse_append]
  exact List.prefix_append _ _

theorem endsWith_flows_token (s : String) : endsWith (s ++ "/auth/token") "/flows" = false := by
  unfold endsWith
  rw [String.data_append, List.reverse_append]
  rfl

theorem endsWith_flows_revoke (s : String) : endsWith (s ++ "/auth/revoke") "/flows" = false := by
  unfold endsWith
  rw [String.data_append, List.reverse_append]
  rfl

section basics

@[simp] theorem sent_emit (w : World) (es : List Effect) : (w.emit es).sent = w.sent := rfl

@[simp] theorem pending_emit (w : World) (es : List Effect) :
    (w.emit es).pending = w.pending := rfl

@[simp] theorem node_emit (w : World) (es : List Effect) : (w.emit es).node = w.node := rfl

@[simp] theorem aborted_emit (w : World) (es : List Effect) :
    (w.emit es).aborted = w.aborted := rfl

@[simp] theorem tls_emit (w : World) (es : List Effect) : (w.emit es).tls = w.tls := rfl

@[simp] theorem sent_secure_check (w : World) (b : Bool) :
    (Communicator.set_https_secure_check b w).sent = w.sent := by
  unfold Communicator.set_https_secure_check
  split
  · rfl
  · split <;> rfl

@[simp] theorem pending_secure_check (w : World) (b : Bool) :
    (Communicator.set_https_secure_check b w).pending = w.pending := by
  unfold Communicator.set_https_secure_check
  split
  · rfl
  · split <;> rfl

@[simp] theorem node_secure_check (w : World) (b : Bool) :
    (Communicator.set_https_secure_check b w).node = w.node := by
  unfold Communicator.set_https_secure_check
  split
  · rfl
  · split <;> rfl

@[simp] theorem effects_secure_check (w : World) (b : Bool) :
    (Communicator.set_https_secure_check b w).effects = w.effects := by
  unfold Communicator.set_https_secure_check
  split
  · rfl
  · split <;> rfl

@[simp] theorem aborted_secure_check (w : World) (b : Bool) :
    (Communicator.set_https_secure_check b w).aborted = w.aborted := by
  unfold Communicator.set_https_secure_check
  split
  · rfl
  · split <;> rfl

end basics

section projections

@[simp] theorem comm_send_request_sent (E : Env) (w : World) (send_url method : String)
    (headers : Headers) (post_body : Body) (h : Handler) :
    (Communicator.send_request E w send_url method headers post_body h).sent =
      w.sent ++ [({ send_url := send_url, method := method, headers := headers,
                    post_body := post_body }, h)] := by
  unfold Communicator.send_request
  split <;> simp [World.issue]

@[simp] theorem comm_send_request_pending (E : Env) (w : World) (send_url method : String)
    (headers : Headers) (post_body : Body) (h : Handler) :
    (Communicator.send_request E w send_url method headers post_body h).pending =
      w.pending ++ [({ send_url := send_url, method := method, headers := headers,
                       post_body := post_body }, h)] := by
  unfold Communicator.send_request
  split <;> simp [World.issue]

@[simp] theorem comm_send_request_node (E : Env) (w : World) (send_url method : String)
    (headers : Headers) (post_body : Body) (h : Handler) :
    (Communicator.send_request E w send_url method headers post_body h).node = w.node := by
  unfold Communicator.send_request
  split <;> simp [World.issue]

@[simp] theorem comm_send_request_aborted (E : Env) (w : World) (send_url method : String)
    (headers : Headers) (post_body : Body) (h : Handler) :
    (Communicator.send_request E w send_url method headers post_body h).aborted = w.aborted := by
  unfold Communicator.send_request
  split <;> simp [World.issue]

@[simp] theorem disp_send_request_sent (E : Env) (w : World) (send_url method : String)
    (headers : Headers) (post_body : Body) (h : Handler) :
    (Dispatcher.send_request E w send_url method headers post_body h).sent =
      w.sent ++ [({ send_url := send_url, method := method, headers := headers,
                    post_body := post_body }, h)] := by
  unfold Dispatcher.send_request
  split
  · split <;> simp [World.issue]
  · simp [World.issue]

@[simp] theorem disp_send_request_pending (E : Env) (w : World) (send_url method : String)
    (headers : Headers) (post_body : Body) (h : Handler) :
    (Dispatcher.send_request E w send_url method headers post_body h).pending =
      w.pending ++ [({ send_url := send_url, method := method, headers := headers,
                       post_body := post_body }, h)] := by
  unfold Dispatcher.send_request
  split
  · split <;> simp [World.issue]
  · simp [World.issue]

@[simp] theorem disp_send_request_node (E : Env) (w : World) (send_url method : String)
    (headers : Headers) (post_body : Body) (h : Handler) :
    (Dispatcher.send_request E w send_url method headers post_body h).node = w.node := by
  unfold Dispatcher.send_request
  split
  · split <;> simp [World.issue]
  · simp [World.issue]

@[simp] theorem disp_send_request_aborted (E : Env) (w : World) (send_url method : String)
    (headers : Headers) (post_body : Body) (h : Handler) :
    (Dispatcher.send_request E w send_url method headers post_body h).aborted = w.aborted := by
  unfold Dispatcher.send_request
  split
  · split <;> simp [World.issue]
  · simp [World.issue]

@[simp] theorem sent_restore_https_check (E : Env) (w : World) (u : String) :
    (Communicator.restore_https_check E w u).sent = w.sent := by
  unfold Communicator.restore_https_check
  split <;> simp

@[simp] theorem pending_restore_https_check (E : Env) (w : World) (u : String) :
    (Communicator.restore_https_check E w u).pending = w.pending := by
  unfold Communicator.restore_https_check
  split <;> simp

@[simp] theorem node_restore_https_check (E : Env) (w : World) (u : String) :
    (Communicator.restore_https_check E w u).node = w.node := by
  unfold Communicator.restore_https_check
  split <;> simp

@[simp] theorem effects_restore_https_check (E : Env) (w : World) (u : String) :
    (Communicator.restore_https_check E w u).effects = w.effects := by
  unfold Communicator.restore_https_check
  split <;> simp

@[simp] theorem aborted_restore_https_check (E : Env) (w : World) (u : String) :
    (Communicator.restore_https_check E w u).aborted = w.aborted := by
  unfold Communicator.restore_https_check
  split <;> simp

end projections

theorem potential_mk (cls : Request × Handler → Bool) (bud : Handler → Nat)
    (n : DispatchNode) (t : Option String)
    (s p : List (Request × Handler)) (e : List Effect) (a : Bool) :
    potential cls bud { node := n, tls := t, sent := s, pending := p, effects := e,
                        aborted := a } =
      s.countP cls + (p.map (fun q => bud q.2)).sum := rfl

theorem step_get_flows (m : Module) (E : Env) (w : World) (r : Request) (h : Handler)
    (o : NetResult) :
    potential cls_get_flows bud_get_flows (finish m E w r h o) ≤
      potential cls_get_flows bud_get_flows w + bud_get_flows h := by
  obtain ⟨n, t, s, p, e, a⟩ := w
  cases m <;> cases o <;> cases h <;>
    simp only [finish, Communicator.finish, Dispatcher.finish, Communicator.on_end,
      Dispatcher.on_end, Communicator.on_err, Dispatcher.on_err,
      Communicator.on_dispatch_get_end, Dispatcher.on_dispatch_get_end,
      Communicator.on_dispatch_get_error, Dispatcher.on_dispatch_get_error,
      Communicator.on_dispatch_set_end, Dispatcher.on_dispatch_set_end,
      Communicator.on_dispatch_set_error, Dispatcher.on_dispatch_set_error,
      Communicator.on_dispatch_auto_set, Dispatcher.on_dispatch_auto_set,
      Communicator.on_token_available, Dispatcher.on_token_available,
      Communicator.request_invoke_token, Dispatcher.request_invoke_token,
      Communicator.request_revoke_token, Dispatcher.request_revoke_token,
      Dispatcher.request_get_flow, Dispatcher.request_set_flow, Dispatcher.revoke_if_token,
      Communicator.show_error_msg, Communicator.show_succ_dispatch_msg,
      Dispatcher.get_error_msg, Dispatcher.get_succ_dispatch_msg] <;>
    (repeat' split) <;>
    simp [potential, List.countP_append, List.countP_cons, cls_get_flows, bud_get_flows, Request.is_get_flows, METHOD_GET, METHOD_POST, endsWith_append] <;>
    omega

theorem step_post_flows (m : Module) (E : Env) (w : World) (r : Request) (h : Handler)
    (o : NetResult) :
    potential cls_post_flows bud_post_flows (finish m E w r h o) ≤
      potential cls_post_flows bud_post_flows w + bud_post_flows h := by
  obtain ⟨n, t, s, p, e, a⟩ := w
  cases m <;> cases o <;> cases h <;>
    simp only [finish, Communicator.finish, Dispatcher.finish, Communicator.on_end,
      Dispatcher.on_end, Communicator.on_err, Dispatcher.on_err,
      Communicator.on_dispatch_get_end, Dispatcher.on_dispatch_get_end,
      Communicator.on_dispatch_get_error, Dispatcher.on_dispatch_get_error,
      Communicator.on_dispatch_set_end, Dispatcher.on_dispatch_set_end,
      Communicator.on_dispatch_set_error, Dispatcher.on_dispatch_set_error,
      Communicator.on_dispatch_auto_set, Dispatcher.on_dispatch_auto_set,
      Communicator.on_token_available, Dispatcher.on_token_available,
      Communicator.request_invoke_token, Dispatcher.request_invoke_token,
      Communicator.request_revoke_token, Dispatcher.request_revoke_token,
      Dispatcher.request_get_flow, Dispatcher.request_set_flow, Dispatcher.revoke_if_token,
      Communicator.show_error_msg, Communicator.show_succ_dispatch_msg,
      Dispatcher.get_error_msg, Dispatcher.get_succ_dispatch_msg] <;>
    (repeat' split) <;>
    simp [potential, List.countP_append, List.countP_cons, cls_post_flows, bud_post_flows, Request.is_post_flows, METHOD_GET, METHOD_POST, endsWith_append,
      endsWith_flows_token, endsWith_flows_revoke] <;>
    (try split) <;>
    omega

theorem step_fetch_fallback (m : Module) (E : Env) (w : World) (r : Request) (h : Handler)
    (o : NetResult) :
    potential cls_fetch_fallback bud_fetch_fallback (finish m E w r h o) ≤
      potential cls_fetch_fallback bud_fetch_fallback w + bud_fetch_fallback h := by
  obtain ⟨n, t, s, p, e, a⟩ := w
  cases m <;> cases o <;> cases h <;>
    simp only [finish, Communicator.finish, Dispatcher.finish, Communicator.on_end,
      Dispatcher.on_end, Communicator.on_err, Dispatcher.on_err,
      Communicator.on_dispatch_get_end, Dispatcher.on_dispatch_get_end,
      Communicator.on_dispatch_get_error, Dispatcher.on_dispatch_get_error,
      Communicator.on_dispatch_set_end, Dispatcher.on_dispatch_set_end,
      Communicator.on_dispatch_set_error, Dispatcher.on_dispatch_set_error,
      Communicator.on_dispatch_auto_set, Dispatcher.on_dispatch_auto_set,
      Communicator.on_token_available, Dispatcher.on_token_available,
      Communicator.request_invoke_token, Dispatcher.request_invoke_token,
      Communicator.request_revoke_token, Dispatcher.request_revoke_token,
      Dispatcher.request_get_flow, Dispatcher.request_set_flow, Dispatcher.revoke_if_token,
      Communicator.show_error_msg, Communicator.show_succ_dispatch_msg,
      Dispatcher.get_error_msg, Dispatcher.get_succ_dispatch_msg] <;>
    (repeat' split) <;>
    simp [potential, List.countP_append, List.countP_cons, cls_fetch_fallback, bud_fetch_fallback, potential_mk] <;>
    omega

theorem step_fetch_token (m : Module) (E : Env) (w : World) (r : Request) (h : Handler)
    (o : NetResult) :
    potential cls_fetch_token bud_fetch_token (finish m E w r h o) ≤
      potential cls_fetch_token bud_fetch_token w + bud_fetch_token h := by
  obtain ⟨n, t, s, p, e, a⟩ := w
  cases m <;> cases o <;> cases h <;>
    simp only [finish, Communicator.finish, Dispatcher.finish, Communicator.on_end,
      Dispatcher.on_end, Communicator.on_err, Dispatcher.on_err,
      Communicator.on_dispatch_get_end, Dispatcher.on_dispatch_get_end,
      Communicator.on_dispatch_get_error, Dispatcher.on_dispatch_get_error,
      Communicator.on_dispatch_set_end, Dispatcher.on_dispatch_set_end,
      Communicator.on_dispatch_set_error, Dispatcher.on_dispatch_set_error,
      Communicator.on_dispatch_auto_set, Dispatcher.on_dispatch_auto_set,
      Communicator.on_token_available, Dispatcher.on_token_available,
      Communicator.request_invoke_token, Dispatcher.request_invoke_token,
      Communicator.request_revoke_token, Dispatcher.request_revoke_token,
      Dispatcher.request_get_flow, Dispatcher.request_set_flow, Dispatcher.revoke_if_token,
      Communicator.show_error_msg, Communicator.show_succ_dispatch_msg,
      Dispatcher.get_error_msg, Dispatcher.get_succ_dispatch_msg] <;>
    (repeat' split) <;>
    simp [potential, List.countP_append, List.countP_cons, cls_fetch_token, bud_fetch_token, potential_mk] <;>
    omega

theorem step_fetch_retry (m : Module) (E : Env) (w : World) (r : Request) (h : Handler)
    (o : NetResult) :
    potential cls_fetch_retry bud_fetch_retry (finish m E w r h o) ≤
      potential cls_fetch_retry bud_fetch_retry w + bud_fetch_retry h := by
  obtain ⟨n, t, s, p, e, a⟩ := w
  cases m <;> cases o <;> cases h <;>
    simp only [finish, Communicator.finish, Dispatcher.finish, Communicator.on_end,
      Dispatcher.on_end, Communicator.on_err, Dispatcher.on_err,
      Communicator.on_dispatch_get_end, Dispatcher.on_dispatch_get_end,
      Communicator.on_dispatch_get_error, Dispatcher.on_dispatch_get_error,
      Communicator.on_dispatch_set_end, Dispatcher.on_dispatch_set_end,
      Communicator.on_dispatch_set_error, Dispatcher.on_dispatch_set_error,
      Communicator.on_dispatch_auto_set, Dispatcher.on_dispatch_auto_set,
      Communicator.on_token_available, Dispatcher.on_token_available,
      Communicator.request_invoke_token, Dispatcher.request_invoke_token,
      Communicator.request_revoke_token, Dispatcher.request_revoke_token,
      Dispatcher.request_get_flow, Dispatcher.request_set_flow, Dispatcher.revoke_if_token,
      Communicator.show_error_msg, Communicator.show_succ_dispatch_msg,
      Dispatcher.get_error_msg, Dispatcher.get_succ_dispatch_msg] <;>
    (repeat' split) <;>
    simp [potential, List.countP_append, List.countP_cons, cls_fetch_retry, bud_fetch_retry, potential_mk] <;>
    omega

theorem step_push_fallback (m : Module) (E : Env) (w : World) (r : Request) (h : Handler)
    (o : NetResult) :
    potential cls_push_fallback bud_push_fallback (finish m E w r h o) ≤
      potential cls_push_fallback bud_push_fallback w + bud_push_fallback h := by
  obtain ⟨n, t, s, p, e, a⟩ := w
  cases m <;> cases o <;> cases h <;>
    simp only [finish, Communicator.finish, Dispatcher.finish, Communicator.on_end,
      Dispatcher.on_end, Communicator.on_err, Dispatcher.on_err,
      Communicator.on_dispatch_get_end, Dispatcher.on_dispatch_get_end,
      Communicator.on_dispatch_get_error, Dispatcher.on_dispatch_get_error,
      Communicator.on_dispatch_set_end, Dispatcher.on_dispatch_set_end,
      Communicator.on_dispatch_set_error, Dispatcher.on_dispatch_set_error,
      Communicator.on_dispatch_auto_set, Dispatcher.on_dispatch_auto_set,
      Communicator.on_token_available, Dispatcher.on_token_available,
      Communicator.request_invoke_token, Dispatcher.request_invoke_token,
      Communicator.request_revoke_token, Dispatcher.request_revoke_token,
      Dispatcher.request_get_flow, Dispatcher.request_set_flow, Dispatcher.revoke_if_token,
      Communicator.show_error_msg, Communicator.show_succ_dispatch_msg,
      Dispatcher.get_error_msg, Dispatcher.get_succ_dispatch_msg] <;>
    (repeat' split) <;>
    simp [potential, List.countP_append, List.countP_cons, cls_push_fallback, bud_push_fallback, potential_mk] <;>
    omega

theorem step_push_token (m : Module) (E : Env) (w : World) (r : Request) (h : Handler)
    (o : NetResult) :
    potential cls_push_token bud_push_token (finish m E w r h o) ≤
      potential cls_push_token bud_push_token w + bud_push_token h := by
  obtain ⟨n, t, s, p, e, a⟩ := w
  cases m <;> cases o <;> cases h <;>
    simp only [finish, Communicator.finish, Dispatcher.finish, Communicator.on_end,
      Dispatcher.on_end, Communicator.on_err, Dispatcher.on_err,
      Communicator.on_dispatch_get_end, Dispatcher.on_dispatch_get_end,
      Communicator.on_dispatch_get_error, Dispatcher.on_dispatch_get_error,
      Communicator.on_dispatch_set_end, Dispatcher.on_dispatch_set_end,
      Communicator.on_dispatch_set_error, Dispatcher.on_dispatch_set_error,
      Communicator.on_dispatch_auto_set, Dispatcher.on_dispatch_auto_set,
      Communicator.on_token_available, Dispatcher.on_token_available,
      Communicator.request_invoke_token, Dispatcher.request_invoke_token,
      Communicator.request_revoke_token, Dispatcher.request_revoke_token,
      Dispatcher.request_get_flow, Dispatcher.request_set_flow, Dispatcher.revoke_if_token,
      Communicator.show_error_msg, Communicator.show_succ_dispatch_msg,
      Dispatcher.get_error_msg, Dispatcher.get_succ_dispatch_msg] <;>
    (repeat' split) <;>
    simp [potential, List.countP_append, List.countP_cons, cls_push_token, bud_push_token, potential_mk] <;>
    omega

theorem step_push_retry (m : Module) (E : Env) (w : World) (r : Request) (h : Handler)
    (o : NetResult) :
    potential cls_push_retry bud_push_retry (finish m E w r h o) ≤
      potential cls_push_retry bud_push_retry w + bud_push_retry h := by
  obtain ⟨n, t, s, p, e, a⟩ := w
  cases m <;> cases o <;> cases h <;>
    simp only [finish, Communicator.finish, Dispatcher.finish, Communicator.on_end,
      Dispatcher.on_end, Communicator.on_err, Dispatcher.on_err,
      Communicator.on_dispatch_get_end, Dispatcher.on_dispatch_get_end,
      Communicator.on_dispatch_get_error, Dispatcher.on_dispatch_get_error,
      Communicator.on_dispatch_set_end, Dispatcher.on_dispatch_set_end,
      Communicator.on_dispatch_set_error, Dispatcher.on_dispatch_set_error,
      Communicator.on_dispatch_auto_set, Dispatcher.on_dispatch_auto_set,
      Communicator.on_token_available, Dispatcher.on_token_available,
      Communicator.request_invoke_token, Dispatcher.request_invoke_token,
      Communicator.request_revoke_token, Dispatcher.request_revoke_token,
      Dispatcher.request_get_flow, Dispatcher.request_set_flow, Dispatcher.revoke_if_token,
      Communicator.show_error_msg, Communicator.show_succ_dispatch_msg,
      Dispatcher.get_error_msg, Dispatcher.get_succ_dispatch_msg] <;>
    (repeat' split) <;>
    simp [potential, List.countP_append, List.countP_cons, cls_push_retry, bud_push_retry, potential_mk] <;>
    omega

/-! ## The dispatch protocol: bounds along every run -/

theorem sum_map_eraseIdx (f : Request × Handler → Nat) :
    ∀ (l : List (Request × Handler)) (i : Nat) (x : Request × Handler), l[i]? = some x →
      ((l.eraseIdx i).map f).sum + f x = (l.map f).sum := by
  intro l
  induction l with
  | nil => intro i x h; simp at h
  | cons a tl ih =>
    intro i x h
    cases i with
    | zero =>
      simp only [List.getElem?_cons_zero, Option.some.injEq] at h
      subst h
      simp only [List.eraseIdx_cons_zero, List.map_cons, List.sum_cons]
      omega
    | succ j =>
      simp only [List.getElem?_cons_succ] at h
      have := ih j x h
      simp only [List.eraseIdx_cons_succ, List.map_cons, List.sum_cons]
      omega

section invariance
variable (cls : Request × Handler → Bool) (bud : Handler → Nat)

theorem potential_complete (m : Module) (E : Env)
    (hstep : ∀ (w : World) (r : Request) (h : Handler) (o : NetResult),
      potential cls bud (finish m E w r h o) ≤ potential cls bud w + bud h)
    (w : World) (i : Nat) (o : NetResult) :
    potential cls bud (complete m E w i o) ≤ potential cls bud w := by
  unfold complete
  split
  · exact Nat.le_refl _
  · split
    · exact Nat.le_refl _
    · rename_i r h hget
      refine Nat.le_trans (hstep _ r h o) ?_
      have := sum_map_eraseIdx (fun p => bud p.2) w.pending i (r, h) hget
      simp only [potential] at this ⊢
      omega

theorem potential_run (m : Module) (E : Env)
    (hstep : ∀ (w : World) (r : Request) (h : Handler) (o : NetResult),
      potential cls bud (finish m E w r h o) ≤ potential cls bud w + bud h) :
    ∀ (sched : List (Nat × NetResult)) (w : World),
      potential cls bud (run m E sched w) ≤ potential cls bud w := by
  intro sched
  induction sched with
  | nil => intro w; exact Nat.le_refl _
  | cons a rest ih =>
    intro w
    obtain ⟨i, o⟩ := a
    exact Nat.le_trans (ih _) (potential_complete cls bud m E hstep w i o)

theorem count_le_potential (w : World) : w.sent.countP cls ≤ potential cls bud w := by
  unfold potential
  omega

/-- Along a dispatch started by `on_dispatch_auto_get` the requests of a class never
exceed the first request plus the budget of its handler. -/
theorem dispatch_count_le (m : Module) (E : Env)
    (hstep : ∀ (w : World) (r : Request) (h : Handler) (o : NetResult),
      potential cls bud (finish m E w r h o) ≤ potential cls bud w + bud h)
    (node : DispatchNode) (tls : Option String) (sched : List (Nat × NetResult)) :
    (run m E sched (on_dispatch_auto_get m E (World.init node tls))).sent.countP cls ≤
      potential cls bud (on_dispatch_auto_get m E (World.init node tls)) :=
  Nat.le_trans (count_le_potential cls bud _) (potential_run cls bud m E hstep sched _)

end invariance

/-! ## The dispatch protocol: tokens -/

theorem header_token_bearer (tok : String) (ct : Option String) :
    header_token { Authorization := VALUE_AUTH ++ " " ++ tok, Content_type := ct } = tok := by
  unfold header_token
  have h : VALUE_AUTH.length + 1 = (VALUE_AUTH ++ " ").length := by decide
  rw [h]
  exact substr_append _ _

theorem js_trim_empty : js_trim "" = "" := by decide

theorem cred_username_eq (user : Option String) :
    cred_username user = (user.map js_trim).getD "" := by
  cases user with
  | none => rfl
  | some u =>
    by_cases hu : u = ""
    · subst hu
      decide
    · simp [cred_username, hu]

theorem cred_password_eq (password : Option String) :
    cred_password password = password.getD "" := by
  cases password with
  | none => rfl
  | some p =>
    by_cases hp : p = ""
    · subst hp
      decide
    · simp [cred_password, hp]

/-- In the dispatch chains of both modules the completion of a token-bearing `/flows`
request, by a response of any status or by a transport error, issues exactly one revoke
request, and it carries the token of that request. -/
theorem dispatch_revokes_once (m : Module) (E : Env) (w : World) (r : Request)
    (send_url : String) (hdrs : Headers) (o : NetResult) :
    (finish m E w r (.get_with_token hdrs) o).sent.countP
        (fun p => p.1.is_revoke (header_token hdrs)) =
      w.sent.countP (fun p => p.1.is_revoke (header_token hdrs)) + 1 ∧
    (finish m E w r (.set_with_token send_url hdrs) o).sent.countP
        (fun p => p.1.is_revoke (header_token hdrs)) =
      w.sent.countP (fun p => p.1.is_revoke (header_token hdrs)) + 1 := by
  constructor <;> cases m <;> cases o <;>
    simp only [finish, Communicator.finish, Dispatcher.finish, Communicator.on_end,
      Dispatcher.on_end, Communicator.on_err, Dispatcher.on_err,
      Communicator.on_dispatch_auto_set, Dispatcher.on_dispatch_auto_set,
      Communicator.request_revoke_token, Dispatcher.request_revoke_token,
      Communicator.show_error_msg, Communicator.show_succ_dispatch_msg,
      Dispatcher.get_error_msg, Dispatcher.get_succ_dispatch_msg] <;>
    (repeat' split) <;>
    simp [List.countP_append, List.countP_cons, Request.is_revoke, METHOD_POST,
      endsWith_append]

/-- C11 does not hold of the flow-reader and flow-writer requests: `request_get_flow` and
`request_set_flow` pass no error handler to `send_request`.  With authentication enabled
the token request is answered 200 with `access_token` `tok1`, the `/flows` request bearing
`tok1` then fails with the transport error `ECONNRESET`: the session has issued the token
request and the `/flows` request, nothing is in flight any more, and no revoke request was
issued.  In the dispatch chain of the same module the same failure of the token-bearing
`GET /flows` is followed by the revoke request for `tok1`. -/
theorem C11_flow_reader_error_leaves_token :
    (run .dispatcher exEnv
        [(0, .response 200 "OK" exTokenPayload), (0, .error "ECONNRESET")]
        (Dispatcher.flow_reader_input exEnv exWorld)).sent.map
        (fun p => (p.1.method, p.1.send_url, p.1.headers.Authorization)) =
      [("post", "http://10.0.0.2:1880/auth/token", "Bearer"),
       ("get", "http://10.0.0.2:1880/flows", "Bearer tok1")] ∧
    (run .dispatcher exEnv
        [(0, .response 200 "OK" exTokenPayload), (0, .error "ECONNRESET")]
        (Dispatcher.flow_reader_input exEnv exWorld)).pending = [] ∧
    (run .dispatcher exEnv
        [(0, .response 200 "OK" exTokenPayload), (0, .error "ECONNRESET")]
        (Dispatcher.flow_writer_input exEnv exWorld "[]")).sent.map
        (fun p => (p.1.method, p.1.send_url, p.1.headers.Authorization)) =
      [("post", "http://10.0.0.2:1880/auth/token", "Bearer"),
       ("post", "http://10.0.0.2:1880/flows", "Bearer tok1")] ∧
    (run .dispatcher exEnv
        [(0, .response 200 "OK" exTokenPayload), (0, .error "ECONNRESET")]
        (Dispatcher.flow_writer_input exEnv exWorld "[]")).pending = [] ∧
    (run .dispatcher exEnv
        [(0, .response 401 "Unauthorized" ""), (0, .response 200 "OK" exTokenPayload),
         (0, .error "ECONNRESET")]
        (on_dispatch_auto_get .dispatcher exEnv exWorld)).sent.map
        (fun p => (p.1.method, p.1.send_url, p.1.headers.Authorization)) =
      [("get", "http://localhost:1880/flows", "Bearer"),
       ("post", "http://localhost:1880/auth/token", "Bearer"),
       ("get", "http://localhost:1880/flows", "Bearer tok1"),
       ("post", "http://localhost:1880/auth/revoke", "Bearer tok1")] := by
  refine ⟨by decide, by decide, by decide, by decide, by decide⟩

/-- C12 as stated fails: a token response with status 200 whose body is the JSON text of
the empty object yields no `access_token`, and both modules invoke the callback all the
same, with the header `Authorization: Bearer undefined`; here the callback of the fetch
phase issues its `GET /flows` with that header. -/
theorem C12_missing_access_token_invokes_callback :
    exParseToken "\x7b\x7d" = .undefined ∧
    (Communicator.on_end exEnv exWorld (.invoke_token "http://10.0.0.2:1880/auth/token"
        .dispatch_get) { statusCode := 200, statusMessage := "OK", payload := "\x7b\x7d" }).sent =
      [({ send_url := "http://10.0.0.2:1880/flows", method := "get",
          headers := { Authorization := "Bearer undefined",
                       Content_type := some "application/json" },
          post_body := .null },
        .get_with_token { Authorization := "Bearer undefined",
                          Content_type := some "application/json" })] ∧
    (Dispatcher.on_end exEnv exWorld (.invoke_token "http://10.0.0.2:1880/auth/token"
        .dispatch_get) { statusCode := 200, statusMessage := "OK", payload := "\x7b\x7d" }).sent =
      [({ send_url := "http://10.0.0.2:1880/flows", method := "get",
          headers := { Authorization := "Bearer undefined",
                       Content_type := some "application/json" },
          post_body := .null },
        .get_with_token { Authorization := "Bearer undefined",
                          Content_type := some "application/json" })] := by
  refine ⟨by decide, by decide, by decide⟩

/-- C12, amended: in both modules the end handler of the token request invokes the
callback `on_token_available`, with the header `Authorization` equal to `"Bearer "`
followed by the string form of `JSON.parse(payload).access_token`, if the status is 200
and evaluating that expression does not throw; otherwise the callback is not invoked and
the handler only sets an error status, so it issues no request, in particular no revoke
request. -/
theorem C12_token_callback (E : Env) (w : World) (send_url : String) (k : TokenCallback)
    (resp : Resp) :
    (resp.statusCode = 200 ∧ E.parse_access_token resp.payload ≠ .throws →
      Communicator.on_end E w (.invoke_token send_url k) resp =
        Communicator.on_token_available E w k
          { Authorization := "Bearer " ++ (E.parse_access_token resp.payload).str,
            Content_type := some "application/json" } ∧
      Dispatcher.on_end E w (.invoke_token send_url k) resp =
        Dispatcher.on_token_available E w k
          { Authorization := "Bearer " ++ (E.parse_access_token resp.payload).str,
            Content_type := some "application/json" }) ∧
    (¬ (resp.statusCode = 200 ∧ E.parse_access_token resp.payload ≠ .throws) →
      (∃ text, Communicator.on_end E w (.invoke_token send_url k) resp =
        w.emit [.status_red text]) ∧
      (∃ text, Dispatcher.on_end E w (.invoke_token send_url k) resp =
        w.emit [.status_red text])) := by
  constructor
  · rintro ⟨h200, hp⟩
    have hstr : VALUE_AUTH ++ " " = "Bearer " := by decide
    constructor
    · simp only [Communicator.on_end, RESP_OK, h200, if_true]
      rw [hstr]
      rfl
    · simp only [Dispatcher.on_end, RESP_OK, h200, if_true]
      rw [hstr]
      rfl
  · intro hn
    by_cases h200 : resp.statusCode = 200
    · have hp : E.parse_access_token resp.payload = .throws := by
        by_contra hc
        exact hn ⟨h200, hc⟩
      constructor
      · exact ⟨_, by simp only [Communicator.on_end, RESP_OK, h200, if_true, hp,
          Communicator.show_error_msg]; rfl⟩
      · exact ⟨_, by simp only [Dispatcher.on_end, RESP_OK, h200, if_true, hp,
          Dispatcher.get_error_msg]; rfl⟩
    · constructor
      · exact ⟨_, by simp only [Communicator.on_end, RESP_OK, h200, if_false,
          Communicator.show_error_msg]; rfl⟩
      · exact ⟨_, by simp only [Dispatcher.on_end, RESP_OK, h200, if_false,
          Dispatcher.get_error_msg]; rfl⟩

/-- The token response 200 granting `tok1` invokes the callback with `Bearer tok1`; the
token response 401 sets an error status and issues nothing. -/
theorem C12_token_callback_witness :
    (Communicator.on_end exEnv exWorld (.invoke_token "http://10.0.0.2:1880/auth/token"
        .dispatch_get)
        { statusCode := 200, statusMessage := "OK", payload := exTokenPayload } =
      Communicator.on_token_available exEnv exWorld .dispatch_get
        { Authorization := "Bearer " ++ (exEnv.parse_access_token exTokenPayload).str,
          Content_type := some "application/json" }) ∧
    (exEnv.parse_access_token exTokenPayload).str = "tok1" ∧
    (∃ text, Dispatcher.on_end exEnv exWorld
        (.invoke_token "http://10.0.0.2:1880/auth/token" .dispatch_get)
        { statusCode := 401, statusMessage := "Unauthorized", payload := "" } =
      exWorld.emit [.status_red text]) :=
  ⟨((C12_token_callback exEnv exWorld "http://10.0.0.2:1880/auth/token" .dispatch_get
      { statusCode := 200, statusMessage := "OK", payload := exTokenPayload }).1
      ⟨rfl, by decide⟩).1,
    by decide,
    ((C12_token_callback exEnv exWorld "http://10.0.0.2:1880/auth/token" .dispatch_get
      { statusCode := 401, statusMessage := "Unauthorized", payload := "" }).2
      (by decide)).2⟩

/-! ## The dispatch protocol: bounds on the requests of a dispatch -/

theorem potential_auto_get (cls : Request × Handler → Bool) (bud : Handler → Nat)
    (m : Module) (E : Env) (node : DispatchNode) (tls : Option String) :
    potential cls bud (on_dispatch_auto_get m E (World.init node tls)) ≤ 1 + bud .auto_get := by
  cases m
  · simp only [on_dispatch_auto_get, Communicator.on_dispatch_auto_get, potential,
      comm_send_request_sent, comm_send_request_pending, World.init]
    simp [List.countP_cons]
    split <;> omega
  · simp only [on_dispatch_auto_get, Dispatcher.on_dispatch_auto_get, potential,
      disp_send_request_sent, disp_send_request_pending, World.init]
    simp [List.countP_cons]
    split <;> omega

theorem potential_auto_get_tag (cls : Request × Handler → Bool) (bud : Handler → Nat)
    (hcls : ∀ r, cls (r, .auto_get) = false)
    (m : Module) (E : Env) (node : DispatchNode) (tls : Option String) :
    potential cls bud (on_dispatch_auto_get m E (World.init node tls)) = bud .auto_get := by
  cases m
  · simp only [on_dispatch_auto_get, Communicator.on_dispatch_auto_get, potential,
      comm_send_request_sent, comm_send_request_pending, World.init]
    simp [List.countP_cons, hcls]
  · simp only [on_dispatch_auto_get, Dispatcher.on_dispatch_auto_get, potential,
      disp_send_request_sent, disp_send_request_pending, World.init]
    simp [List.countP_cons, hcls]

theorem potential_auto_get_post (m : Module) (E : Env) (node : DispatchNode)
    (tls : Option String) :
    potential cls_post_flows bud_post_flows
      (on_dispatch_auto_get m E (World.init node tls)) ≤ 3 := by
  cases m
  · simp only [on_dispatch_auto_get, Communicator.on_dispatch_auto_get, potential,
      comm_send_request_sent, comm_send_request_pending, World.init]
    simp [List.countP_cons, cls_post_flows, Request.is_post_flows, METHOD_GET, METHOD_POST,
      bud_post_flows]
  · simp only [on_dispatch_auto_get, Dispatcher.on_dispatch_auto_get, potential,
      disp_send_request_sent, disp_send_request_pending, World.init]
    simp [List.countP_cons, cls_post_flows, Request.is_post_flows, METHOD_GET, METHOD_POST,
      bud_post_flows]

/-- The bounds of C13 are reached: a Communicator dispatch in which each plain request is
reset, each fallback request is refused for lack of authorisation and each token request
is granted issues three `GET /flows` and three `POST /flows` requests. -/
theorem dispatch_bounds_reached :
    (run .communicator exEnv
        [(0, .error "ECONNRESET"), (0, .response 401 "Unauthorized" ""),
         (0, .response 200 "OK" exTokenPayload), (0, .response 200 "OK" "inOutFlows"),
         (1, .error "ECONNRESET"), (1, .response 400 "Bad Request" ""),
         (1, .response 200 "OK" exTokenPayload), (1, .response 204 "No Content" "")]
        (on_dispatch_auto_get .communicator exEnv exWorld)).sent.map
        (fun p => (p.1.method, p.1.send_url, p.1.headers.Authorization)) =
      [("get", "http://127.0.0.1:1880/flows", "Bearer"),
       ("get", "https://127.0.0.1:1880/flows", "Bearer"),
       ("post", "https://127.0.0.1:1880/auth/token", "Bearer"),
       ("get", "https://127.0.0.1:1880/flows", "Bearer tok1"),
       ("post", "https://127.0.0.1:1880/auth/revoke", "Bearer tok1"),
       ("post", "http://10.0.0.2:1880/flows", "Bearer"),
       ("post", "https://10.0.0.2:1880/flows", "Bearer"),
       ("post", "https://10.0.0.2:1880/auth/token", "Bearer"),
       ("post", "https://10.0.0.2:1880/flows", "Bearer tok1"),
       ("post", "https://10.0.0.2:1880/auth/revoke", "Bearer tok1")] := by
  decide

/-- C13: in every dispatch started by `on_dispatch_auto_get`, in both modules, for every
node, every environment and every sequence of responses and transport errors delivered to
the requests in flight, the requests issued hold at most three `GET /flows` and at most
three `POST /flows`, and in each phase (fetch, push) at most one encrypted-protocol
fallback request, at most one token request and at most one token-authenticated retry. -/
theorem C13_dispatch_request_bounds (m : Module) (E : Env) (node : DispatchNode)
    (tls : Option String) (sched : List (Nat × NetResult)) :
    (run m E sched (on_dispatch_auto_get m E (World.init node tls))).sent.countP
        cls_get_flows ≤ 3 ∧
    (run m E sched (on_dispatch_auto_get m E (World.init node tls))).sent.countP
        cls_post_flows ≤ 3 ∧
    (run m E sched (on_dispatch_auto_get m E (World.init node tls))).sent.countP
        cls_fetch_fallback ≤ 1 ∧
    (run m E sched (on_dispatch_auto_get m E (World.init node tls))).sent.countP
        cls_fetch_token ≤ 1 ∧
    (run m E sched (on_dispatch_auto_get m E (World.init node tls))).sent.countP
        cls_fetch_retry ≤ 1 ∧
    (run m E sched (on_dispatch_auto_get m E (World.init node tls))).sent.countP
        cls_push_fallback ≤ 1 ∧
    (run m E sched (on_dispatch_auto_get m E (World.init node tls))).sent.countP
        cls_push_token ≤ 1 ∧
    (run m E sched (on_dispatch_auto_get m E (World.init node tls))).sent.countP
        cls_push_retry ≤ 1 := by
  refine ⟨?_, ?_, ?_, ?_, ?_, ?_, ?_, ?_⟩
  · exact Nat.le_trans (dispatch_count_le _ _ m E (step_get_flows m E) node tls sched)
      (potential_auto_get _ _ m E node tls)
  · exact Nat.le_trans (dispatch_count_le _ _ m E (step_post_flows m E) node tls sched)
      (potential_auto_get_post m E node tls)
  · exact Nat.le_trans (dispatch_count_le _ _ m E (step_fetch_fallback m E) node tls sched)
      (Nat.le_of_eq (potential_auto_get_tag _ _ (fun _ => rfl) m E node tls))
  · exact Nat.le_trans (dispatch_count_le _ _ m E (step_fetch_token m E) node tls sched)
      (Nat.le_of_eq (potential_auto_get_tag _ _ (fun _ => rfl) m E node tls))
  · exact Nat.le_trans (dispatch_count_le _ _ m E (step_fetch_retry m E) node tls sched)
      (Nat.le_of_eq (potential_auto_get_tag _ _ (fun _ => rfl) m E node tls))
  · exact Nat.le_trans (dispatch_count_le _ _ m E (step_push_fallback m E) node tls sched)
      (Nat.le_of_eq (potential_auto_get_tag _ _ (fun _ => rfl) m E node tls))
  · exact Nat.le_trans (dispatch_count_le _ _ m E (step_push_token m E) node tls sched)
      (Nat.le_of_eq (potential_auto_get_tag _ _ (fun _ => rfl) m E node tls))
  · exact Nat.le_trans (dispatch_count_le _ _ m E (step_push_retry m E) node tls sched)
      (Nat.le_of_eq (potential_auto_get_tag _ _ (fun _ => rfl) m E node tls))

/-! ## The dispatch protocol: the push after the prune -/

/-- C14: in `on_dispatch_auto_set`, for every fetched body that parses to an array: in the
Communicator, when `sheet_prune` returns a status other than `PRUNE_OK` no request is
issued and the error status shows the message of the prune result, and when it returns
`PRUNE_OK` exactly one request is issued, a POST to `http://<dest_url>/flows` whose body is
the serialisation of the pruned flow; in the Dispatcher, when `sheet_prune` returns `null`
no request is issued and the error status shows `Sheet Not Found (<sheet>)`, and otherwise
exactly one POST to `http://<dest_url>/flows` is issued whose body is the serialisation of
the pruned array. -/
theorem C14_auto_set_posts_iff_prune_ok (E : Env) (w : World) (resp : Resp) (flows : Flows)
    (hparse : E.parse_flows resp.payload = some flows) :
    (∀ prune, Communicator.sheet_prune E.get_node_id flows w.commNode = .ret prune →
      (prune.status ≠ Communicator.PRUNE_OK →
        (Communicator.on_dispatch_auto_set E w resp).sent = w.sent ∧
        (Communicator.on_dispatch_auto_set E w resp).pending = w.pending ∧
        Effect.status_red prune.msg ∈ (Communicator.on_dispatch_auto_set E w resp).effects) ∧
      (prune.status = Communicator.PRUNE_OK →
        (Communicator.on_dispatch_auto_set E w resp).sent = w.sent ++
          [({ send_url := "http://" ++ w.node.dest_url ++ "/flows", method := "post",
              headers := { Authorization := "Bearer",
                           Content_type := some "application/json" },
              post_body := .flow prune.flow },
            .auto_set ("http://" ++ w.node.dest_url ++ "/flows") (.flow prune.flow)
              { Authorization := "Bearer", Content_type := some "application/json" })])) ∧
    (Dispatcher.sheet_prune flows w.node.sheet = .ret none →
      (Dispatcher.on_dispatch_auto_set E w resp).sent = w.sent ∧
      (Dispatcher.on_dispatch_auto_set E w resp).pending = w.pending ∧
      Effect.status_red ("Sheet Not Found (" ++ w.node.sheet ++ ")") ∈
        (Dispatcher.on_dispatch_auto_set E w resp).effects) ∧
    (∀ pruned, Dispatcher.sheet_prune flows w.node.sheet = .ret (some pruned) →
      (Dispatcher.on_dispatch_auto_set E w resp).sent = w.sent ++
        [({ send_url := "http://" ++ w.node.dest_url ++ "/flows", method := "post",
            headers := { Authorization := "Bearer",
                         Content_type := some "application/json" },
            post_body := .nodes pruned },
          .auto_set ("http://" ++ w.node.dest_url ++ "/flows") (.nodes pruned)
            { Authorization := "Bearer", Content_type := some "application/json" })]) := by
  refine ⟨?_, ?_, ?_⟩
  · intro prune hprune
    constructor
    · intro hne
      simp only [Communicator.on_dispatch_auto_set, hparse, hprune, if_neg hne,
        Communicator.show_error_msg]
      refine ⟨?_, ?_, ?_⟩
      · split <;> rfl
      · split <;> rfl
      · simp [World.emit, status_text, StatusCode.truthy]
    · intro hok
      have hnf : ¬ (prune.status = Communicator.PRUNE_NOT_FOUND_ERR ∨
          prune.status = Communicator.PRUNE_UNKNOWN_ERR) := by
        rw [hok]
        decide
      simp only [Communicator.on_dispatch_auto_set, hparse, hprune, if_pos hok, if_neg hnf,
        comm_send_request_sent]
      rfl
  · intro hnone
    simp only [Dispatcher.on_dispatch_auto_set, hparse, hnone, Dispatcher.get_error_msg]
    refine ⟨rfl, rfl, ?_⟩
    simp [World.emit, status_text, StatusCode.truthy]
  · intro pruned hsome
    simp only [Dispatcher.on_dispatch_auto_set, hparse, hsome, disp_send_request_sent]
    rfl

/-- On the array with two delegate-out nodes the Communicator issues nothing; on the array
with a delegate of each kind the Dispatcher issues its one POST. -/
theorem C14_auto_set_posts_iff_prune_ok_witness :
    exEnv.parse_flows "inOutFlows" = some inOutFlows ∧
    (∃ pruned, Dispatcher.sheet_prune inOutFlows exWorld.node.sheet = .ret (some pruned)) ∧
    (∀ pruned, Dispatcher.sheet_prune inOutFlows exWorld.node.sheet = .ret (some pruned) →
      (Dispatcher.on_dispatch_auto_set exEnv exWorld
          { statusCode := 200, statusMessage := "OK", payload := "inOutFlows" }).sent =
        exWorld.sent ++
          [({ send_url := "http://" ++ exWorld.node.dest_url ++ "/flows", method := "post",
              headers := { Authorization := "Bearer",
                           Content_type := some "application/json" },
              post_body := .nodes pruned },
            .auto_set ("http://" ++ exWorld.node.dest_url ++ "/flows") (.nodes pruned)
              { Authorization := "Bearer", Content_type := some "application/json" })]) :=
  ⟨by decide, ⟨_, rfl⟩,
    (C14_auto_set_posts_iff_prune_ok exEnv exWorld
      { statusCode := 200, statusMessage := "OK", payload := "inOutFlows" } inOutFlows
      (by decide)).2.2⟩

/-! ## The dispatch protocol: the certificate check -/

theorem tls_set_https_secure_check_true (w : World) :
    (Communicator.set_https_secure_check true w).tls = none := by
  unfold Communicator.set_https_secure_check
  cases h : w.tls <;> simp [h]

/-- C15 as stated fails.  In the Communicator a setting that was `"1"` before an https
request is `"0"` during the call and deleted, not put back to `"1"`, once the response has
ended.  In the Dispatcher the setting is `"0"` from the first https request on and is still
`"0"` when the response has ended and nothing is in flight. -/
theorem C15_setting_not_restored :
    (Communicator.request_revoke_token exEnv
        { exWorld with tls := some "1", node := { exDispatchNode with protocol := "https" } }
        "tok1").tls = some "0" ∧
    (complete .communicator exEnv
        (Communicator.request_revoke_token exEnv
          { exWorld with tls := some "1", node := { exDispatchNode with protocol := "https" } }
          "tok1") 0 (.response 200 "OK" "")).tls = none ∧
    (none : Option String) ≠ some "1" ∧
    (Dispatcher.request_revoke_token exEnv
        { exWorld with node := { exDispatchNode with protocol := "https" } } "tok1").tls =
      some "0" ∧
    (complete .dispatcher exEnv
        (Dispatcher.request_revoke_token exEnv
          { exWorld with node := { exDispatchNode with protocol := "https" } } "tok1")
        0 (.response 200 "OK" "")).tls = some "0" ∧
    (complete .dispatcher exEnv
        (Dispatcher.request_revoke_token exEnv
          { exWorld with node := { exDispatchNode with protocol := "https" } } "tok1")
        0 (.response 200 "OK" "")).pending = [] := by
  refine ⟨by decide, by decide, by decide, by decide, by decide, by decide⟩

/-- C15, amended: in the development configuration, for every https request made by the
Communicator `send_request`, the setting `NODE_TLS_REJECT_UNAUTHORIZED` is `"0"` while
the request is in flight and is deleted from the environment, whatever value it had
before the call, by the `end` callback and by the `error` callback before the handlers of
the caller run. -/
theorem C15_communicator_https_check_scoped (E : Env) (w : World) (send_url method : String)
    (headers : Headers) (post_body : Body) (h : Handler) (w1 : World) (code : String)
    (hdev : E.IS_DEVEL = true) (hs : test_https_i send_url = true) :
    (Communicator.send_request E w send_url method headers post_body h).tls = some "0" ∧
    (Communicator.restore_https_check E w1 send_url).tls = none ∧
    (Communicator.restore_https_check E
      (Communicator.show_error_msg w1 "Request Fail" (.code code) (some send_url))
      send_url).tls = none := by
  refine ⟨?_, ?_, ?_⟩
  · simp [Communicator.send_request, hs, hdev, Communicator.set_https_secure_check,
      World.issue]
  · simp only [Communicator.restore_https_check, hs, if_true, hdev]
    exact tls_set_https_secure_check_true _
  · simp only [Communicator.restore_https_check, hs, if_true, hdev]
    exact tls_set_https_secure_check_true _

/-- An https request in upper case, issued while the setting is `"1"`. -/
theorem C15_communicator_https_check_scoped_witness :
    exEnv.IS_DEVEL = true ∧ test_https_i "HTTPS://10.0.0.2:1880/flows" = true ∧
    (Communicator.send_request exEnv { exWorld with tls := some "1" }
      "HTTPS://10.0.0.2:1880/flows" "get" { Authorization := "Bearer", Content_type := none }
      .null .get_error).tls = some "0" ∧
    (Communicator.restore_https_check exEnv exWorld "HTTPS://10.0.0.2:1880/flows").tls = none ∧
    (Communicator.restore_https_check exEnv
      (Communicator.show_error_msg exWorld "Request Fail" (.code "ECONNRESET")
        (some "HTTPS://10.0.0.2:1880/flows"))
      "HTTPS://10.0.0.2:1880/flows").tls = none :=
  ⟨by decide, by decide,
    C15_communicator_https_check_scoped exEnv { exWorld with tls := some "1" }
      "HTTPS://10.0.0.2:1880/flows" "get" { Authorization := "Bearer", Content_type := none }
      .null .get_error exWorld "ECONNRESET" (by decide) (by decide)⟩

/-! ## The dispatch protocol: the token request -/

/-- C16: in both modules the one request issued by `request_invoke_token` is a POST to
`<protocol>://<url>/auth/token` whose body has `client_id` `node-red-admin`, `grant_type`
`password`, `scope` `*`, `username` equal to the stored user with the surrounding
whitespace trimmed and `password` equal to the stored password unchanged; an absent user
or password is sent as the empty string. -/
theorem C16_token_request_body (E : Env) (w : World) (k : TokenCallback) :
    (Communicator.request_invoke_token E w k).sent =
      w.sent ++ [({ send_url := w.node.protocol ++ "://" ++ w.node.url ++ "/auth/token",
                    method := "post",
                    headers := { Authorization := "Bearer",
                                 Content_type := some "application/json" },
                    post_body := .cred "node-red-admin" "password" "*"
                      ((w.node.user.map js_trim).getD "") (w.node.password.getD "") },
                  .invoke_token (w.node.protocol ++ "://" ++ w.node.url ++ "/auth/token") k)] ∧
    (Dispatcher.request_invoke_token E w k).sent =
      w.sent ++ [({ send_url := w.node.protocol ++ "://" ++ w.node.url ++ "/auth/token",
                    method := "post",
                    headers := { Authorization := "Bearer",
                                 Content_type := some "application/json" },
                    post_body := .cred "node-red-admin" "password" "*"
                      ((w.node.user.map js_trim).getD "") (w.node.password.getD "") },
                  .invoke_token (w.node.protocol ++ "://" ++ w.node.url ++ "/auth/token") k)] := by
  constructor
  · simp only [Communicator.request_invoke_token, comm_send_request_sent, token_cred,
      cred_username_eq, cred_password_eq]
    rfl
  · simp only [Dispatcher.request_invoke_token, disp_send_request_sent, token_cred,
      cred_username_eq, cred_password_eq]
    rfl

/-- The user `"  admin\t\n"` is sent as `"admin"`, the password `" p w "` as it is. -/
theorem C16_token_request_body_witness :
    (Communicator.request_invoke_token exEnv exWorld .dispatch_get).sent =
      [({ send_url := "http://10.0.0.2:1880/auth/token", method := "post",
          headers := { Authorization := "Bearer", Content_type := some "application/json" },
          post_body := .cred "node-red-admin" "password" "*" "admin" " p w " },
        .invoke_token "http://10.0.0.2:1880/auth/token" .dispatch_get)] ∧
    (exDispatchNode.user.map js_trim).getD "" = "admin" ∧
    ((none : Option String).map js_trim).getD "" = "" := by
  refine ⟨?_, by decide, by decide⟩
  have := (C16_token_request_body exEnv exWorld .dispatch_get).1
  rw [this]
  decide

/-! ## The dispatch protocol: the fallback to the encrypted protocol -/

/-- When the Dispatcher `on_dispatch_auto_set` issues its POST it has stored the
destination host in `node.url`, the host that `on_dispatch_set_error` reads. -/
theorem disp_auto_set_node_url (E : Env) (w : World) (resp : Resp) :
    (Dispatcher.on_dispatch_auto_set E w resp).sent = w.sent ∨
    (Dispatcher.on_dispatch_auto_set E w resp).node.url = w.node.dest_url := by
  unfold Dispatcher.on_dispatch_auto_set
  split
  · exact Or.inl rfl
  · split
    · exact Or.inr (by simp)
    · exact Or.inl rfl
    · exact Or.inl rfl
    · exact Or.inl rfl

/-- C20: when the plain fetch (handler pair of `on_dispatch_auto_get`) fails with a
transport error, a request is issued if and only if the code is `ECONNRESET`, and it is
one GET to `https://<local_url>/flows` (Communicator) or `https://<src_url>/flows`
(Dispatcher), the host of the plain fetch; when that fallback request fails with a
transport error too, whatever the code, no request is issued, nothing is put in flight,
and the error status `Request Fail (<code>)` is set.  The push phase does the same with a
POST of the same headers and body to `https://<dest_url>/flows` (Communicator) or
`https://<node.url>/flows` (Dispatcher, where `node.url` holds the destination host). -/
theorem C20_fallback_iff_connreset (E : Env) (w : World) (r : Request) (code : String)
    (send_url : String) (flows : Body) (hdrs : Headers) :
    (Communicator.finish E w r .auto_get (.error code)).sent =
      (if code = "ECONNRESET" then
        w.sent ++ [({ send_url := "https://" ++ w.node.local_url ++ "/flows", method := "get",
                      headers := { Authorization := "Bearer", Content_type := none },
                      post_body := .null }, .get_error)]
      else w.sent) ∧
    (Dispatcher.finish E w r .auto_get (.error code)).sent =
      (if code = "ECONNRESET" then
        w.sent ++ [({ send_url := "https://" ++ w.node.src_url ++ "/flows", method := "get",
                      headers := { Authorization := "Bearer", Content_type := none },
                      post_body := .null }, .get_error)]
      else w.sent) ∧
    ((Communicator.finish E w r .get_error (.error code)).sent = w.sent ∧
      (Communicator.finish E w r .get_error (.error code)).pending = w.pending ∧
      (Communicator.finish E w r .get_error (.error code)).effects =
        w.effects ++ [.status_red (status_text "Request Fail" (.code code))]) ∧
    ((Dispatcher.finish E w r .get_error (.error code)).sent = w.sent ∧
      (Dispatcher.finish E w r .get_error (.error code)).pending = w.pending ∧
      (Dispatcher.finish E w r .get_error (.error code)).effects =
        w.effects ++ [.status_red (status_text "Request Fail" (.code code))]) ∧
    (Communicator.finish E w r (.auto_set send_url flows hdrs) (.error code)).sent =
      (if code = "ECONNRESET" then
        w.sent ++ [({ send_url := "https://" ++ w.node.dest_url ++ "/flows", method := "post",
                      headers := hdrs, post_body := flows },
                    .set_error ("https://" ++ w.node.dest_url ++ "/flows") flows)]
      else w.sent) ∧
    (Dispatcher.finish E w r (.auto_set send_url flows hdrs) (.error code)).sent =
      (if code = "ECONNRESET" then
        w.sent ++ [({ send_url := "https://" ++ w.node.url ++ "/flows", method := "post",
                      headers := hdrs, post_body := flows },
                    .set_error ("https://" ++ w.node.url ++ "/flows") flows)]
      else w.sent) ∧
    ((Communicator.finish E w r (.set_error send_url flows) (.error code)).sent = w.sent ∧
      (Communicator.finish E w r (.set_error send_url flows) (.error code)).pending =
        w.pending ∧
      (Communicator.finish E w r (.set_error send_url flows) (.error code)).effects =
        w.effects ++ [.status_red (status_text "Request Fail" (.code code))]) ∧
    ((Dispatcher.finish E w r (.set_error send_url flows) (.error code)).sent = w.sent ∧
      (Dispatcher.finish E w r (.set_error send_url flows) (.error code)).pending =
        w.pending ∧
      (Dispatcher.finish E w r (.set_error send_url flows) (.error code)).effects =
        w.effects ++ [.status_red (status_text "Request Fail" (.code code))]) := by
  refine ⟨?_, ?_, ?_, ?_, ?_, ?_, ?_, ?_⟩
  · simp only [Communicator.finish, Communicator.on_err, Communicator.on_dispatch_get_error]
    split
    · simp [Communicator.show_error_msg, METHOD_GET, METHOD_POST, VALUE_AUTH]
    · simp [Communicator.show_error_msg]
  · simp only [Dispatcher.finish, Dispatcher.on_err, Dispatcher.on_dispatch_get_error]
    split
    · simp [Dispatcher.get_error_msg, METHOD_GET, METHOD_POST, VALUE_AUTH]
    · simp [Dispatcher.get_error_msg]
  · simp [Communicator.finish, Communicator.on_err, Communicator.show_error_msg, World.emit]
  · simp [Dispatcher.finish, Dispatcher.on_err, Dispatcher.get_error_msg, World.emit]
  · simp only [Communicator.finish, Communicator.on_err, Communicator.on_dispatch_set_error]
    split
    · simp [Communicator.show_error_msg, METHOD_GET, METHOD_POST, VALUE_AUTH]
    · simp [Communicator.show_error_msg]
  · simp only [Dispatcher.finish, Dispatcher.on_err, Dispatcher.on_dispatch_set_error]
    split
    · simp [Dispatcher.get_error_msg, METHOD_GET, METHOD_POST, VALUE_AUTH]
    · simp [Dispatcher.get_error_msg]
  · simp [Communicator.finish, Communicator.on_err, Communicator.show_error_msg, World.emit]
  · simp [Dispatcher.finish, Dispatcher.on_err, Dispatcher.get_error_msg, World.emit]

/-! ## The development flag -/

/-- C22: for every value of the setting `functionGlobalContext.is_devel` the module
variable `IS_DEVEL` is truthy after the initialisation, a falsy setting (absent, `null`,
`false`, `0`, `NaN`, the empty string) leaving the default `true`; so with the flag that
the initialisation yields, every https request of `send_request` sets
`NODE_TLS_REJECT_UNAUTHORIZED` to `"0"` in both modules, and another request leaves the
setting as it is. -/
theorem C22_IS_DEVEL_always_truthy (s : JsValue) (E : Env) (w : World)
    (send_url method : String) (headers : Headers) (post_body : Body) (h : Handler) :
    (init_IS_DEVEL s).truthy = true ∧
    (s.truthy = true ∨ init_IS_DEVEL s = .bool true) ∧
    init_IS_DEVEL .undefined = .bool true ∧
    init_IS_DEVEL (.bool false) = .bool true ∧
    (Communicator.send_request { E with IS_DEVEL := (init_IS_DEVEL s).truthy } w send_url
        method headers post_body h).tls =
      (if test_https_i send_url then some "0" else w.tls) ∧
    (Dispatcher.send_request { E with IS_DEVEL := (init_IS_DEVEL s).truthy } w send_url
        method headers post_body h).tls =
      (if test_https send_url then some "0" else w.tls) := by
  have ht : (init_IS_DEVEL s).truthy = true := by
    unfold init_IS_DEVEL
    split
    · assumption
    · rfl
  refine ⟨ht, ?_, rfl, rfl, ?_, ?_⟩
  · unfold init_IS_DEVEL
    cases hs : s.truthy
    · exact Or.inr (by simp)
    · exact Or.inl rfl
  · simp only [Communicator.send_request, ht]
    split <;> simp [Communicator.set_https_secure_check, World.issue, World.emit]
  · simp only [Dispatcher.send_request, ht]
    split <;> simp [World.issue, World.emit]

/-! ## What the main loop of the Communicator `sheet_prune` leaves of each object -/

section frame
open Communicator
variable (g : Nat → String) (t : String) (cl : List String) (cfg : WsCfg)

theorem frame_ok_refl (n : Node) : frame_ok n n = true := by
  simp [frame_ok]

theorem frame_entry_refl (e : Option Node) : frame_entry e e = true := by
  cases e with
  | none => rfl
  | some n => exact frame_ok_refl n

theorem forall₂_frame_entry_refl (flows : Flows) :
    List.Forall₂ (fun e e' => frame_entry e e' = true) flows flows := by
  induction flows with
  | nil => exact List.Forall₂.nil
  | cons e rest ih => exact List.Forall₂.cons (frame_entry_refl e) ih

/-- The object that one iteration leaves: a selected delegate is rewritten, every other
object is left as it is. -/
theorem prune_step_fst (n : Node) (st : LoopState) :
    (selected t cl n = true ∧ n.type = some "flow-dlg-in" ∧
      (prune_step g t cl cfg n st).1 = wsIn n st.node_id (g st.calls)) ∨
    (selected t cl n = true ∧ n.type = some "flow-dlg-out" ∧
      (prune_step g t cl cfg n st).1 = wsOut n st.node_id) ∨
    ((selected t cl n = false ∨
        (n.type ≠ some "flow-dlg-in" ∧ n.type ≠ some "flow-dlg-out")) ∧
      (prune_step g t cl cfg n st).1 = n) := by
  rcases prune_step_cases t cl n with h | h | h | h
  · exact Or.inl ⟨h.1, h.2, by rw [prune_step_in g t cl cfg n st h.1 h.2]; rfl⟩
  · exact Or.inr (Or.inl ⟨h.1, h.2, by rw [prune_step_out g t cl cfg n st h.1 h.2]; rfl⟩)
  · refine Or.inr (Or.inr ⟨?_, by rw [prune_step_keep g t cl cfg n st h.1 h.2.1 h.2.2]⟩)
    rcases h.2.1 with h1 | h1
    · rcases h.2.2 with h2 | h2
      · exact Or.inr ⟨h1, h2⟩
      · exact Or.inl h2
    · exact Or.inl h1
  · exact Or.inr (Or.inr ⟨Or.inl h.1, by rw [prune_step_skip g t cl cfg n st h.1 h.2]⟩)

theorem prune_step_frame (n : Node) (st : LoopState) :
    frame_ok n (prune_step g t cl cfg n st).1 = true := by
  rcases prune_step_fst g t cl cfg n st with h | h | h
  · rw [h.2.2]
    simp [frame_ok, wsIn, h.2.1]
  · rw [h.2.2]
    simp [frame_ok, wsOut, h.2.1]
  · rw [h.2]
    exact frame_ok_refl n

theorem prune_loop_frame :
    ∀ (flows : Flows) (st : LoopState),
      List.Forall₂ (fun e e' => frame_entry e e' = true) flows
        (prune_loop g t cl cfg flows st).1 := by
  intro flows
  induction flows with
  | nil => intro st; exact List.Forall₂.nil
  | cons e rest ih =>
    intro st
    cases e with
    | none => exact forall₂_frame_entry_refl _
    | some n =>
      simp only [prune_loop]
      exact List.Forall₂.cons (prune_step_frame g t cl cfg n st) (ih _)

theorem prune_try_frame (flows : Flows) (node : CommNode) (tab_id : String) :
    List.Forall₂ (fun e e' => frame_entry e e' = true) flows
      (prune_try g flows node tab_id).1 := by
  unfold prune_try
  split
  · exact forall₂_frame_entry_refl _
  · exact forall₂_frame_entry_refl _
  · rename_i sub_flows _
    have h := prune_loop_frame g tab_id sub_flows (mk_ws_cfg (g 0) node) flows (init_state g)
    split <;> rename_i heq <;> rw [heq] at h <;> exact h

theorem sheet_prune_run_frame (flows : Flows) (node : CommNode) :
    List.Forall₂ (fun e e' => frame_entry e e' = true) flows
      (sheet_prune_run g flows node).1 := by
  unfold sheet_prune_run
  split
  · exact forall₂_frame_entry_refl _
  · exact forall₂_frame_entry_refl _
  · split
    · split
      · rename_i tab_id _ _
        have h := prune_try_frame g flows node tab_id
        split <;> rename_i heq <;> rw [heq] at h <;> exact h
      · exact forall₂_frame_entry_refl _
    · exact forall₂_frame_entry_refl _

/-- The object at position `i` after the loop is what one iteration leaves of the object
at position `i` before it. -/
theorem prune_steps_getElem :
    ∀ (l : List Node) (st : LoopState) (i : Nat) (d : Node), l[i]? = some d →
      ∃ st', (prune_steps g t cl cfg l st).1[i]? = some (prune_step g t cl cfg d st').1 := by
  intro l
  induction l with
  | nil => intro st i d h; simp at h
  | cons n rest ih =>
    intro st i d h
    cases i with
    | zero =>
      simp only [List.getElem?_cons_zero, Option.some.injEq] at h
      subst h
      exact ⟨st, by simp [prune_steps]⟩
    | succ j =>
      simp only [List.getElem?_cons_succ] at h
      obtain ⟨st', hst⟩ := ih (prune_step g t cl cfg n st).2 j d h
      exact ⟨st', by simpa [prune_steps] using hst⟩

theorem prune_steps_mem (l : List Node) (st : LoopState) (n' : Node)
    (h : n' ∈ (prune_steps g t cl cfg l st).1) :
    ∃ d st', d ∈ l ∧ n' = (prune_step g t cl cfg d st').1 := by
  obtain ⟨i, hi⟩ := List.getElem?_of_mem h
  have hlt : i < l.length := by
    have := (List.getElem?_eq_some_iff.1 hi).1
    rwa [prune_steps_length] at this
  obtain ⟨st', hst⟩ := prune_steps_getElem g t cl cfg l st i l[i]
    (List.getElem?_eq_getElem hlt)
  rw [hi] at hst
  exact ⟨l[i], st', List.getElem_mem hlt, Option.some.inj hst⟩

theorem mem_origs (fl : List PNode) (n : Node) : n ∈ origs fl ↔ PNode.orig n ∈ fl := by
  unfold origs
  rw [List.mem_filterMap]
  constructor
  · rintro ⟨p, hp, hpn⟩
    cases p with
    | cfg c => simp at hpn
    | func f => simp at hpn
    | orig m =>
      simp only [Option.some.injEq] at hpn
      rw [← hpn]
      exact hp
  · intro h
    exact ⟨_, h, rfl⟩

theorem prune_step_funcs (n : Node) (st : LoopState) (f : FuncNode)
    (h : PNode.func f ∈ (prune_step g t cl cfg n st).2.pruned_flow) :
    PNode.func f ∈ st.pruned_flow ∨ ∃ id d, f = mk_func_node id d := by
  rcases prune_step_cases t cl n with c | c | c | c
  · rw [prune_step_in g t cl cfg n st c.1 c.2] at h
    simp only [List.mem_append, List.mem_singleton, PNode.func.injEq] at h
    rcases h with (h | h) | h
    · split at h
      · simp only [List.mem_append, List.mem_singleton] at h
        rcases h with h | h
        · exact Or.inl h
        · cases h
      · exact Or.inl h
    · exact Or.inr ⟨_, _, h⟩
    · cases h
  · rw [prune_step_out g t cl cfg n st c.1 c.2] at h
    simp only [List.mem_append, List.mem_singleton] at h
    rcases h with h | h
    · split at h
      · simp only [List.mem_append, List.mem_singleton] at h
        rcases h with h | h
        · exact Or.inl h
        · cases h
      · exact Or.inl h
    · cases h
  · rw [prune_step_keep g t cl cfg n st c.1 c.2.1 c.2.2] at h
    simp only [List.mem_append, List.mem_singleton] at h
    rcases h with h | h
    · exact Or.inl h
    · cases h
  · rw [prune_step_skip g t cl cfg n st c.1 c.2] at h
    exact Or.inl h

theorem prune_steps_funcs :
    ∀ (l : List Node) (st : LoopState) (f : FuncNode),
      PNode.func f ∈ (prune_steps g t cl cfg l st).2.pruned_flow →
      PNode.func f ∈ st.pruned_flow ∨ ∃ id d, f = mk_func_node id d := by
  intro l
  induction l with
  | nil => intro st f h; exact Or.inl h
  | cons n rest ih =>
    intro st f h
    simp only [prune_steps] at h
    rcases ih _ f h with h1 | h1
    · exact prune_step_funcs g t cl cfg n st f h1
    · exact Or.inr h1

end frame

/-! ## Claims on the flow returned by the Communicator `sheet_prune` -/

section flow
open Communicator

theorem prune_steps_unchanged_mem (g : Nat → String) (t : String) (cl : List String)
    (cfg : WsCfg) (l : List Node) (st : LoopState) (n : Node) (hn : n ∈ l)
    (hs : selected t cl n = false) : n ∈ (prune_steps g t cl cfg l st).1 := by
  obtain ⟨i, hi⟩ := List.getElem?_of_mem hn
  obtain ⟨st', hst⟩ := prune_steps_getElem g t cl cfg l st i n hi
  rcases prune_step_fst g t cl cfg n st' with h | h | h
  · rw [hs] at h
    exact absurd h.1 (by simp)
  · rw [hs] at h
    exact absurd h.1 (by simp)
  · rw [h.2] at hst
    exact List.getElem?_mem hst

theorem sheet_prune_run_origs (g : Nat → String) (flows after : Flows) (node : CommNode)
    (r : PruneResult) (fl : List PNode)
    (hrun : sheet_prune_run g flows node = (after, .ret r)) (hfl : r.flow = some fl) :
    ∃ (tab : Node) (t : String) (cl : List String) (l : List Node),
      flows = l.map some ∧ first_tab node.sheet flows = some tab ∧ tab.id = some t ∧
      Communicator.traverse_subflows flows [t] [] = .ret cl ∧
      after = (prune_steps g t cl (mk_ws_cfg (g 0) node) l (init_state g)).1.map some ∧
      fl = (prune_steps g t cl (mk_ws_cfg (g 0) node) l (init_state g)).2.pruned_flow ∧
      origs fl = (prune_steps g t cl (mk_ws_cfg (g 0) node) l (init_state g)).1.filter
        (member t cl) := by
  obtain ⟨tab, t, cl, l, hl, htab, hid, -, hcl, hafter, hflow⟩ :=
    sheet_prune_run_inv g flows after node r fl hrun hfl
  obtain ⟨h1, -⟩ := prune_steps_origs g t cl (mk_ws_cfg (g 0) node) l (init_state g)
  refine ⟨tab, t, cl, l, hl, htab, hid, hcl, hafter, hflow, ?_⟩
  rw [hflow, h1]
  simp [init_state, origs]

/-- C17 as stated fails: on tab `X` with a delegate of each kind and the configuration node
`b1` that no node references, `sheet_prune` returns `PRUNE_OK` and the flow, serialised
and parsed back, holds `b1`, a node outside the set that the round-trip property names. -/
theorem C17_unreferenced_config_node_is_kept :
    Communicator.sheet_prune exIds brokerFlows exNode =
      .ret { status := PRUNE_OK,
             flow := some [.orig exTab, .cfg (mk_ws_cfg "id0" exNode),
               .func (mk_func_node "id1" exIn), .orig (wsIn exIn "id0" "id1"),
               .orig (wsOut exOut "id1"), .orig exBroker],
             msg := "Prune ok" } ∧
    exBroker ∈ [PNode.orig exTab, .cfg (mk_ws_cfg "id0" exNode),
        .func (mk_func_node "id1" exIn), .orig (wsIn exIn "id0" "id1"),
        .orig (wsOut exOut "id1"), .orig exBroker].map reparse ∧
    spec_roundtrip_member "t" (brokerFlows.filterMap id) exBroker = false ∧
    spec_roundtrip_member "t" ([PNode.orig exTab, .cfg (mk_ws_cfg "id0" exNode),
        .func (mk_func_node "id1" exIn), .orig (wsIn exIn "id0" "id1"),
        .orig (wsOut exOut "id1"), .orig exBroker].map reparse) exBroker = false := by
  refine ⟨by decide, by decide, by decide, by decide⟩

/-- C17, amended: for every graph on which `sheet_prune` returns a flow, the flow
serialised and parsed back holds only objects that the array holds after the call and the
main loop pushes (the tab, a node placed on it or in a subflow of its closure, a subflow
of the closure, or a node that is not a tab or subflow and has falsy `x`, `y` and `z`),
the synthesized configuration object and synthesized adapter objects; it holds every
object of the array that the loop pushes, and in particular every unselected node of the
input that is not a tab or subflow and has falsy `x`, `y` and `z`, referenced or not. -/
theorem C17_roundtrip_nodes (get_node_id : Nat → String) (flows after : Flows)
    (node : CommNode) (r : PruneResult) (fl : List PNode)
    (hrun : Communicator.sheet_prune_run get_node_id flows node = (after, .ret r))
    (hfl : r.flow = some fl) :
    ∃ (tab : Node) (t : String) (cl : List String),
      first_tab node.sheet flows = some tab ∧ tab.id = some t ∧
      Communicator.traverse_subflows flows [t] [] = .ret cl ∧
      (∀ n, n ∈ fl.map reparse →
        (some n ∈ after ∧ member t cl n = true) ∨
        n = reparse (.cfg (mk_ws_cfg (get_node_id 0) node)) ∨
        ∃ id d, n = reparse (.func (mk_func_node id d))) ∧
      (∀ n, some n ∈ after → member t cl n = true → n ∈ fl.map reparse) ∧
      (∀ n, some n ∈ flows → selected t cl n = false → is_config n = true →
        n ∈ fl.map reparse) := by
  obtain ⟨tab, t, cl, l, hl, htab, hid, hcl, hafter, hflow, horigs⟩ :=
    sheet_prune_run_origs get_node_id flows after node r fl hrun hfl
  have hpush : ∀ n, n ∈ (prune_steps get_node_id t cl (mk_ws_cfg (get_node_id 0) node) l
      (init_state get_node_id)).1 → member t cl n = true → n ∈ fl.map reparse := by
    intro n hn hm
    have : n ∈ origs fl := by
      rw [horigs]
      exact List.mem_filter.2 ⟨hn, hm⟩
    exact List.mem_map.2 ⟨.orig n, (mem_origs fl n).1 this, rfl⟩
  refine ⟨tab, t, cl, htab, hid, hcl, ?_, ?_, ?_⟩
  · intro n hn
    obtain ⟨p, hp, rfl⟩ := List.mem_map.1 hn
    cases p with
    | cfg c =>
      have hinv := prune_steps_cfgInv get_node_id t cl (mk_ws_cfg (get_node_id 0) node) l
        (init_state get_node_id) (by simp [CfgInv, init_state])
      rw [hflow] at hp
      rw [hinv.1 _ hp rfl]
      exact Or.inr (Or.inl rfl)
    | func f =>
      rw [hflow] at hp
      rcases prune_steps_funcs get_node_id t cl (mk_ws_cfg (get_node_id 0) node) l
        (init_state get_node_id) f hp with h | ⟨id, d, h⟩
      · simp [init_state] at h
      · exact Or.inr (Or.inr ⟨id, d, by rw [h]⟩)
    | orig m =>
      have hm : m ∈ origs fl := (mem_origs fl m).2 hp
      rw [horigs] at hm
      obtain ⟨h1, h2⟩ := List.mem_filter.1 hm
      refine Or.inl ⟨?_, h2⟩
      rw [hafter]
      exact List.mem_map.2 ⟨m, h1, rfl⟩
  · intro n hn hm
    rw [hafter] at hn
    obtain ⟨m, hm1, hm2⟩ := List.mem_map.1 hn
    cases hm2
    exact hpush n hm1 hm
  · intro n hn hs hc
    rw [hl] at hn
    obtain ⟨m, hm1, hm2⟩ := List.mem_map.1 hn
    cases hm2
    refine hpush n (prune_steps_unchanged_mem _ _ _ _ _ _ n hm1 hs) ?_
    simp [member, hc]

/-- C17 (amended) on tab `X` with a delegate of each kind and the unreferenced
configuration node `b1`. -/
theorem C17_roundtrip_nodes_witness :
    ∃ (tab : Node) (t : String) (cl : List String),
      first_tab exNode.sheet brokerFlows = some tab ∧ tab.id = some t ∧
      Communicator.traverse_subflows brokerFlows [t] [] = .ret cl ∧
      (∀ n, n ∈ [PNode.orig exTab, .cfg (mk_ws_cfg "id0" exNode),
          .func (mk_func_node "id1" exIn), .orig (wsIn exIn "id0" "id1"),
          .orig (wsOut exOut "id1"), .orig exBroker].map reparse →
        (some n ∈ [some exTab, some (wsIn exIn "id0" "id1"), some (wsOut exOut "id1"),
            some exBroker] ∧ member t cl n = true) ∨
        n = reparse (.cfg (mk_ws_cfg (exIds 0) exNode)) ∨
        ∃ id d, n = reparse (.func (mk_func_node id d))) ∧
      (∀ n, some n ∈ [some exTab, some (wsIn exIn "id0" "id1"), some (wsOut exOut "id1"),
          some exBroker] → member t cl n = true →
        n ∈ [PNode.orig exTab, .cfg (mk_ws_cfg "id0" exNode),
          .func (mk_func_node "id1" exIn), .orig (wsIn exIn "id0" "id1"),
          .orig (wsOut exOut "id1"), .orig exBroker].map reparse) ∧
      (∀ n, some n ∈ brokerFlows → selected t cl n = false → is_config n = true →
        n ∈ [PNode.orig exTab, .cfg (mk_ws_cfg "id0" exNode),
          .func (mk_func_node "id1" exIn), .orig (wsIn exIn "id0" "id1"),
          .orig (wsOut exOut "id1"), .orig exBroker].map reparse) :=
  C17_roundtrip_nodes exIds brokerFlows
    [some exTab, some (wsIn exIn "id0" "id1"), some (wsOut exOut "id1"), some exBroker]
    exNode
    { status := PRUNE_OK,
      flow := some [.orig exTab, .cfg (mk_ws_cfg "id0" exNode),
        .func (mk_func_node "id1" exIn), .orig (wsIn exIn "id0" "id1"),
        .orig (wsOut exOut "id1"), .orig exBroker],
      msg := "Prune ok" }
    [.orig exTab, .cfg (mk_ws_cfg "id0" exNode), .func (mk_func_node "id1" exIn),
      .orig (wsIn exIn "id0" "id1"), .orig (wsOut exOut "id1"), .orig exBroker]
    (by decide) rfl

end flow

section delegates
open Communicator

/-- C19 as stated fails: a node of type `flow-dlg-out` that is outside the selected sheet
and has no `x`, `y` and `z` is pushed by the configuration branch of the loop as it is;
`sheet_prune` returns `PRUNE_OK` and the returned flow holds a node of type
`flow-dlg-out`. -/
theorem C19_unselected_delegate_is_kept :
    Communicator.sheet_prune exIds orphanFlows exNode =
      .ret { status := PRUNE_OK,
             flow := some [.orig exTab, .cfg (mk_ws_cfg "id0" exNode),
               .func (mk_func_node "id1" exIn), .orig (wsIn exIn "id0" "id1"),
               .orig (wsOut exOut "id1"), .orig exOrphan],
             msg := "Prune ok" } ∧
    exOrphan.type = some "flow-dlg-out" ∧
    selected "t" [] exOrphan = false ∧ is_config exOrphan = true := by
  refine ⟨by decide, by decide, by decide, by decide⟩

/-- C19, amended: for every graph on which `sheet_prune` returns a flow, a node of the
returned flow that still has type `flow-dlg-in` or `flow-dlg-out` is outside the selected
sheet (it was pushed as a node with falsy `x`, `y` and `z`); every `flow-dlg-in` of the
selected sheet is in the array and in the returned flow with type `websocket in`, every
`flow-dlg-out` of the selected sheet with type `websocket out`, both with `server` set to
the empty string and with their `id` kept. -/
theorem C19_selected_delegates_rewritten (get_node_id : Nat → String) (flows after : Flows)
    (node : CommNode) (r : PruneResult) (fl : List PNode)
    (hrun : Communicator.sheet_prune_run get_node_id flows node = (after, .ret r))
    (hfl : r.flow = some fl) :
    ∃ (tab : Node) (t : String) (cl : List String),
      first_tab node.sheet flows = some tab ∧ tab.id = some t ∧
      Communicator.traverse_subflows flows [t] [] = .ret cl ∧
      (∀ n, PNode.orig n ∈ fl →
        n.type = some "flow-dlg-in" ∨ n.type = some "flow-dlg-out" →
        selected t cl n = false ∧ is_config n = true) ∧
      (∀ (i : Nat) (d : Node), flows[i]? = some (some d) → selected t cl d = true →
        d.type = some "flow-dlg-in" →
        ∃ d', after[i]? = some (some d') ∧ PNode.orig d' ∈ fl ∧
          d'.type = some "websocket in" ∧ d'.server = some "" ∧ d'.id = d.id) ∧
      (∀ (i : Nat) (d : Node), flows[i]? = some (some d) → selected t cl d = true →
        d.type = some "flow-dlg-out" →
        ∃ d', after[i]? = some (some d') ∧ PNode.orig d' ∈ fl ∧
          d'.type = some "websocket out" ∧ d'.server = some "" ∧ d'.id = d.id) := by
  obtain ⟨tab, t, cl, l, hl, htab, hid, hcl, hafter, hflow, horigs⟩ :=
    sheet_prune_run_origs get_node_id flows after node r fl hrun hfl
  have hget : ∀ (i : Nat) (d : Node), flows[i]? = some (some d) → selected t cl d = true →
      ∃ st', after[i]? = some (some (prune_step get_node_id t cl
          (mk_ws_cfg (get_node_id 0) node) d st').1) ∧
        PNode.orig (prune_step get_node_id t cl (mk_ws_cfg (get_node_id 0) node) d st').1
          ∈ fl := by
    intro i d hi hs
    have hli : l[i]? = some d := by
      rw [hl, List.getElem?_map] at hi
      cases hlx : l[i]? with
      | none => rw [hlx] at hi; simp at hi
      | some x =>
        rw [hlx] at hi
        simp only [Option.map_some', Option.some.injEq] at hi
        rw [hi]
    obtain ⟨st', hst⟩ := prune_steps_getElem get_node_id t cl
      (mk_ws_cfg (get_node_id 0) node) l (init_state get_node_id) i d hli
    refine ⟨st', ?_, ?_⟩
    · rw [hafter, List.getElem?_map, hst]
      rfl
    · apply (mem_origs fl _).1
      rw [horigs]
      refine List.mem_filter.2 ⟨List.getElem?_mem hst, ?_⟩
      rw [prune_step_member]
      simp [member, hs]
  refine ⟨tab, t, cl, htab, hid, hcl, ?_, ?_, ?_⟩
  · intro n hn hty
    have hm : n ∈ origs fl := (mem_origs fl n).2 hn
    rw [horigs] at hm
    obtain ⟨h1, h2⟩ := List.mem_filter.1 hm
    obtain ⟨d, st', -, hd⟩ := prune_steps_mem get_node_id t cl
      (mk_ws_cfg (get_node_id 0) node) l (init_state get_node_id) n h1
    have hsel : selected t cl n = false := by
      rcases prune_step_fst get_node_id t cl (mk_ws_cfg (get_node_id 0) node) d st'
        with h | h | h
      · rw [← hd] at h
        rw [h.2.2] at hty
        simp [wsIn] at hty
      · rw [← hd] at h
        rw [h.2.2] at hty
        simp [wsOut] at hty
      · rw [← hd] at h
        rw [h.2] at hty ⊢
        rcases h.1 with h3 | h3
        · exact h3
        · rcases hty with h4 | h4
          · exact absurd h4 h3.1
          · exact absurd h4 h3.2
    refine ⟨hsel, ?_⟩
    simpa [member, hsel] using h2
  · intro i d hi hs hty
    obtain ⟨st', h1, h2⟩ := hget i d hi hs
    rcases prune_step_fst get_node_id t cl (mk_ws_cfg (get_node_id 0) node) d st'
      with h | h | h
    · rw [h.2.2] at h1 h2
      exact ⟨_, h1, h2, rfl, rfl, rfl⟩
    · rw [hty] at h
      exact absurd h.2.1 (by decide)
    · rcases h.1 with h3 | h3
      · rw [hs] at h3
        exact absurd h3 (by simp)
      · exact absurd hty h3.1
  · intro i d hi hs hty
    obtain ⟨st', h1, h2⟩ := hget i d hi hs
    rcases prune_step_fst get_node_id t cl (mk_ws_cfg (get_node_id 0) node) d st'
      with h | h | h
    · rw [hty] at h
      exact absurd h.2.1 (by decide)
    · rw [h.2.2] at h1 h2
      exact ⟨_, h1, h2, rfl, rfl, rfl⟩
    · rcases h.1 with h3 | h3
      · rw [hs] at h3
        exact absurd h3 (by simp)
      · exact absurd hty h3.2

/-- C19 (amended) on tab `X` with a delegate of each kind and a delegate-out that has no
`x`, `y` and `z`. -/
theorem C19_selected_delegates_rewritten_witness :
    ∃ (tab : Node) (t : String) (cl : List String),
      first_tab exNode.sheet orphanFlows = some tab ∧ tab.id = some t ∧
      Communicator.traverse_subflows orphanFlows [t] [] = .ret cl ∧
      (∀ n, PNode.orig n ∈ [PNode.orig exTab, .cfg (mk_ws_cfg "id0" exNode),
          .func (mk_func_node "id1" exIn), .orig (wsIn exIn "id0" "id1"),
          .orig (wsOut exOut "id1"), .orig exOrphan] →
        n.type = some "flow-dlg-in" ∨ n.type = some "flow-dlg-out" →
        selected t cl n = false ∧ is_config n = true) ∧
      (∀ (i : Nat) (d : Node), orphanFlows[i]? = some (some d) → selected t cl d = true →
        d.type = some "flow-dlg-in" →
        ∃ d', [some exTab, some (wsIn exIn "id0" "id1"), some (wsOut exOut "id1"),
            some exOrphan][i]? = some (some d') ∧
          PNode.orig d' ∈ [PNode.orig exTab, .cfg (mk_ws_cfg "id0" exNode),
            .func (mk_func_node "id1" exIn), .orig (wsIn exIn "id0" "id1"),
            .orig (wsOut exOut "id1"), .orig exOrphan] ∧
          d'.type = some "websocket in" ∧ d'.server = some "" ∧ d'.id = d.id) ∧
      (∀ (i : Nat) (d : Node), orphanFlows[i]? = some (some d) → selected t cl d = true →
        d.type = some "flow-dlg-out" →
        ∃ d', [some exTab, some (wsIn exIn "id0" "id1"), some (wsOut exOut "id1"),
            some exOrphan][i]? = some (some d') ∧
          PNode.orig d' ∈ [PNode.orig exTab, .cfg (mk_ws_cfg "id0" exNode),
            .func (mk_func_node "id1" exIn), .orig (wsIn exIn "id0" "id1"),
            .orig (wsOut exOut "id1"), .orig exOrphan] ∧
          d'.type = some "websocket out" ∧ d'.server = some "" ∧ d'.id = d.id) :=
  C19_selected_delegates_rewritten exIds orphanFlows
    [some exTab, some (wsIn exIn "id0" "id1"), some (wsOut exOut "id1"), some exOrphan]
    exNode
    { status := PRUNE_OK,
      flow := some [.orig exTab, .cfg (mk_ws_cfg "id0" exNode),
        .func (mk_func_node "id1" exIn), .orig (wsIn exIn "id0" "id1"),
        .orig (wsOut exOut "id1"), .orig exOrphan],
      msg := "Prune ok" }
    [.orig exTab, .cfg (mk_ws_cfg "id0" exNode), .func (mk_func_node "id1" exIn),
      .orig (wsIn exIn "id0" "id1"), .orig (wsOut exOut "id1"), .orig exOrphan]
    (by decide) rfl

end delegates

section mutation
open Communicator

/-- C21: for every array `flows` and every node handle, the call of the Communicator
`sheet_prune` leaves the array with the same entries in the same order, and on each object
it changes nothing but `type`, `server`, `client` and `wires`, `wires` only on an object of
type `flow-dlg-in` and nothing at all on an object whose type is neither `flow-dlg-in` nor
`flow-dlg-out`; every object of the returned flow that comes from the array is the object
that the call left at some position of the array, so it equals the input object of that
position unless that one is a delegate. -/
theorem C21_sheet_prune_mutates_delegates_only (get_node_id : Nat → String) (flows : Flows)
    (node : CommNode) :
    List.Forall₂ (fun e e' => frame_entry e e' = true) flows
      (sheet_prune_run get_node_id flows node).1 ∧
    ∀ (r : PruneResult) (fl : List PNode) (n' : Node),
      (sheet_prune_run get_node_id flows node).2 = .ret r → r.flow = some fl →
      PNode.orig n' ∈ fl →
      ∃ (i : Nat) (n : Node), flows[i]? = some (some n) ∧
        (sheet_prune_run get_node_id flows node).1[i]? = some (some n') ∧
        frame_ok n n' = true ∧
        (n.type ≠ some "flow-dlg-in" → n.type ≠ some "flow-dlg-out" → n' = n) := by
  refine ⟨sheet_prune_run_frame get_node_id flows node, ?_⟩
  intro r fl n' hr hfl hn
  have hrun : sheet_prune_run get_node_id flows node =
      ((sheet_prune_run get_node_id flows node).1, .ret r) := by
    rw [← hr]
  obtain ⟨tab, t, cl, l, hl, -, -, -, hafter, -, horigs⟩ :=
    sheet_prune_run_origs get_node_id flows _ node r fl hrun hfl
  have hm : n' ∈ origs fl := (mem_origs fl n').2 hn
  rw [horigs] at hm
  obtain ⟨i, hi⟩ := List.getElem?_of_mem (List.mem_filter.1 hm).1
  have hlt : i < l.length := by
    have := (List.getElem?_eq_some_iff.1 hi).1
    rwa [prune_steps_length] at this
  obtain ⟨st', hst⟩ := prune_steps_getElem get_node_id t cl (mk_ws_cfg (get_node_id 0) node)
    l (init_state get_node_id) i l[i] (List.getElem?_eq_getElem hlt)
  rw [hi] at hst
  have hn' : n' = (prune_step get_node_id t cl (mk_ws_cfg (get_node_id 0) node) l[i] st').1 :=
    Option.some.inj hst
  have hframe : frame_ok l[i] n' = true := by
    rw [hn']
    exact prune_step_frame _ _ _ _ _ _
  refine ⟨i, l[i], ?_, ?_, hframe, ?_⟩
  · rw [hl, List.getElem?_map, List.getElem?_eq_getElem hlt]
    rfl
  · rw [hafter, List.getElem?_map, hi]
    rfl
  · intro h1 h2
    have h3 := hframe
    simp only [frame_ok, h1, h2, decide_False, Bool.false_or, Bool.and_eq_true,
      decide_eq_true_eq] at h3
    exact h3.2

/-- C21 on tab `X` with a delegate of each kind: the tab is left as it is, the delegates
keep `id`, `z`, `label`, `x`, `y` and their other attributes. -/
theorem C21_sheet_prune_mutates_delegates_only_witness :
    List.Forall₂ (fun e e' => frame_entry e e' = true) inOutFlows
      (sheet_prune_run exIds inOutFlows exNode).1 ∧
    (sheet_prune_run exIds inOutFlows exNode).1 =
      [some exTab, some (wsIn exIn "id0" "id1"), some (wsOut exOut "id1")] :=
  ⟨(C21_sheet_prune_mutates_delegates_only exIds inOutFlows exNode).1, by decide⟩

end mutation

/-! ## Several tabs with the label of the sheet -/

section tabs
open Communicator

theorem disp_prune_loop_map_some (t : String) (cl : List String) :
    ∀ (l pruned : List Node),
      Dispatcher.prune_loop t cl (l.map some) pruned =
        .ret (pruned ++ l.filter (selected t cl)) := by
  intro l
  induction l with
  | nil => intro pruned; simp [Dispatcher.prune_loop]
  | cons n rest ih =>
    intro pruned
    simp only [List.map_cons, Dispatcher.prune_loop]
    by_cases h : selected t cl n = true
    · simp [h, ih, List.filter_cons]
    · simp [h, ih, List.filter_cons]

/-- A call of the Dispatcher `sheet_prune` that returns an array found the first tab
labelled with the sheet name, computed the closure from its id and kept the selected
objects in their order. -/
theorem disp_sheet_prune_inv (flows : Flows) (name : String) (pruned : List Node)
    (h : Dispatcher.sheet_prune flows name = .ret (some pruned)) :
    ∃ (tab : Node) (t : String) (cl : List String),
      first_tab name flows = some tab ∧ tab.id = some t ∧
      Dispatcher.traverse_subflows flows [t] [] = .ret cl ∧
      pruned = (flows.filterMap id).filter (selected t cl) := by
  cases hft : find_tab name flows with
  | throw => simp [Dispatcher.sheet_prune, hft] at h
  | diverge => simp [Dispatcher.sheet_prune, hft] at h
  | ret tabid =>
    cases tabid with
    | none => simp [Dispatcher.sheet_prune, hft] at h
    | some t =>
      by_cases ht : t = ""
      · simp [Dispatcher.sheet_prune, hft, ht] at h
      · cases hcl : Dispatcher.traverse_subflows flows [t] [] with
        | throw => simp [Dispatcher.sheet_prune, hft, ht, hcl] at h
        | diverge => simp [Dispatcher.sheet_prune, hft, ht, hcl] at h
        | ret cl =>
          obtain ⟨l, rfl⟩ := (noNull_iff flows).1
            (traverse_subflows_ret_noNull _ _ _ _ hcl)
          have h1 := find_tab_map_some name l
          rw [hft] at h1
          cases htab : first_tab name (l.map some) with
          | none => rw [htab] at h1; simp at h1
          | some tab =>
            rw [htab] at h1
            simp only [Option.some_bind, Outcome.ret.injEq] at h1
            refine ⟨tab, t, cl, rfl, h1.symm, hcl, ?_⟩
            simp only [Dispatcher.sheet_prune, hft, ne_eq, ht, not_false_eq_true, if_true, hcl,
              disp_prune_loop_map_some, List.nil_append, Outcome.ret.injEq,
              Option.some.injEq] at h
            rw [filterMap_id_map_some]
            exact h.symm

theorem not_member_of_other_tab (t1 t2 : String) (cl : List String) (n : Node)
    (hz : n.z = some t2) (h2e : t2 ≠ "") (h21 : t2 ≠ t1) (hcl : t2 ∉ cl)
    (hid : n.id ≠ some t1) (hty : n.type ≠ some "subflow") :
    selected t1 cl n = false ∧ member t1 cl n = false := by
  have hs : selected t1 cl n = false := by
    simp [selected, hz, h21, hcl, hid, hty, indexOfFound]
  refine ⟨hs, ?_⟩
  simp [member, hs, is_config, hz, truthyStr, h2e]

/-- C18: when the array holds several tabs labelled with the sheet name, both modules work
with the first of them in the order of the array: the closure is seeded with its id and
the loop tests membership against its id.  A node placed on another tab (in particular on
a later tab of the same label), whose container is not in the closure, that does not
carry the id of the first tab and is not a subflow, is in no returned flow. -/
theorem C18_first_tab_wins (get_node_id : Nat → String) (flows : Flows) (node : CommNode)
    (tab1 : Node) (t1 : String)
    (htab : first_tab node.sheet flows = some tab1) (hid : tab1.id = some t1) :
    (∀ (after : Flows) (r : PruneResult) (fl : List PNode),
      Communicator.sheet_prune_run get_node_id flows node = (after, .ret r) →
      r.flow = some fl →
      ∃ cl, Communicator.traverse_subflows flows [t1] [] = .ret cl ∧
        origs fl = (after.filterMap id).filter (member t1 cl) ∧
        ∀ (n : Node) (t2 : String), n.z = some t2 → t2 ≠ "" → t2 ≠ t1 → t2 ∉ cl →
          n.id ≠ some t1 → n.type ≠ some "subflow" → PNode.orig n ∉ fl) ∧
    (∀ (pruned : List Node),
      Dispatcher.sheet_prune flows node.sheet = .ret (some pruned) →
      ∃ cl, Dispatcher.traverse_subflows flows [t1] [] = .ret cl ∧
        pruned = (flows.filterMap id).filter (selected t1 cl) ∧
        ∀ (n : Node) (t2 : String), n.z = some t2 → t2 ≠ "" → t2 ≠ t1 → t2 ∉ cl →
          n.id ≠ some t1 → n.type ≠ some "subflow" → n ∉ pruned) := by
  constructor
  · intro after r fl hrun hfl
    obtain ⟨tab, t, cl, l, hl, htab', hid', hcl, hafter, hflow, horigs⟩ :=
      sheet_prune_run_origs get_node_id flows after node r fl hrun hfl
    rw [htab] at htab'
    cases htab'
    rw [hid] at hid'
    cases hid'
    refine ⟨cl, hcl, ?_, ?_⟩
    · rw [horigs, hafter, filterMap_id_map_some]
    · intro n t2 hz h2e h21 hncl hnid hnty hmem
      have hm : n ∈ origs fl := (mem_origs fl n).2 hmem
      rw [horigs] at hm
      have := (List.mem_filter.1 hm).2
      rw [(not_member_of_other_tab t1 t2 cl n hz h2e h21 hncl hnid hnty).2] at this
      exact absurd this (by simp)
  · intro pruned hd
    obtain ⟨tab, t, cl, htab', hid', hcl, hp⟩ := disp_sheet_prune_inv flows node.sheet pruned hd
    rw [htab] at htab'
    cases htab'
    rw [hid] at hid'
    cases hid'
    refine ⟨cl, hcl, hp, ?_⟩
    intro n t2 hz h2e h21 hncl hnid hnty hmem
    rw [hp] at hmem
    have := (List.mem_filter.1 hmem).2
    rw [(not_member_of_other_tab t1 t2 cl n hz h2e h21 hncl hnid hnty).1] at this
    exact absurd this (by simp)

/-- C18 on two tabs labelled `X`: both modules return a flow, and the node `n2` placed on
the second tab is in neither. -/
theorem C18_first_tab_wins_witness :
    first_tab exNode.sheet twoTabsFlows = some exTab ∧ exTab.id = some "t" ∧
    (exTab2.type = some "tab" ∧ exTab2.label = some exNode.sheet ∧ exOnTab2.z = exTab2.id) ∧
    (∃ after r fl, Communicator.sheet_prune_run exIds twoTabsFlows exNode = (after, .ret r) ∧
      r.flow = some fl) ∧
    (∃ pruned, Dispatcher.sheet_prune twoTabsFlows exNode.sheet = .ret (some pruned)) ∧
    (∀ (after : Flows) (r : PruneResult) (fl : List PNode),
      Communicator.sheet_prune_run exIds twoTabsFlows exNode = (after, .ret r) →
      r.flow = some fl →
      ∃ cl, Communicator.traverse_subflows twoTabsFlows ["t"] [] = .ret cl ∧
        origs fl = (after.filterMap id).filter (member "t" cl) ∧
        ∀ (n : Node) (t2 : String), n.z = some t2 → t2 ≠ "" → t2 ≠ "t" → t2 ∉ cl →
          n.id ≠ some "t" → n.type ≠ some "subflow" → PNode.orig n ∉ fl) ∧
    (∀ (pruned : List Node),
      Dispatcher.sheet_prune twoTabsFlows exNode.sheet = .ret (some pruned) →
      ∃ cl, Dispatcher.traverse_subflows twoTabsFlows ["t"] [] = .ret cl ∧
        pruned = (twoTabsFlows.filterMap id).filter (selected "t" cl) ∧
        ∀ (n : Node) (t2 : String), n.z = some t2 → t2 ≠ "" → t2 ≠ "t" → t2 ∉ cl →
          n.id ≠ some "t" → n.type ≠ some "subflow" → n ∉ pruned) :=
  ⟨by decide, rfl, by decide, ⟨_, _, _, rfl, rfl⟩, ⟨_, rfl⟩,
    C18_first_tab_wins exIds twoTabsFlows exNode exTab "t" (by decide) rfl⟩

end tabs

end FlowDispatcher
